import Mathlib

/-!
# The tab controller (`WebContents`) of `chrome/browser/tab_contents/web_contents.cc`

A shallow embedding of the tab state machine.  A tab is a record of the
member variables the handlers read and write; every handler is a function
from tab states to tab states.  Calls that leave the tab (the broadcast bus,
the delegate, the view, the render manager, the history service, ...) are
appended, in program order, to the `effects` trace of the state, so that
"emits nothing" is "the trace did not grow".

Machine integers are unbounded (`Int`, `Nat`): none of the modelled
arithmetic can overflow on the values the handlers see.  `DCHECK` and
`NOTREACHED` are the release-build no-ops.
-/

namespace WebContentsModel

/-! ## Values exchanged with collaborators -/

/-- Identity of a content-process endpoint (`RenderViewHost*`). -/
abbrev RenderViewHost := Nat

/-- Identity of an isolation group (`SiteInstance*`). -/
abbrev SiteInstanceId := Nat

/-- Identity of a constrained child window (`ConstrainedWindow*`). -/
abbrev ConstrainedWindow := Nat

/-- Identity of an infobar delegate (`InfoBarDelegate*`). -/
abbrev InfoBarDelegate := Nat

/-- Identity of a bitmap (`SkBitmap`). -/
abbrev SkBitmap := Nat

/-- Identity of a pending reply (`IPC::Message* reply_msg`). -/
abbrev ReplyMsg := Nat

/-- The snapshot of the web preferences (`WebPreferences`), by its identity. -/
abbrev WebPreferences := Nat

/-- Where a link is to be opened (`WindowOpenDisposition`), by its number. -/
abbrev WindowOpenDisposition := Nat

/-- Modelled from the spec: a point on the monotonic clock (`base::TimeTicks`,
declared outside the source files at hand), as a number of microseconds. -/
abbrev TimeTicks := Int

/-- Modelled from the spec: a duration (`base::TimeDelta`), as a number of
microseconds. -/
abbrev TimeDelta := Int

/-- Modelled from the spec: the duration of `ms` milliseconds
(`TimeDelta::FromMilliseconds`). -/
def TimeDelta.FromMilliseconds (ms : Int) : TimeDelta := ms * 1000

/-- Delay, in milliseconds, under which a second JavaScript message box offers
the option to suppress further ones (line 118). -/
def kJavascriptMessageExpectedDelay : Int := 1000

/-- Minimum time, in milliseconds, since the download shelf was shown for a
navigation to hide it (line 122). -/
def kDownloadShelfHideDelay : Int := 5000

/-- Modelled from the spec: the error code "aborted" (`net::ERR_ABORTED`, declared
outside the source files at hand). -/
def ERR_ABORTED : Int := -3

/-- The load states `net::LoadState` named by `GetStatusText` (lines 374-392). -/
inductive LoadState where
  | LOAD_STATE_IDLE
  | LOAD_STATE_WAITING_FOR_CACHE
  | LOAD_STATE_RESOLVING_PROXY_FOR_URL
  | LOAD_STATE_RESOLVING_HOST
  | LOAD_STATE_CONNECTING
  | LOAD_STATE_SENDING_REQUEST
  | LOAD_STATE_WAITING_FOR_RESPONSE
  | LOAD_STATE_READING_RESPONSE
  deriving DecidableEq, Repr

/-- A parsed URL (`GURL`): its text and the components the tab asks for. -/
structure GURL where
  /-- The canonical text, `spec()`. -/
  spec : String
  /-- The scheme, compared by `SchemeIs` and `SchemeIsFile`. -/
  scheme : String
  /-- The host, `host()`. -/
  host : String
  /-- The last path component, `ExtractFileName()`. -/
  file_name : String
  /-- Whether the URL parsed, `is_valid()`. -/
  is_valid : Bool
  deriving DecidableEq, Repr

/-- The default-constructed `GURL()`: empty and invalid. -/
def GURL.EmptyGURL : GURL :=
  { spec := "", scheme := "", host := "", file_name := "", is_valid := false }

/-- Emptiness test `GURL::is_empty`. -/
def GURL.is_empty (u : GURL) : Bool := u.spec.isEmpty

/-- Scheme test `GURL::SchemeIs`. -/
def GURL.SchemeIs (u : GURL) (scheme : String) : Bool := u.scheme == scheme

/-- The scheme `chrome::kJavaScriptScheme`. -/
def kJavaScriptScheme : String := "javascript"

/-- Scheme test `GURL::SchemeIsFile`. -/
def GURL.SchemeIsFile (u : GURL) : Bool := u.scheme == "file"

/-- Modelled from the spec: the core values of a page transition
(`PageTransition::Type`, declared outside the source files at hand): how the
navigation came about. -/
inductive PageTransitionCore where
  | LINK
  | TYPED
  | AUTO_BOOKMARK
  | AUTO_SUBFRAME
  | MANUAL_SUBFRAME
  | GENERATED
  | START_PAGE
  | FORM_SUBMIT
  | RELOAD
  deriving DecidableEq, Repr

/-- Modelled from the spec: the page transition, a "bitfield" of a core value and
qualifier flags. -/
structure PageTransition where
  core : PageTransitionCore
  qualifier : Nat
  deriving DecidableEq, Repr

/-- The transition `PageTransition::LINK`, without qualifier. -/
def PageTransition.LINK : PageTransition :=
  { core := PageTransitionCore.LINK, qualifier := 0 }

/-- Modelled from the spec: the core value without the qualifier flags
(`PageTransition::StripQualifier`). -/
def PageTransition.StripQualifier (t : PageTransition) : PageTransitionCore := t.core

/-- Modelled from the spec: whether the transition is one of the main frame
(`PageTransition::IsMainFrame`): every core value but the two subframe ones. -/
def PageTransition.IsMainFrame (t : PageTransition) : Bool :=
  PageTransition.StripQualifier t != PageTransitionCore.AUTO_SUBFRAME &&
  PageTransition.StripQualifier t != PageTransitionCore.MANUAL_SUBFRAME

/-- Modelled from the spec: one element of the back/forward list
(`NavigationEntry`, declared outside the source files at hand), with the
attributes the spec lists and the tab reads. -/
structure NavigationEntry where
  url : GURL
  /-- The URL shown to the user, `display_url()`. -/
  display_url : GURL
  user_typed_url : GURL
  referrer : GURL
  transition_type : PageTransition
  /-- The page id; `-1` means not yet committed. -/
  page_id : Int
  title : String
  favicon_url : GURL
  content_state : String
  feedlist : List String
  site_instance : SiteInstanceId
  deriving DecidableEq, Repr

/-- Returns true if the entry's transition type is FORM_SUBMIT (lines 158-161). -/
def IsFormSubmit (entry : NavigationEntry) : Bool :=
  PageTransition.StripQualifier entry.transition_type == PageTransitionCore.FORM_SUBMIT

/-- Details broadcast with `LOAD_STOP` (`LoadNotificationDetails`). -/
structure LoadNotificationDetails where
  url : GURL
  origin : PageTransition
  load_time : TimeDelta
  session_index : Int
  deriving DecidableEq, Repr

/-- Details broadcast with the provisional-load notifications
(`ProvisionalLoadDetails`). -/
structure ProvisionalLoadDetails where
  is_main_frame : Bool
  is_in_page_navigation : Bool
  url : GURL
  error_code : Int
  deriving DecidableEq, Repr

/-- The notification kinds the tab posts on the broadcast bus. -/
inductive NotificationType where
  | LOAD_START
  | LOAD_STOP
  | WEB_CONTENTS_CONNECTED
  | WEB_CONTENTS_DISCONNECTED
  | WEB_CONTENTS_SWAPPED
  | TAB_CONTENTS_HIDDEN
  | TAB_CONTENTS_DESTROYED
  | FRAME_PROVISIONAL_LOAD_START
  | FAIL_PROVISIONAL_LOAD_WITH_ERROR
  | LOAD_FROM_MEMORY_CACHE
  | FIND_RESULT_AVAILABLE
  | DOM_OPERATION_RESPONSE
  | DOM_INSPECT_ELEMENT_RESPONSE
  deriving DecidableEq, Repr

/-- Modelled from the spec: a rectangle (`gfx::Rect`, declared outside the source
files at hand). -/
structure Rect where
  x : Int
  y : Int
  width : Int
  height : Int
  deriving DecidableEq, Repr

/-- The result of a find in page (`FindNotificationDetails`), with the five
values its constructor takes at lines 1437-1439. -/
structure FindNotificationDetails where
  request_id : Int
  number_of_matches : Int
  selection_rect : Rect
  active_match_ordinal : Int
  final_update : Bool
  deriving DecidableEq, Repr

/-- The payload of a notification (`NotificationDetails`). -/
inductive NotificationDetails where
  | NoDetails
  | Load (d : LoadNotificationDetails)
  | ProvisionalLoad (d : ProvisionalLoadDetails)
  | Find (d : FindNotificationDetails)
  deriving DecidableEq, Repr

/-! ## Collaborators -/

/-- The flags of `NotifyNavigationStateChanged` (`TabContents::InvalidateTypes`);
a list of them stands for their bitwise or. -/
inductive InvalidateTypes where
  | INVALIDATE_URL
  | INVALIDATE_TITLE
  | INVALIDATE_FAVICON
  | INVALIDATE_LOAD
  | INVALIDATE_FEEDLIST
  deriving DecidableEq, Repr

/-- A call that leaves the tab, recorded in program order.  `Notify` is a
post on the broadcast bus (`NotificationService::current()->Notify`); the other
constructors are calls on the delegate, the view, the render manager and the
auxiliary services. -/
inductive Effect where
  | Notify (type : NotificationType) (details : NotificationDetails)
  | render_manager_SetIsLoading (is_loading : Bool)
  | render_manager_OnJavaScriptMessageBoxClosed (reply_msg : ReplyMsg) (success : Bool)
      (prompt : String)
  | delegate_LoadingStateChanged
  | delegate_ContentsStateChanged
  | delegate_CloseContents
  | delegate_UpdateTargetURL (url : GURL)
  | delegate_URLStarredChanged (starred : Bool)
  | NotifyNavigationStateChanged (changed_flags : List InvalidateTypes)
  | view_OnContentsDestroy
  | view_Invalidate
  | view_SetPageTitle (title : String)
  | HungRendererWarning_HideForWebContents
  | pending_install_Cancel
  | CloseConstrainedWindow (window : ConstrainedWindow)
  | InfoBarClosed (d : InfoBarDelegate)
  | ToolbarSizeChanged (is_animating : Bool)
  | GetDownloadShelf
  | RunJavascriptMessageBox (frame_url : GURL) (flags : Int) (message : String)
      (default_prompt : String) (show_suppress_checkbox : Bool) (reply_msg : ReplyMsg)
  | controller_DiscardNonCommittedEntries
  | controller_NotifyEntryChanged (index : Nat)
  | password_manager_DidStopLoading
  | password_manager_DidNavigate
  | password_manager_ProvisionallySavePassword
  | fav_icon_helper_SetFavIconURL (icon_url : GURL)
  | fav_icon_helper_FetchFavIcon (url : GURL)
  | history_AddPage (url : GURL) (page_id : Int) (referrer : GURL)
      (transition : PageTransition) (redirects : List GURL)
  | history_SetPageTitle (url : GURL) (title : String)
  | history_SetPageThumbnail (url : GURL) (bitmap : SkBitmap) (score : Nat)
  | history_SetFavIconOutOfDateForPage (url : GURL)
  | url_model_Load
  | template_url_fetcher_ScheduleDownload (keyword : String) (osdd_url : GURL)
      (favicon_url : GURL) (autodetected : Bool)
  | dev_tools_manager_SendAttachToAgent (rvh : RenderViewHost)
  | render_view_host_NavigateToEntry (rvh : RenderViewHost) (entry : NavigationEntry)
      (reload : Bool)
  | render_view_host_GetApplicationInfo (page_id : Int)
  | password_manager_ClearProvisionalSave
  | GearsCreateShortcut (info : Nat) (title : String) (url : GURL) (icon : SkBitmap)
  | render_view_host_AllowDOMUIBindings (rvh : RenderViewHost)
  | view_CreateViewForWidget (rvh : RenderViewHost)
  | rwh_view_SetSize (rvh : RenderViewHost)
  | render_view_host_ReservePageIDRange (rvh : RenderViewHost) (size : Int)
  | render_view_host_SetAlternateErrorPageURL (rvh : RenderViewHost) (url : GURL)
  | render_view_host_UpdateWebPreferences (rvh : RenderViewHost) (prefs : WebPreferences)
  | NOTREACHED (message : String)
  | OpenURL (url : GURL) (referrer : GURL) (disposition : WindowOpenDisposition)
      (transition : PageTransition)
  deriving DecidableEq, Repr

/-- What the tab reads from its delegate (`TabContentsDelegate`). -/
structure TabContentsDelegate where
  /-- Whether `GetConstrainingContents(this)` is non-null: the tab sits inside a
  constrained popup. -/
  constraining_contents : Bool
  deriving DecidableEq, Repr

/-- What the tab reads from its profile (`Profile`). -/
structure Profile where
  /-- Incognito, `IsOffTheRecord()`. -/
  is_off_the_record : Bool
  /-- Whether `GetHistoryService(IMPLICIT_ACCESS)` is non-null. -/
  has_history_service : Bool
  /-- Whether `GetTemplateURLFetcher()` is non-null. -/
  has_template_url_fetcher : Bool
  deriving DecidableEq, Repr

/-- One search-engine record of the keyword model (`TemplateURL`). -/
structure TemplateURL where
  keyword : String
  short_name : String
  url : String
  input_encodings : List String
  favicon_url : GURL
  originating_url : GURL
  safe_for_autoreplace : Bool
  deriving DecidableEq, Repr

/-- The keyword model of the profile (`TemplateURLModel`). -/
structure TemplateURLModel where
  loaded : Bool
  template_urls : List TemplateURL
  deriving DecidableEq, Repr

/-- Modelled from the spec: the navigation controller as the tab consumes it
(its class is declared outside the source files at hand).  An ordered list of
committed entries, an optional pending entry and an optional transient entry. -/
structure NavigationController where
  entries : List NavigationEntry
  pending_entry : Option NavigationEntry
  transient_entry : Option NavigationEntry
  /-- Index of the last committed entry, `-1` when there is none. -/
  last_committed_entry_index : Int
  /-- The value of `GetCurrentEntryIndex()`. -/
  current_entry_index : Int
  max_restored_page_id : Int
  /-- The value of `LoadingURLLazily()`. -/
  loading_url_lazily : Bool
  /-- The value of `GetLazyTitle()`. -/
  lazy_title : String
  deriving DecidableEq, Repr

/-- Modelled from the spec: the last committed entry, if any. -/
def NavigationController.GetLastCommittedEntry (c : NavigationController) :
    Option NavigationEntry :=
  if c.last_committed_entry_index < 0 then none
  else c.entries.get? c.last_committed_entry_index.toNat

/-- Modelled from the spec: the active entry, "pending or committed, with
transient preferred". -/
def NavigationController.GetActiveEntry (c : NavigationController) :
    Option NavigationEntry :=
  match c.transient_entry with
  | some e => some e
  | none =>
    match c.pending_entry with
    | some e => some e
    | none => c.GetLastCommittedEntry

/-- Modelled from the spec: the index of the entry of the given site instance
and page id, `none` when the list has no such entry. -/
def NavigationController.GetEntryIndexWithPageID (c : NavigationController)
    (instance_ : SiteInstanceId) (page_id : Int) : Option Nat :=
  let i := c.entries.findIdx (fun e => e.site_instance == instance_ && e.page_id == page_id)
  if i < c.entries.length then some i else none

/-- Modelled from the spec: the index of the entry at offset 0 from the current
one, when that entry is in the committed list (a transient entry is not). -/
def NavigationController.IndexAtOffset0 (c : NavigationController) : Option Nat :=
  match c.transient_entry with
  | some _ => none
  | none =>
    if c.last_committed_entry_index < 0 then none
    else if c.last_committed_entry_index.toNat < c.entries.length then
      some c.last_committed_entry_index.toNat
    else none

/-- Modelled from the spec: `discard_non_committed_entries()` drops the pending
and the transient entry and keeps the committed list. -/
def NavigationController.DiscardNonCommittedEntries (c : NavigationController) :
    NavigationController :=
  { c with pending_entry := none, transient_entry := none }

/-- An isolation group (`SiteInstance`): its identity, the site it is bound to
once it has one, and the largest page id handed out in it. -/
structure SiteInstance where
  id : SiteInstanceId
  site : Option GURL
  max_page_id : Int
  deriving DecidableEq, Repr

/-- The tab's handle to a content process: the identity of the
`RenderViewHost` and the site instance it renders. -/
structure Endpoint where
  host : RenderViewHost
  site_instance : SiteInstance
  deriving DecidableEq, Repr

/-- What the tab reads from a privileged page (`DOMUI`). -/
structure DOMUI where
  /-- The title the page puts in place of the entry's, `overridden_title()`; empty
  when it overrides nothing. -/
  overridden_title : String
  /-- The transition the page gives to links it opens, `link_transition_type()`. -/
  link_transition_type : PageTransition
  deriving DecidableEq, Repr

/-- The two states of the renderer manager. -/
inductive RendererState where
  | NORMAL
  | PENDING
  deriving DecidableEq, Repr

/-- Modelled from the spec: the renderer manager (`RenderViewHostManager`, declared
outside the source files at hand): the current endpoint, the optional pending
one, and the state of the cross-site protocol. -/
structure RenderViewHostManager where
  current_host : Endpoint
  pending_host : Option Endpoint
  renderer_state : RendererState
  /-- The privileged page of the pending navigation, `pending_dom_ui()`. -/
  pending_dom_ui : Option DOMUI
  /-- The committed privileged page, `dom_ui()`. -/
  dom_ui : Option DOMUI
  deriving DecidableEq, Repr

/-- The single-slot shortcut install record (`pending_install_`). -/
structure PendingInstall where
  page_id : Int
  url : GURL
  title : String
  icon : SkBitmap
  /-- The callback token of the request in flight, if any. -/
  callback_functor : Option Nat
  deriving DecidableEq, Repr

/-- The frame-navigate message (`ViewHostMsg_FrameNavigate_Params`). -/
structure FrameNavigateParams where
  url : GURL
  transition : PageTransition
  page_id : Int
  referrer : GURL
  redirects : List GURL
  contents_mime_type : String
  /-- The value of `password_form.origin.is_valid()`. -/
  password_form_origin_is_valid : Bool
  searchable_form_url : GURL
  searchable_form_encoding : String
  should_update_history : Bool
  deriving DecidableEq, Repr

/-- What the controller reports about a commit
(`NavigationController::LoadCommittedDetails`). -/
structure LoadCommittedDetails where
  /-- The entry that was committed. -/
  entry : NavigationEntry
  previous_url : GURL
  is_main_frame : Bool
  /-- The value of `is_user_initiated_main_frame_load()`. -/
  is_user_initiated_main_frame_load : Bool
  deriving DecidableEq, Repr

/-- The names of the preferences the tab observes (the constants `prefs::k...`
of lines 132-144, whose values are declared outside the source files at hand). -/
structure PrefNames where
  kAlternateErrorPagesEnabled : String
  kWebKitJavaEnabled : String
  kWebKitJavascriptEnabled : String
  kWebKitLoadsImagesAutomatically : String
  kWebKitPluginsEnabled : String
  kWebKitUsesUniversalDetector : String
  kWebKitSerifFontFamily : String
  kWebKitSansSerifFontFamily : String
  kWebKitFixedFontFamily : String
  kWebKitDefaultFontSize : String
  kWebKitDefaultFixedFontSize : String
  kDefaultCharset : String
  deriving DecidableEq, Repr

/-- The answers, during one handler call, of the collaborators whose code lies
outside the source files at hand.  Each field is named after the call it
answers. -/
structure Services where
  /-- The clock, `TimeTicks::Now()`. -/
  Now : TimeTicks
  /-- The print manager's verdict `printing_.OnRenderViewGone(rvh)`. -/
  printing_OnRenderViewGone : RenderViewHost → Bool
  /-- The controller's `IsURLInPageNavigation(url)`. -/
  IsURLInPageNavigation : GURL → Bool
  /-- The controller's `RendererDidNavigate(params, &details)`: `none` when no
  navigation happened, else the controller after the commit and the details. -/
  RendererDidNavigate : NavigationController → FrameNavigateParams →
    Option (NavigationController × LoadCommittedDetails)
  /-- The download manager's `in_progress_count()`; `none` when the profile has
  no download manager. -/
  in_progress_count : Option Int
  /-- The function `net::RegistryControlledDomainService::SameDomainOrHost`. -/
  SameDomainOrHost : GURL → GURL → Bool
  /-- The bookmark model's `IsBookmarked`; `none` when the profile has no
  bookmark model. -/
  IsBookmarked : Option (GURL → Bool)
  /-- The function `TemplateURLModel::GenerateKeyword(url, autodetected)`. -/
  GenerateKeyword : GURL → Bool → String
  /-- The keyword model's `CanReplaceKeyword(keyword, url, &current_url)`: the
  verdict and the record it stored in `current_url`, if any. -/
  CanReplaceKeyword : TemplateURLModel → String → String → Bool × Option TemplateURL
  /-- The function `TemplateURL::GenerateFaviconURL`. -/
  GenerateFaviconURL : GURL → GURL
  /-- The function `TrimWhitespace(input, TRIM_ALL, &output)`. -/
  TrimWhitespace : String → String
  /-- The entry's `GetTitleForDisplay(&controller_)`. -/
  GetTitleForDisplay : NavigationEntry → String
  /-- The render manager's `Navigate(entry)`: `none` when no endpoint could be
  created, else the manager after the call and the endpoint that carries the
  navigation. -/
  render_manager_Navigate : RenderViewHostManager → NavigationEntry →
    Option (RenderViewHostManager × RenderViewHost)
  /-- Whether `g_browser_process->devtools_manager()` is non-null. -/
  devtools_manager : Bool
  /-- The favicon of the tab, `GetFavIcon()`. -/
  GetFavIcon : SkBitmap
  /-- The token of a newly made `GearsCreateShortcutCallbackFunctor`. -/
  NewCallbackFunctor : Nat
  /-- The endpoint's `CreateRenderView()`: whether the view could be created. -/
  CreateRenderView : RenderViewHost → Bool
  /-- The names of the preferences (`prefs::k...`). -/
  prefs : PrefNames
  /-- The preference service's `GetBoolean(name)`. -/
  prefs_GetBoolean : String → Bool
  /-- The function `google_util::AppendGoogleLocaleParam`. -/
  AppendGoogleLocaleParam : GURL → GURL
  /-- The function `google_util::AppendGoogleTLDParam`. -/
  AppendGoogleTLDParam : GURL → GURL
  /-- The snapshot `RenderViewHostDelegateHelper::GetWebkitPrefs(prefs, false)`. -/
  GetWebkitPrefs : WebPreferences

/-! ## The tab -/

/-- The state of one tab: the members of `WebContents` (and of its base class
`TabContents`) that the handlers read and write, and the trace of calls made so
far. -/
structure WebContents where
  is_loading_ : Bool
  waiting_for_response_ : Bool
  load_state_ : LoadState
  load_state_host_ : String
  is_crashed_ : Bool
  is_starred_ : Bool
  shelf_visible_ : Bool
  is_being_destroyed_ : Bool
  notify_disconnection_ : Bool
  received_page_title_ : Bool
  suppress_javascript_messages_ : Bool
  /-- The value of `showing_interstitial_page()`. -/
  showing_interstitial_page : Bool
  encoding_ : String
  contents_mime_type_ : String
  last_javascript_message_dismissal_ : TimeTicks
  last_download_shelf_show_ : TimeTicks
  current_load_start_ : TimeTicks
  delegate_ : Option TabContentsDelegate
  profile_ : Profile
  template_url_model_ : Option TemplateURLModel
  controller_ : NavigationController
  render_manager_ : RenderViewHostManager
  pending_install_ : PendingInstall
  child_windows_ : List (Option ConstrainedWindow)
  infobar_delegates_ : List InfoBarDelegate
  /-- The id of the find request issued last. -/
  current_find_request_id_ : Int
  /-- The find result stored last. -/
  find_result_ : FindNotificationDetails
  /-- The calls made so far, oldest first. -/
  effects : List Effect
  deriving DecidableEq, Repr

/-- The current endpoint, `render_view_host()`. -/
def WebContents.render_view_host (s : WebContents) : RenderViewHost :=
  s.render_manager_.current_host.host

/-- The site instance of the current endpoint, `GetSiteInstance()` (lines 348-350). -/
def WebContents.GetSiteInstance (s : WebContents) : SiteInstance :=
  s.render_manager_.current_host.site_instance

/-- Record a call. -/
def WebContents.emit (s : WebContents) (e : Effect) : WebContents :=
  { s with effects := s.effects ++ [e] }

/-- The notifications posted so far, oldest first. -/
def notifications : List Effect → List NotificationType
  | [] => []
  | Effect.Notify t _ :: es => t :: notifications es
  | _ :: es => notifications es


/-- Modelled from the spec: the initial values of the members, which the
constructor of the base class `TabContents` (outside the source files at hand)
sets: a tab that is not loading, not crashed, has announced no connection and
has an empty history.  The constructor at lines 175-205 clears the install
record and binds the render manager to its first endpoint. -/
def WebContents.fresh (profile : Profile) (endpoint : Endpoint)
    (url_model : Option TemplateURLModel) : WebContents :=
  { is_loading_ := false
    waiting_for_response_ := false
    load_state_ := LoadState.LOAD_STATE_IDLE
    load_state_host_ := ""
    is_crashed_ := false
    is_starred_ := false
    shelf_visible_ := false
    is_being_destroyed_ := false
    notify_disconnection_ := false
    received_page_title_ := false
    suppress_javascript_messages_ := false
    showing_interstitial_page := false
    encoding_ := ""
    contents_mime_type_ := ""
    last_javascript_message_dismissal_ := 0
    last_download_shelf_show_ := 0
    current_load_start_ := 0
    delegate_ := none
    profile_ := profile
    template_url_model_ := url_model
    controller_ :=
      { entries := [], pending_entry := none, transient_entry := none,
        last_committed_entry_index := -1, current_entry_index := -1,
        max_restored_page_id := -1, loading_url_lazily := false, lazy_title := "" }
    render_manager_ :=
      { current_host := endpoint, pending_host := none,
        renderer_state := RendererState.NORMAL, pending_dom_ui := none, dom_ui := none }
    pending_install_ :=
      { page_id := 0, url := GURL.EmptyGURL, title := "", icon := 0, callback_functor := none }
    child_windows_ := []
    infobar_delegates_ := []
    current_find_request_id_ := 0
    find_result_ :=
      { request_id := 0, number_of_matches := -1,
        selection_rect := { x := 0, y := 0, width := 0, height := 0 },
        active_match_ordinal := -1, final_update := false }
    effects := [] }

/-! ### Helpers of the base class `TabContents` -/

/-- Modelled from the spec: `TabContents::SetNotWaitingForResponse` clears
`waiting_for_response`. -/
def WebContents.SetNotWaitingForResponse (s : WebContents) : WebContents :=
  { s with waiting_for_response_ := false }

/-- Modelled from the spec: `TabContents::SetIsCrashed` stores the crashed flag. -/
def WebContents.SetIsCrashed (s : WebContents) (state : Bool) : WebContents :=
  { s with is_crashed_ := state }

/-- Modelled from the spec: `TabContents::set_encoding` stores the encoding. -/
def WebContents.set_encoding (s : WebContents) (encoding : String) : WebContents :=
  { s with encoding_ := encoding }

/-- Modelled from the spec: `TabContents::GetURL` is the display URL of the active
entry, or the empty URL when there is none. -/
def WebContents.GetURL (s : WebContents) : GURL :=
  match s.controller_.GetActiveEntry with
  | some e => e.display_url
  | none => GURL.EmptyGURL

/-- The call `NotifyNavigationStateChanged(flags)` into the base class. -/
def WebContents.NotifyNavigationStateChanged (s : WebContents)
    (changed_flags : List InvalidateTypes) : WebContents :=
  s.emit (Effect.NotifyNavigationStateChanged changed_flags)

/-! ### Loading signal (lines 693-719) -/

/-- The method `WebContents::SetIsLoading` (lines 693-719). -/
def WebContents.SetIsLoading (s : WebContents) (is_loading : Bool)
    (details : Option LoadNotificationDetails) : WebContents :=
  if is_loading == s.is_loading_ then s
  else
    let s1 : WebContents :=
      if !is_loading then
        { s with load_state_ := LoadState.LOAD_STATE_IDLE, load_state_host_ := "" }
      else s
    let s2 := s1.emit (Effect.render_manager_SetIsLoading is_loading)
    let s3 : WebContents :=
      { s2 with is_loading_ := is_loading, waiting_for_response_ := is_loading }
    let s4 := if s3.delegate_.isSome then s3.emit Effect.delegate_LoadingStateChanged else s3
    let type := if is_loading then NotificationType.LOAD_START else NotificationType.LOAD_STOP
    let det :=
      match details with
      | some d => NotificationDetails.Load d
      | none => NotificationDetails.NoDetails
    s4.emit (Effect.Notify type det)

/-! ### Connection notifications (lines 1769-1797) -/

/-- The method `WebContents::NotifySwapped` (lines 1769-1778). -/
def WebContents.NotifySwapped (s : WebContents) : WebContents :=
  ({ s with notify_disconnection_ := true } : WebContents).emit
    (Effect.Notify NotificationType.WEB_CONTENTS_SWAPPED NotificationDetails.NoDetails)

/-- The method `WebContents::NotifyConnected` (lines 1780-1786). -/
def WebContents.NotifyConnected (s : WebContents) : WebContents :=
  ({ s with notify_disconnection_ := true } : WebContents).emit
    (Effect.Notify NotificationType.WEB_CONTENTS_CONNECTED NotificationDetails.NoDetails)

/-- The method `WebContents::NotifyDisconnected` (lines 1788-1797). -/
def WebContents.NotifyDisconnected (s : WebContents) : WebContents :=
  if !s.notify_disconnection_ then s
  else
    ({ s with notify_disconnection_ := false } : WebContents).emit
      (Effect.Notify NotificationType.WEB_CONTENTS_DISCONNECTED NotificationDetails.NoDetails)

/-! ### Endpoint liveness (lines 749-779) -/

/-- The method `WebContents::RenderViewReady` (lines 749-758). -/
def WebContents.RenderViewReady (s : WebContents) (rvh : RenderViewHost) : WebContents :=
  if rvh != s.render_view_host then s
  else s.NotifyConnected.SetIsCrashed false

/-- The method `WebContents::RenderViewGone` (lines 760-779). -/
def WebContents.RenderViewGone (s : WebContents) (env : Services) (rvh : RenderViewHost) :
    WebContents :=
  if !env.printing_OnRenderViewGone rvh then s
  else if rvh != s.render_view_host then s
  else
    let s1 := s.SetIsLoading false none
    let s2 := s1.NotifyDisconnected
    let s3 := s2.SetIsCrashed true
    let s4 := s3.emit Effect.view_Invalidate
    s4.emit Effect.HungRendererWarning_HideForWebContents

/-! ### Simple inbound handlers -/

/-- The method `WebContents::UpdateEncoding` (lines 875-878). -/
def WebContents.UpdateEncoding (s : WebContents) (_render_view_host : RenderViewHost)
    (encoding : String) : WebContents :=
  s.set_encoding encoding

/-- The method `WebContents::UpdateTargetURL` (lines 880-883). -/
def WebContents.UpdateTargetURL (s : WebContents) (_page_id : Int) (url : GURL) :
    WebContents :=
  if s.delegate_.isSome then s.emit (Effect.delegate_UpdateTargetURL url) else s

/-- The method `WebContents::Close` (lines 896-900). -/
def WebContents.Close (s : WebContents) (rvh : RenderViewHost) : WebContents :=
  if s.delegate_.isSome && rvh == s.render_view_host then
    s.emit Effect.delegate_CloseContents
  else s

/-- The method `WebContents::DidStartLoading` (lines 907-909). -/
def WebContents.DidStartLoading (s : WebContents) (_rvh : RenderViewHost) (_page_id : Int) :
    WebContents :=
  s.SetIsLoading true none

/-- The method `WebContents::DidStopLoading` (lines 911-937). -/
def WebContents.DidStopLoading (s : WebContents) (env : Services) (_rvh : RenderViewHost)
    (_page_id : Int) : WebContents :=
  let details : Option LoadNotificationDetails :=
    match s.controller_.GetActiveEntry with
    | some entry =>
      some { url := entry.display_url
             origin := entry.transition_type
             load_time := env.Now - s.current_load_start_
             session_index := s.controller_.current_entry_index }
    | none => none
  let s1 := s.emit Effect.password_manager_DidStopLoading
  s1.SetIsLoading false details

/-- The method `WebContents::UpdateFavIconURL` (lines 1037-1041). -/
def WebContents.UpdateFavIconURL (s : WebContents) (_render_view_host : RenderViewHost)
    (_page_id : Int) (icon_url : GURL) : WebContents :=
  s.emit (Effect.fav_icon_helper_SetFavIconURL icon_url)

/-- The method `WebContents::LoadStateChanged` (lines 1385-1393). -/
def WebContents.LoadStateChanged (s : WebContents) (url : GURL) (load_state : LoadState) :
    WebContents :=
  let s1 : WebContents := { s with load_state_ := load_state, load_state_host_ := url.host }
  let s2 :=
    if s1.load_state_ == LoadState.LOAD_STATE_READING_RESPONSE then
      s1.SetNotWaitingForResponse
    else s1
  if s2.is_loading_ then
    s2.NotifyNavigationStateChanged
      [InvalidateTypes.INVALIDATE_LOAD, InvalidateTypes.INVALIDATE_FAVICON]
  else s2

/-! ### Handlers that address an entry by page id (lines 816-873, 1732-1767) -/

/-- Write `entry` back at position `index` of the committed list. -/
def WebContents.setEntry (s : WebContents) (index : Nat) (entry : NavigationEntry) :
    WebContents :=
  { s with controller_ := { s.controller_ with entries := s.controller_.entries.set index entry } }

/-- The method `WebContents::UpdateState` (lines 816-837). -/
def WebContents.UpdateState (s : WebContents) (_rvh : RenderViewHost) (page_id : Int)
    (state : String) : WebContents :=
  match s.controller_.GetEntryIndexWithPageID s.GetSiteInstance.id page_id with
  | none => s
  | some entry_index =>
    match s.controller_.entries.get? entry_index with
    | none => s
    | some entry =>
      if state == entry.content_state then s
      else
        let s1 := s.setEntry entry_index { entry with content_state := state }
        s1.emit (Effect.controller_NotifyEntryChanged entry_index)

/-- The method `WebContents::UpdateTitleForEntry` (lines 1732-1767).  The entry is
passed by pointer in the source; here the updated entry is returned next to the
result and the tab. -/
def WebContents.UpdateTitleForEntry (s : WebContents) (env : Services)
    (entry : NavigationEntry) (title : String) : Bool × NavigationEntry × WebContents :=
  let synthesized : Bool := entry.url.SchemeIsFile && title.isEmpty
  let final_title : String :=
    if synthesized then entry.url.file_name else env.TrimWhitespace title
  let explicit_set : Bool := !synthesized
  if final_title == entry.title then (false, entry, s)
  else
    let entry1 : NavigationEntry := { entry with title := final_title }
    let s1 : WebContents :=
      if !s.profile_.is_off_the_record && !s.received_page_title_ then
        let s0 :=
          if s.profile_.has_history_service then
            s.emit (Effect.history_SetPageTitle entry1.display_url final_title)
          else s
        { s0 with received_page_title_ := explicit_set }
      else s
    (true, entry1, s1.emit (Effect.view_SetPageTitle final_title))

/-- The method `WebContents::UpdateTitle` (lines 839-854). -/
def WebContents.UpdateTitle (s : WebContents) (env : Services) (_rvh : RenderViewHost)
    (page_id : Int) (title : String) : WebContents :=
  let s1 := s.SetNotWaitingForResponse
  match s1.controller_.GetEntryIndexWithPageID s1.GetSiteInstance.id page_id with
  | none => s1
  | some index =>
    match s1.controller_.entries.get? index with
    | none => s1
    | some entry =>
      match s1.UpdateTitleForEntry env entry title with
      | (false, _, _) => s1
      | (true, entry1, s2) =>
        let s3 := s2.setEntry index entry1
        if s3.controller_.IndexAtOffset0 == some index then
          s3.NotifyNavigationStateChanged [InvalidateTypes.INVALIDATE_TITLE]
        else s3

/-- The method `WebContents::UpdateFeedList` (lines 856-873). -/
def WebContents.UpdateFeedList (s : WebContents) (rvh : RenderViewHost) (page_id : Int)
    (feedlist : List String) : WebContents :=
  if rvh != s.render_view_host then s
  else
    match s.controller_.GetEntryIndexWithPageID s.GetSiteInstance.id page_id with
    | none => s
    | some index =>
      match s.controller_.entries.get? index with
      | none => s
      | some entry =>
        let s1 := s.setEntry index { entry with feedlist := feedlist }
        if s1.controller_.IndexAtOffset0 == some index then
          s1.NotifyNavigationStateChanged [InvalidateTypes.INVALIDATE_FEEDLIST]
        else s1

/-! ### Provisional loads (lines 939-950, 984-1035) -/

/-- The method `WebContents::DidStartProvisionalLoadForFrame` (lines 939-950); the
details are built without an error code, which is `net::OK`, zero. -/
def WebContents.DidStartProvisionalLoadForFrame (s : WebContents) (env : Services)
    (_render_view_host : RenderViewHost) (is_main_frame : Bool) (url : GURL) : WebContents :=
  s.emit (Effect.Notify NotificationType.FRAME_PROVISIONAL_LOAD_START
    (NotificationDetails.ProvisionalLoad
      { is_main_frame := is_main_frame
        is_in_page_navigation := env.IsURLInPageNavigation url
        url := url
        error_code := 0 }))

/-- Modelled from the spec: `renderer_aborted_provisional_load(endpoint)` "tears
down a pending endpoint whose request never produced a response"; the manager
goes back to NORMAL and keeps the current endpoint. -/
def RenderViewHostManager.RendererAbortedProvisionalLoad (m : RenderViewHostManager)
    (rvh : RenderViewHost) : RenderViewHostManager :=
  match m.pending_host with
  | some p =>
    if p.host == rvh then
      { m with pending_host := none, renderer_state := RendererState.NORMAL }
    else m
  | none => m

/-- The method `WebContents::DidFailProvisionalLoadWithError` (lines 984-1035). -/
def WebContents.DidFailProvisionalLoadWithError (s : WebContents) (env : Services)
    (render_view_host : RenderViewHost) (is_main_frame : Bool) (error_code : Int)
    (url : GURL) (_showing_repost_interstitial : Bool) : WebContents :=
  let notify (t : WebContents) : WebContents :=
    t.emit (Effect.Notify NotificationType.FAIL_PROVISIONAL_LOAD_WITH_ERROR
      (NotificationDetails.ProvisionalLoad
        { is_main_frame := is_main_frame
          is_in_page_navigation := env.IsURLInPageNavigation url
          url := url
          error_code := error_code }))
  if ERR_ABORTED == error_code then
    if s.showing_interstitial_page then s
    else
      let s1 : WebContents :=
        match s.controller_.pending_entry with
        | some pending_entry =>
          if pending_entry.url == url then
            ({ s with controller_ := s.controller_.DiscardNonCommittedEntries } :
              WebContents).emit Effect.controller_DiscardNonCommittedEntries
          else s
        | none => s
      let s2 : WebContents :=
        { s1 with render_manager_ :=
            s1.render_manager_.RendererAbortedProvisionalLoad render_view_host }
      notify s2
  else notify s

/-! ### JavaScript dialog arbitration (lines 622-627, 1128-1162) -/

/-- The method `WebContents::OnJavaScriptMessageBoxClosed` (lines 622-627). -/
def WebContents.OnJavaScriptMessageBoxClosed (s : WebContents) (env : Services)
    (reply_msg : ReplyMsg) (success : Bool) (prompt : String) : WebContents :=
  ({ s with last_javascript_message_dismissal_ := env.Now } : WebContents).emit
    (Effect.render_manager_OnJavaScriptMessageBoxClosed reply_msg success prompt)

/-- The method `WebContents::RunJavaScriptMessage` (lines 1128-1162); the first
component is the value stored in `*did_suppress_message`. -/
def WebContents.RunJavaScriptMessage (s : WebContents) (env : Services) (message : String)
    (default_prompt : String) (frame_url : GURL) (flags : Int) (reply_msg : ReplyMsg) :
    Bool × WebContents :=
  let suppress_this_message : Bool :=
    match s.delegate_ with
    | some d => s.suppress_javascript_messages_ || d.constraining_contents
    | none => s.suppress_javascript_messages_
  if !suppress_this_message then
    let time_since_last_message : TimeDelta := env.Now - s.last_javascript_message_dismissal_
    let show_suppress_checkbox : Bool :=
      if time_since_last_message < TimeDelta.FromMilliseconds kJavascriptMessageExpectedDelay
      then true else false
    (suppress_this_message,
      s.emit (Effect.RunJavascriptMessageBox frame_url flags message default_prompt
        show_suppress_checkbox reply_msg))
  else
    (suppress_this_message, s.OnJavaScriptMessageBoxClosed env reply_msg false "")

/-- The inline setter `set_suppress_javascript_messages`, which the dialog calls
when the user ticks the checkbox. -/
def WebContents.set_suppress_javascript_messages (s : WebContents) (suppress : Bool) :
    WebContents :=
  { s with suppress_javascript_messages_ := suppress }

/-- The inline setter `set_delegate` of the base class. -/
def WebContents.set_delegate (s : WebContents) (d : Option TabContentsDelegate) :
    WebContents :=
  { s with delegate_ := d }

/-! ### Commit of a navigation (lines 781-814, 1559-1730, 1799-1871) -/

/-- The method `WebContents::SetDownloadShelfVisible` (lines 551-573). -/
def WebContents.SetDownloadShelfVisible (s : WebContents) (env : Services) (visible : Bool) :
    WebContents :=
  let s1 : WebContents :=
    if s.shelf_visible_ != visible then
      let a := if visible then s.emit Effect.GetDownloadShelf else s
      let b : WebContents := { a with shelf_visible_ := visible }
      if b.delegate_.isSome then b.emit Effect.delegate_ContentsStateChanged else b
    else s
  let s2 := s1.emit (Effect.ToolbarSizeChanged false)
  if visible then { s2 with last_download_shelf_show_ := env.Now } else s2

/-- The loop of lines 1652-1657 (and 233-238): indices `i - 1` down to `0`, each
non-null window asked to close. -/
def WebContents.closeChildWindowsBelow (s : WebContents) : Nat → WebContents
  | 0 => s
  | i + 1 =>
    let s1 :=
      match s.child_windows_.get? i with
      | some (some window) => s.emit (Effect.CloseConstrainedWindow window)
      | _ => s
    s1.closeChildWindowsBelow i

/-- The method `WebContents::MaybeCloseChildWindows` (lines 1643-1658). -/
def WebContents.MaybeCloseChildWindows (s : WebContents) (env : Services)
    (previous_url current_url : GURL) : WebContents :=
  if env.SameDomainOrHost previous_url current_url then s
  else s.closeChildWindowsBelow s.child_windows_.length

/-- The method `WebContents::UpdateStarredStateForCurrentURL` (lines 1660-1667). -/
def WebContents.UpdateStarredStateForCurrentURL (s : WebContents) (env : Services) :
    WebContents :=
  let old_state := s.is_starred_
  let starred : Bool :=
    match env.IsBookmarked with
    | some f => f s.GetURL
    | none => false
  let s1 : WebContents := { s with is_starred_ := starred }
  if s1.is_starred_ != old_state && s1.delegate_.isSome then
    s1.emit (Effect.delegate_URLStarredChanged s1.is_starred_)
  else s1

/-- The method `WebContents::UpdateHistoryForNavigation` (lines 1703-1730). -/
def WebContents.UpdateHistoryForNavigation (s : WebContents) (display_url : GURL)
    (params : FrameNavigateParams) : WebContents :=
  if s.profile_.is_off_the_record then s
  else if s.profile_.has_history_service then
    if PageTransition.IsMainFrame params.transition && display_url != params.url then
      let redirects : List GURL :=
        if !params.redirects.isEmpty then params.redirects.dropLast ++ [display_url]
        else params.redirects
      s.emit (Effect.history_AddPage display_url params.page_id params.referrer
        params.transition redirects)
    else
      s.emit (Effect.history_AddPage params.url params.page_id params.referrer
        params.transition params.redirects)
  else s

/-- The method `WebContents::GenerateKeywordIfNecessary` (lines 1799-1871). -/
def WebContents.GenerateKeywordIfNecessary (s : WebContents) (env : Services)
    (params : FrameNavigateParams) : WebContents :=
  if !params.searchable_form_url.is_valid then s
  else if s.profile_.is_off_the_record then s
  else
    let last_index := s.controller_.last_committed_entry_index
    if last_index ≤ 0 then s
    else
      match s.controller_.entries.get? (last_index - 1).toNat with
      | none => s
      | some previous_entry =>
        if IsFormSubmit previous_entry then s
        else
          let keyword_url :=
            if previous_entry.user_typed_url.is_valid then previous_entry.user_typed_url
            else previous_entry.url
          let keyword := env.GenerateKeyword keyword_url true
          if keyword.isEmpty then s
          else
            match s.template_url_model_ with
            | none => s
            | some url_model =>
              if !url_model.loaded then s.emit Effect.url_model_Load
              else
                let url := params.searchable_form_url.spec
                match env.CanReplaceKeyword url_model keyword url with
                | (false, _) => s
                | (true, current_url) =>
                  let favicon_url : GURL :=
                    match s.controller_.GetLastCommittedEntry with
                    | some e => e.favicon_url
                    | none => GURL.EmptyGURL
                  let new_url : TemplateURL :=
                    { keyword := keyword
                      short_name := keyword
                      url := url
                      input_encodings := [params.searchable_form_encoding]
                      favicon_url :=
                        if favicon_url.is_valid then favicon_url
                        else env.GenerateFaviconURL params.referrer
                      originating_url := GURL.EmptyGURL
                      safe_for_autoreplace := true }
                  match current_url with
                  | some cur =>
                    if cur.originating_url.is_valid then s
                    else
                      let removed : TemplateURLModel :=
                        { url_model with template_urls := url_model.template_urls.erase cur }
                      let added : TemplateURLModel :=
                        { removed with template_urls := removed.template_urls ++ [new_url] }
                      { s with template_url_model_ := some added }
                  | none =>
                    let added : TemplateURLModel :=
                      { url_model with template_urls := url_model.template_urls ++ [new_url] }
                    { s with template_url_model_ := some added }

/-- The method `WebContents::DidNavigateMainFramePostCommit` (lines 1559-1615). -/
def WebContents.DidNavigateMainFramePostCommit (s : WebContents) (env : Services)
    (details : LoadCommittedDetails) (params : FrameNavigateParams) : WebContents :=
  let s1 : WebContents :=
    if env.in_progress_count == some 0 && !details.previous_url.is_empty &&
        !env.SameDomainOrHost details.previous_url details.entry.url then
      let time_delta : TimeDelta := env.Now - s.last_download_shelf_show_
      if time_delta > TimeDelta.FromMilliseconds kDownloadShelfHideDelay then
        s.SetDownloadShelfVisible env false
      else s
    else s
  let s2 : WebContents :=
    if details.is_user_initiated_main_frame_load then
      let a := s1.UpdateTargetURL details.entry.page_id GURL.EmptyGURL
      if !params.password_form_origin_is_valid then a.emit Effect.password_manager_DidNavigate
      else a
    else s1
  let s3 := s2.GenerateKeywordIfNecessary env params
  let s4 : WebContents := { s3 with received_page_title_ := false }
  let s5 := s4.emit (Effect.fav_icon_helper_FetchFavIcon details.entry.url)
  let s6 := s5.MaybeCloseChildWindows env details.previous_url details.entry.url
  s6.UpdateStarredStateForCurrentURL env

/-- The method `WebContents::DidNavigateAnyFramePostCommit` (lines 1617-1641). -/
def WebContents.DidNavigateAnyFramePostCommit (s : WebContents) (_env : Services)
    (_render_view_host : RenderViewHost) (_details : LoadCommittedDetails)
    (params : FrameNavigateParams) : WebContents :=
  let s1 : WebContents := { s with suppress_javascript_messages_ := false }
  let s2 :=
    if params.should_update_history then s1.UpdateHistoryForNavigation s1.GetURL params
    else s1
  if params.password_form_origin_is_valid then
    s2.emit Effect.password_manager_ProvisionallySavePassword
  else s2

/-- Modelled from the spec: the commit hook `did_navigate_main_frame(endpoint)` of
the renderer manager: "if `endpoint == pending`, perform swap": the pending
endpoint becomes the current one, the manager is NORMAL again, and the swap is
announced through `NotifySwapped`. -/
def WebContents.render_manager_DidNavigateMainFrame (s : WebContents) (rvh : RenderViewHost) :
    WebContents :=
  match s.render_manager_.pending_host with
  | some p =>
    if p.host == rvh then
      let swapped : RenderViewHostManager :=
        { s.render_manager_ with
          current_host := p
          pending_host := none
          renderer_state := RendererState.NORMAL }
      ({ s with render_manager_ := swapped } : WebContents).NotifySwapped
    else s
  | none => s

/-- The call `GetSiteInstance()->SetSite(url)` of line 788. -/
def WebContents.SetSite (s : WebContents) (url : GURL) : WebContents :=
  { s with render_manager_ :=
      { s.render_manager_ with current_host :=
          { s.render_manager_.current_host with site_instance :=
              { s.render_manager_.current_host.site_instance with site := some url } } } }

/-- The method `WebContents::DidNavigate` (lines 781-814). -/
def WebContents.DidNavigate (s : WebContents) (env : Services) (rvh : RenderViewHost)
    (params : FrameNavigateParams) : WebContents :=
  let s1 :=
    if PageTransition.IsMainFrame params.transition then
      s.render_manager_DidNavigateMainFrame rvh
    else s
  let s2 := if !s1.GetSiteInstance.site.isSome then s1.SetSite params.url else s1
  let s3 : WebContents :=
    if PageTransition.IsMainFrame params.transition then
      { s2 with contents_mime_type_ := params.contents_mime_type }
    else s2
  match env.RendererDidNavigate s3.controller_ params with
  | none => s3
  | some (controller, details) =>
    let s4 : WebContents := { s3 with controller_ := controller }
    let s5 :=
      if details.is_main_frame then s4.DidNavigateMainFramePostCommit env details params
      else s4
    s5.DidNavigateAnyFramePostCommit env rvh details params

/-! ### Destruction (lines 207-262) -/

/-- The loop of lines 243-246: every remaining infobar delegate is told that its
infobar closed, in list order. -/
def WebContents.closeInfoBars (s : WebContents) : List InfoBarDelegate → WebContents
  | [] => s
  | d :: ds => (s.emit (Effect.InfoBarClosed d)).closeInfoBars ds

/-- The destructor `WebContents::~WebContents` (lines 207-262), up to the
platform-specific release of the native window. -/
def WebContents.destructor (s : WebContents) : WebContents :=
  let s1 : WebContents := { s with is_being_destroyed_ := true }
  let s2 := s1.emit Effect.view_OnContentsDestroy
  let s3 := s2.NotifyDisconnected
  let s4 := s3.emit Effect.HungRendererWarning_HideForWebContents
  let s5 :=
    if s4.pending_install_.callback_functor.isSome then s4.emit Effect.pending_install_Cancel
    else s4
  let s6 := s5.closeChildWindowsBelow s5.child_windows_.length
  let s7 := s6.closeInfoBars s6.infobar_delegates_
  let s8 : WebContents := { s7 with infobar_delegates_ := [] }
  s8.emit (Effect.Notify NotificationType.TAB_CONTENTS_DESTROYED NotificationDetails.NoDetails)

/-! ## Title (lines 320-346) -/

/-- The method `WebContents::GetTitle` (lines 320-346). -/
def WebContents.GetTitle (s : WebContents) (env : Services) : String :=
  let our_dom_ui : Option DOMUI :=
    match s.render_manager_.pending_dom_ui with
    | some d => some d
    | none => s.render_manager_.dom_ui
  let overridden : Option String :=
    match our_dom_ui with
    | some d => if !d.overridden_title.isEmpty then some d.overridden_title else none
    | none => none
  match overridden with
  | some title => title
  | none =>
    match s.controller_.transient_entry with
    | some entry => env.GetTitleForDisplay entry
    | none =>
      match s.controller_.GetLastCommittedEntry with
      | some entry => env.GetTitleForDisplay entry
      | none =>
        if s.controller_.loading_url_lazily then s.controller_.lazy_title
        else ""

/-- The privileged page whose title counts: the one of the pending navigation when
there is one, else the committed one. -/
def WebContents.privilegedPage (s : WebContents) : Option DOMUI :=
  s.render_manager_.pending_dom_ui.orElse (fun _ => s.render_manager_.dom_ui)

/-- The title policy in the words of the spec: the candidates for the display
title, in order; a candidate that is not available is `none`.  (i) the
overridden title of the privileged page if present and non-empty, (ii) the
display title of the transient entry, (iii) the display title of the
last-committed entry, (iv) the lazy-load URL title when the controller is
loading lazily, (v) the empty string. -/
def WebContents.titleCandidates (s : WebContents) (env : Services) : List (Option String) :=
  [ (s.privilegedPage.map (fun d => d.overridden_title)).filter (fun t => !t.isEmpty),
    s.controller_.transient_entry.map env.GetTitleForDisplay,
    s.controller_.GetLastCommittedEntry.map env.GetTitleForDisplay,
    if s.controller_.loading_url_lazily then some s.controller_.lazy_title else none,
    some "" ]

/-- The first available candidate of a list; the empty string when none is. -/
def firstAvailable : List (Option String) → String
  | [] => ""
  | some t :: _ => t
  | none :: rest => firstAvailable rest

/-! ### Navigation requests and history thumbnails (lines 397-438, 885-894) -/

/-- The method `WebContents::NavigateToPendingEntry` (lines 397-438); the first
component is the returned flag.  The source dereferences the pending entry, so
its callers provide one; without one the model does nothing. -/
def WebContents.NavigateToPendingEntry (s : WebContents) (env : Services) (reload : Bool) :
    Bool × WebContents :=
  match s.controller_.pending_entry with
  | none => (false, s)
  | some entry =>
    match env.render_manager_Navigate s.render_manager_ entry with
    | none => (false, s)
    | some (render_manager, dest_render_view_host) =>
      let s1 : WebContents := { s with render_manager_ := render_manager }
      let s2 :=
        if env.devtools_manager then
          s1.emit (Effect.dev_tools_manager_SendAttachToAgent dest_render_view_host)
        else s1
      let s3 : WebContents := { s2 with current_load_start_ := env.Now }
      let s4 := s3.emit (Effect.render_view_host_NavigateToEntry dest_render_view_host entry
        reload)
      if entry.page_id == -1 && entry.url.SchemeIs kJavaScriptScheme then (false, s4)
      else
        let s5 := s4.emit Effect.password_manager_ClearProvisionalSave
        let s6 :=
          if reload && !s5.profile_.is_off_the_record then
            if s5.profile_.has_history_service then
              s5.emit (Effect.history_SetFavIconOutOfDateForPage entry.url)
            else s5
          else s5
        (true, s6)

/-- The method `WebContents::UpdateThumbnail` (lines 885-894). -/
def WebContents.UpdateThumbnail (s : WebContents) (url : GURL) (bitmap : SkBitmap)
    (score : Nat) : WebContents :=
  if !s.profile_.is_off_the_record && s.profile_.has_history_service then
    s.emit (Effect.history_SetPageThumbnail url bitmap score)
  else s

/-! ### Search-engine discovery (lines 676-681, 1203-1273) -/

/-- The method `WebContents::IsActiveEntry` (lines 676-681). -/
def WebContents.IsActiveEntry (s : WebContents) (page_id : Int) : Bool :=
  match s.controller_.GetActiveEntry with
  | some active_entry =>
    active_entry.site_instance == s.GetSiteInstance.id && active_entry.page_id == page_id
  | none => false

/-- Modelled from the spec: the keyword model's `GetTemplateURLForKeyword`, the
record registered under the keyword, if any. -/
def TemplateURLModel.GetTemplateURLForKeyword (m : TemplateURLModel) (keyword : String) :
    Option TemplateURL :=
  m.template_urls.find? (fun t => t.keyword == keyword)

/-- The loop of lines 1231-1232, entered with `index = n - 1`: while the entry at
`index` is a form submit, step down.  The first component lists the indices
the loop reads through `GetEntryAtIndex`, in the order it reads them; the second
is the index it stops at, or `none` when it runs below zero. -/
def osddBaseSearch (entries : List NavigationEntry) : Nat → List Nat × Option Nat
  | 0 => ([], none)
  | index + 1 =>
    match entries.get? index with
    | some e =>
      if IsFormSubmit e then
        (index :: (osddBaseSearch entries index).1, (osddBaseSearch entries index).2)
      else ([index], some index)
    | none => ([index], none)

/-- The entry the keyword is derived from (lines 1226-1237), by its index: the
last committed entry itself, or, when that is a form submit, what the backward
search finds. -/
def WebContents.osddBaseIndex (s : WebContents) : Option Nat :=
  match s.controller_.GetLastCommittedEntry with
  | none => none
  | some entry =>
    if IsFormSubmit entry then
      (osddBaseSearch s.controller_.entries s.controller_.last_committed_entry_index.toNat).2
    else some s.controller_.last_committed_entry_index.toNat

/-- The method `WebContents::PageHasOSDD` (lines 1203-1273). -/
def WebContents.PageHasOSDD (s : WebContents) (env : Services)
    (_render_view_host : RenderViewHost) (page_id : Int) (url : GURL) (autodetected : Bool) :
    WebContents :=
  if !s.IsActiveEntry page_id then s
  else
    match s.template_url_model_ with
    | none => s
    | some url_model =>
      if !url_model.loaded then s.emit Effect.url_model_Load
      else if !s.profile_.has_template_url_fetcher then s
      else if s.profile_.is_off_the_record then s
      else
        match s.osddBaseIndex with
        | none => s
        | some base_index =>
          match s.controller_.entries.get? base_index with
          | none => s
          | some base_entry =>
            let keyword_url :=
              if base_entry.user_typed_url.is_valid then base_entry.user_typed_url
              else base_entry.url
            if !keyword_url.is_valid then s
            else
              let keyword := env.GenerateKeyword keyword_url autodetected
              if keyword.isEmpty then s
              else
                let schedule : WebContents :=
                  s.emit (Effect.template_url_fetcher_ScheduleDownload keyword url
                    base_entry.favicon_url autodetected)
                match url_model.GetTemplateURLForKeyword keyword with
                | some template_url =>
                  if !template_url.safe_for_autoreplace || template_url.originating_url == url
                  then s
                  else schedule
                | none => schedule

/-! ### Shortcut install (lines 598-620, 1395-1407) -/

/-- The method `WebContents::CreateShortcut` (lines 598-620). -/
def WebContents.CreateShortcut (s : WebContents) (env : Services) : WebContents :=
  match s.controller_.GetLastCommittedEntry with
  | none => s
  | some entry =>
    let p1 : PendingInstall :=
      { s.pending_install_ with
        page_id := entry.page_id
        icon := env.GetFavIcon
        title := s.GetTitle env
        url := s.GetURL }
    let s1 : WebContents := { s with pending_install_ := p1 }
    let s2 : WebContents :=
      if s1.pending_install_.callback_functor.isSome then
        let cancelled := s1.emit Effect.pending_install_Cancel
        let p2 : PendingInstall := { cancelled.pending_install_ with callback_functor := none }
        { cancelled with pending_install_ := p2 }
      else s1
    let s3 : WebContents :=
      if s2.pending_install_.title.isEmpty then
        let p3 : PendingInstall := { s2.pending_install_ with title := s2.GetURL.spec }
        { s2 with pending_install_ := p3 }
      else s2
    s3.emit (Effect.render_view_host_GetApplicationInfo s3.pending_install_.page_id)

/-- The method `WebContents::OnDidGetApplicationInfo` (lines 1395-1407); `info` stands
for the application info of the reply. -/
def WebContents.OnDidGetApplicationInfo (s : WebContents) (env : Services) (page_id : Int)
    (info : Nat) : WebContents :=
  if s.pending_install_.page_id != page_id then s
  else
    let p1 : PendingInstall :=
      { s.pending_install_ with callback_functor := some env.NewCallbackFunctor }
    let s1 : WebContents := { s with pending_install_ := p1 }
    s1.emit (Effect.GearsCreateShortcut info s1.pending_install_.title s1.pending_install_.url
      s1.pending_install_.icon)

/-! ### Page ids of a restored session (lines 1490-1509, 1678-1701) -/

/-- Modelled from the spec: `SiteInstance::UpdateMaxPageID` raises `max_page_id`
to the given page id when that is larger ("bump the SiteInstance"). -/
def SiteInstance.UpdateMaxPageID (si : SiteInstance) (page_id : Int) : SiteInstance :=
  if page_id > si.max_page_id then { si with max_page_id := page_id } else si

/-- The method `WebContents::UpdateMaxPageIDIfNecessary` (lines 1678-1701).  The
site instance is passed by pointer in the source; here the updated site
instance is returned next to the tab. -/
def WebContents.UpdateMaxPageIDIfNecessary (s : WebContents) (site_instance : SiteInstance)
    (rvh : RenderViewHost) : SiteInstance × WebContents :=
  let max_restored_page_id := s.controller_.max_restored_page_id
  if max_restored_page_id > 0 then
    let curr_max_page_id := site_instance.max_page_id
    if max_restored_page_id > curr_max_page_id then
      let site_instance1 := site_instance.UpdateMaxPageID max_restored_page_id
      let curr_max_page_id1 := if curr_max_page_id < 0 then 0 else curr_max_page_id
      (site_instance1,
        s.emit (Effect.render_view_host_ReservePageIDRange rvh
          (max_restored_page_id - curr_max_page_id1)))
    else (site_instance, s)
  else (site_instance, s)

/-- The method `WebContents::CreateRenderViewForRenderManager` (lines 1490-1509).
The endpoint is passed by pointer in the source; here the endpoint, with its
site instance as the call leaves it, is returned between the result and the
tab. -/
def WebContents.CreateRenderViewForRenderManager (s : WebContents) (env : Services)
    (render_view_host : Endpoint) : Bool × Endpoint × WebContents :=
  let s1 :=
    if s.render_manager_.pending_dom_ui.isSome then
      s.emit (Effect.render_view_host_AllowDOMUIBindings render_view_host.host)
    else s
  let s2 := s1.emit (Effect.view_CreateViewForWidget render_view_host.host)
  if !env.CreateRenderView render_view_host.host then (false, render_view_host, s2)
  else
    let s3 := s2.emit (Effect.rwh_view_SetSize render_view_host.host)
    let r := s3.UpdateMaxPageIDIfNecessary render_view_host.site_instance render_view_host.host
    (true, { render_view_host with site_instance := r.1 }, r.2)

/-- The render manager asking the tab to create the view of one of its two
endpoints, the pending one if `rvh` names it, else the current one: the call
of `CreateRenderViewForRenderManager` on that endpoint, which the manager then
holds as the call left it.  An endpoint the manager does not hold is not the
tab's to create. -/
def WebContents.CreateRenderViewFor (s : WebContents) (env : Services) (rvh : RenderViewHost) :
    WebContents :=
  match s.render_manager_.pending_host with
  | some p =>
    if p.host == rvh then
      let r := s.CreateRenderViewForRenderManager env p
      let m : RenderViewHostManager := { r.2.2.render_manager_ with pending_host := some r.2.1 }
      { r.2.2 with render_manager_ := m }
    else if s.render_manager_.current_host.host == rvh then
      let r := s.CreateRenderViewForRenderManager env s.render_manager_.current_host
      let m : RenderViewHostManager := { r.2.2.render_manager_ with current_host := r.2.1 }
      { r.2.2 with render_manager_ := m }
    else s
  | none =>
    if s.render_manager_.current_host.host == rvh then
      let r := s.CreateRenderViewForRenderManager env s.render_manager_.current_host
      let m : RenderViewHostManager := { r.2.2.render_manager_ with current_host := r.2.1 }
      { r.2.2 with render_manager_ := m }
    else s

/-! ### Preferences (lines 131-151, 1291-1310, 1527-1540, 1669-1676) -/

/-- The constant `kLinkDoctorBaseURL` (lines 124-125). -/
def kLinkDoctorBaseURL : String := "http://linkhelp.clients.google.com/tbproxy/lh/fixurl"

/-- The URL `GURL(kLinkDoctorBaseURL)`. -/
def linkDoctorBaseURL : GURL :=
  { spec := kLinkDoctorBaseURL, scheme := "http", host := "linkhelp.clients.google.com",
    file_name := "fixurl", is_valid := true }

/-- The table `kPrefsToObserve` (lines 132-149). -/
def kPrefsToObserve (prefs : PrefNames) : List String :=
  [ prefs.kAlternateErrorPagesEnabled,
    prefs.kWebKitJavaEnabled,
    prefs.kWebKitJavascriptEnabled,
    prefs.kWebKitLoadsImagesAutomatically,
    prefs.kWebKitPluginsEnabled,
    prefs.kWebKitUsesUniversalDetector,
    prefs.kWebKitSerifFontFamily,
    prefs.kWebKitSansSerifFontFamily,
    prefs.kWebKitFixedFontFamily,
    prefs.kWebKitDefaultFontSize,
    prefs.kWebKitDefaultFixedFontSize,
    prefs.kDefaultCharset ]

/-- Modelled from the spec: `StartsWithASCII(str, search, case_sensitive)` of the
base library: whether `str` begins with `search`, letters compared as they are
or in lower case. -/
def StartsWithASCII (str search : String) (case_sensitive : Bool) : Bool :=
  if case_sensitive then search.toList.isPrefixOf str.toList
  else (search.toList.map Char.toLower).isPrefixOf (str.toList.map Char.toLower)

/-- The method `WebContents::GetAlternateErrorPageURL` (lines 1291-1304). -/
def WebContents.GetAlternateErrorPageURL (s : WebContents) (env : Services) : GURL :=
  if s.profile_.is_off_the_record then GURL.EmptyGURL
  else if env.prefs_GetBoolean env.prefs.kAlternateErrorPagesEnabled then
    env.AppendGoogleTLDParam (env.AppendGoogleLocaleParam linkDoctorBaseURL)
  else GURL.EmptyGURL

/-- The method `WebContents::UpdateAlternateErrorPageURL` (lines 1669-1672). -/
def WebContents.UpdateAlternateErrorPageURL (s : WebContents) (env : Services) : WebContents :=
  s.emit (Effect.render_view_host_SetAlternateErrorPageURL s.render_view_host
    (s.GetAlternateErrorPageURL env))

/-- The method `WebContents::UpdateWebPreferences` (lines 1674-1676). -/
def WebContents.UpdateWebPreferences (s : WebContents) (env : Services) : WebContents :=
  s.emit (Effect.render_view_host_UpdateWebPreferences s.render_view_host env.GetWebkitPrefs)

/-- The case `PREF_CHANGED` of `WebContents::Observe` (lines 1527-1540); the
assertion `NOTREACHED()` of the last branch is recorded in the trace. -/
def WebContents.Observe_PREF_CHANGED (s : WebContents) (env : Services)
    (pref_name_in : String) : WebContents :=
  if pref_name_in == env.prefs.kAlternateErrorPagesEnabled then
    s.UpdateAlternateErrorPageURL env
  else if pref_name_in == env.prefs.kDefaultCharset ||
      StartsWithASCII pref_name_in "webkit.webprefs." true then
    s.UpdateWebPreferences env
  else
    s.emit (Effect.NOTREACHED pref_name_in)

/-! ### Find in page and links (lines 1059-1075, 1419-1444) -/

/-- The method `WebContents::OnFindReply` (lines 1419-1444). -/
def WebContents.OnFindReply (s : WebContents) (request_id : Int) (number_of_matches : Int)
    (selection_rect : Rect) (active_match_ordinal : Int) (final_update : Bool) :
    WebContents :=
  if request_id != s.current_find_request_id_ then s
  else
    let number_of_matches1 :=
      if number_of_matches == -1 then s.find_result_.number_of_matches else number_of_matches
    let active_match_ordinal1 :=
      if active_match_ordinal == -1 then s.find_result_.active_match_ordinal
      else active_match_ordinal
    let result : FindNotificationDetails :=
      { request_id := request_id
        number_of_matches := number_of_matches1
        selection_rect := selection_rect
        active_match_ordinal := active_match_ordinal1
        final_update := final_update }
    let s1 : WebContents := { s with find_result_ := result }
    s1.emit (Effect.Notify NotificationType.FIND_RESULT_AVAILABLE
      (NotificationDetails.Find s1.find_result_))

/-- The method `WebContents::RequestOpenURL` (lines 1059-1075); `OpenURL` is a call
into the base class. -/
def WebContents.RequestOpenURL (s : WebContents) (url referrer : GURL)
    (disposition : WindowOpenDisposition) : WebContents :=
  match s.render_manager_.dom_ui with
  | some dom_ui =>
    s.emit (Effect.OpenURL url GURL.EmptyGURL disposition dom_ui.link_transition_type)
  | none => s.emit (Effect.OpenURL url referrer disposition PageTransition.LINK)

/-! ## Histories of a tab -/

/-- One operation on a tab: an inbound event from an endpoint or a service, a
call made by the shell, or a notification from the render manager.  The
constructors named `_changed` stand for a collaborator, or a method of the tab
that is not modelled, replacing the member they name: the controller taking a
new pending entry, the render manager standing up a pending endpoint, an
interstitial being shown, a child window or an infobar being added. -/
inductive Op where
  | SetIsLoading (is_loading : Bool) (details : Option LoadNotificationDetails)
  | DidStartLoading (rvh : RenderViewHost) (page_id : Int)
  | DidStopLoading (rvh : RenderViewHost) (page_id : Int)
  | LoadStateChanged (url : GURL) (load_state : LoadState)
  | RenderViewReady (rvh : RenderViewHost)
  | RenderViewGone (rvh : RenderViewHost)
  | NotifySwapped
  | DidNavigate (rvh : RenderViewHost) (params : FrameNavigateParams)
  | UpdateState (rvh : RenderViewHost) (page_id : Int) (state : String)
  | UpdateTitle (rvh : RenderViewHost) (page_id : Int) (title : String)
  | UpdateFeedList (rvh : RenderViewHost) (page_id : Int) (feedlist : List String)
  | UpdateEncoding (rvh : RenderViewHost) (encoding : String)
  | UpdateTargetURL (page_id : Int) (url : GURL)
  | UpdateFavIconURL (rvh : RenderViewHost) (page_id : Int) (icon_url : GURL)
  | Close (rvh : RenderViewHost)
  | DidStartProvisionalLoadForFrame (rvh : RenderViewHost) (is_main_frame : Bool) (url : GURL)
  | DidFailProvisionalLoadWithError (rvh : RenderViewHost) (is_main_frame : Bool)
      (error_code : Int) (url : GURL) (showing_repost_interstitial : Bool)
  | RunJavaScriptMessage (message default_prompt : String) (frame_url : GURL) (flags : Int)
      (reply_msg : ReplyMsg)
  | OnJavaScriptMessageBoxClosed (reply_msg : ReplyMsg) (success : Bool) (prompt : String)
  | SetDownloadShelfVisible (visible : Bool)
  | set_suppress_javascript_messages (suppress : Bool)
  | set_delegate (d : Option TabContentsDelegate)
  | NavigateToPendingEntry (reload : Bool)
  | UpdateThumbnail (url : GURL) (bitmap : SkBitmap) (score : Nat)
  | PageHasOSDD (rvh : RenderViewHost) (page_id : Int) (url : GURL) (autodetected : Bool)
  | CreateShortcut
  | OnDidGetApplicationInfo (page_id : Int) (info : Nat)
  | CreateRenderViewForRenderManager (rvh : RenderViewHost)
  | Observe_PREF_CHANGED (pref_name_in : String)
  | OnFindReply (request_id : Int) (number_of_matches : Int) (selection_rect : Rect)
      (active_match_ordinal : Int) (final_update : Bool)
  | RequestOpenURL (url referrer : GURL) (disposition : WindowOpenDisposition)
  | controller_changed (controller : NavigationController)
  | render_manager_changed (render_manager : RenderViewHostManager)
  | interstitial_changed (showing : Bool)
  | child_windows_changed (child_windows : List (Option ConstrainedWindow))
  | infobar_delegates_changed (infobar_delegates : List InfoBarDelegate)
  | pending_install_changed (pending_install : PendingInstall)
  | url_model_changed (url_model : Option TemplateURLModel)
  deriving Repr

/-- Run one operation, with the collaborators answering as `env` says. -/
def WebContents.step (s : WebContents) (env : Services) : Op → WebContents
  | Op.SetIsLoading is_loading details => s.SetIsLoading is_loading details
  | Op.DidStartLoading rvh page_id => s.DidStartLoading rvh page_id
  | Op.DidStopLoading rvh page_id => s.DidStopLoading env rvh page_id
  | Op.LoadStateChanged url load_state => s.LoadStateChanged url load_state
  | Op.RenderViewReady rvh => s.RenderViewReady rvh
  | Op.RenderViewGone rvh => s.RenderViewGone env rvh
  | Op.NotifySwapped => s.NotifySwapped
  | Op.DidNavigate rvh params => s.DidNavigate env rvh params
  | Op.UpdateState rvh page_id state => s.UpdateState rvh page_id state
  | Op.UpdateTitle rvh page_id title => s.UpdateTitle env rvh page_id title
  | Op.UpdateFeedList rvh page_id feedlist => s.UpdateFeedList rvh page_id feedlist
  | Op.UpdateEncoding rvh encoding => s.UpdateEncoding rvh encoding
  | Op.UpdateTargetURL page_id url => s.UpdateTargetURL page_id url
  | Op.UpdateFavIconURL rvh page_id icon_url => s.UpdateFavIconURL rvh page_id icon_url
  | Op.Close rvh => s.Close rvh
  | Op.DidStartProvisionalLoadForFrame rvh is_main_frame url =>
    s.DidStartProvisionalLoadForFrame env rvh is_main_frame url
  | Op.DidFailProvisionalLoadWithError rvh is_main_frame error_code url repost =>
    s.DidFailProvisionalLoadWithError env rvh is_main_frame error_code url repost
  | Op.RunJavaScriptMessage message default_prompt frame_url flags reply_msg =>
    (s.RunJavaScriptMessage env message default_prompt frame_url flags reply_msg).2
  | Op.OnJavaScriptMessageBoxClosed reply_msg success prompt =>
    s.OnJavaScriptMessageBoxClosed env reply_msg success prompt
  | Op.SetDownloadShelfVisible visible => s.SetDownloadShelfVisible env visible
  | Op.set_suppress_javascript_messages suppress => s.set_suppress_javascript_messages suppress
  | Op.set_delegate d => s.set_delegate d
  | Op.NavigateToPendingEntry reload => (s.NavigateToPendingEntry env reload).2
  | Op.UpdateThumbnail url bitmap score => s.UpdateThumbnail url bitmap score
  | Op.PageHasOSDD rvh page_id url autodetected => s.PageHasOSDD env rvh page_id url autodetected
  | Op.CreateShortcut => s.CreateShortcut env
  | Op.OnDidGetApplicationInfo page_id info => s.OnDidGetApplicationInfo env page_id info
  | Op.CreateRenderViewForRenderManager rvh => s.CreateRenderViewFor env rvh
  | Op.Observe_PREF_CHANGED pref_name_in => s.Observe_PREF_CHANGED env pref_name_in
  | Op.OnFindReply request_id number_of_matches selection_rect active_match_ordinal
      final_update =>
    s.OnFindReply request_id number_of_matches selection_rect active_match_ordinal final_update
  | Op.RequestOpenURL url referrer disposition => s.RequestOpenURL url referrer disposition
  | Op.controller_changed controller => { s with controller_ := controller }
  | Op.render_manager_changed render_manager => { s with render_manager_ := render_manager }
  | Op.interstitial_changed showing => { s with showing_interstitial_page := showing }
  | Op.child_windows_changed child_windows => { s with child_windows_ := child_windows }
  | Op.infobar_delegates_changed infobar_delegates =>
    { s with infobar_delegates_ := infobar_delegates }
  | Op.pending_install_changed pending_install => { s with pending_install_ := pending_install }
  | Op.url_model_changed url_model => { s with template_url_model_ := url_model }

/-- Run a history: a list of operations, each with the answers of the
collaborators at that moment, oldest first. -/
def WebContents.run (s : WebContents) : List (Services × Op) → WebContents
  | [] => s
  | (env, op) :: rest => (s.step env op).run rest

/-- What `after` has in its trace beyond the trace of `before`: the calls made
between the two states. -/
def emittedSince (before after : WebContents) : List Effect :=
  after.effects.drop before.effects.length

/-- What one call of `SetIsLoading` appends to the trace. -/
def SetIsLoading_emitted (s : WebContents) (is_loading : Bool)
    (details : Option LoadNotificationDetails) : List Effect :=
  if is_loading == s.is_loading_ then []
  else
    [Effect.render_manager_SetIsLoading is_loading] ++
    (if s.delegate_.isSome then [Effect.delegate_LoadingStateChanged] else []) ++
    [Effect.Notify
      (if is_loading then NotificationType.LOAD_START else NotificationType.LOAD_STOP)
      (match details with
        | some d => NotificationDetails.Load d
        | none => NotificationDetails.NoDetails)]

/-- Whether the tab sits inside a constrained popup: a delegate exists and
reports a constraining contents (lines 1139-1141). -/
def WebContents.insideConstrainedPopup (s : WebContents) : Bool :=
  match s.delegate_ with
  | some d => d.constraining_contents
  | none => false

/-! ## The loading and connection view of a tab -/

/-- The notification kinds that carry the loading signal and the connection
life cycle. -/
def isSignal : NotificationType → Bool
  | NotificationType.LOAD_START => true
  | NotificationType.LOAD_STOP => true
  | NotificationType.WEB_CONTENTS_CONNECTED => true
  | NotificationType.WEB_CONTENTS_DISCONNECTED => true
  | NotificationType.WEB_CONTENTS_SWAPPED => true
  | NotificationType.TAB_CONTENTS_DESTROYED => true
  | _ => false

/-- The loading and connection notifications of a trace, oldest first. -/
def signals : List Effect → List NotificationType
  | [] => []
  | Effect.Notify t _ :: es => if isSignal t then t :: signals es else signals es
  | _ :: es => signals es

/-- The part of a tab that the loading signal, the connection life cycle and the
dialog clock depend on: the loading flags, the disconnection flag, the time of
the last dialog close, and the loading and connection notifications posted so
far. -/
structure View where
  is_loading : Bool
  waiting_for_response : Bool
  load_state : LoadState
  load_state_host : String
  notify_disconnection : Bool
  last_javascript_message_dismissal : TimeTicks
  posted : List NotificationType
  deriving DecidableEq, Repr

/-- The view of a tab state. -/
def WebContents.view (s : WebContents) : View :=
  { is_loading := s.is_loading_
    waiting_for_response := s.waiting_for_response_
    load_state := s.load_state_
    load_state_host := s.load_state_host_
    notify_disconnection := s.notify_disconnection_
    last_javascript_message_dismissal := s.last_javascript_message_dismissal_
    posted := signals s.effects }

/-- The moves of the view: what the methods that touch it do to it. -/
inductive ViewOp where
  | SetIsLoading (is_loading : Bool)
  | SetNotWaitingForResponse
  | LoadStateChanged (load_state : LoadState) (host : String)
  | NotifyConnected
  | NotifySwapped
  | NotifyDisconnected
  | DialogClosed (now : TimeTicks)
  deriving DecidableEq, Repr

/-- One move of the view. -/
def View.apply (v : View) : ViewOp → View
  | ViewOp.SetIsLoading x =>
    if x == v.is_loading then v
    else
      { v with
        is_loading := x
        waiting_for_response := x
        load_state := if x then v.load_state else LoadState.LOAD_STATE_IDLE
        load_state_host := if x then v.load_state_host else ""
        posted := v.posted ++
          [if x then NotificationType.LOAD_START else NotificationType.LOAD_STOP] }
  | ViewOp.SetNotWaitingForResponse => { v with waiting_for_response := false }
  | ViewOp.LoadStateChanged load_state host =>
    { v with
      load_state := load_state
      load_state_host := host
      waiting_for_response :=
        if load_state == LoadState.LOAD_STATE_READING_RESPONSE then false
        else v.waiting_for_response }
  | ViewOp.NotifyConnected =>
    { v with notify_disconnection := true
             posted := v.posted ++ [NotificationType.WEB_CONTENTS_CONNECTED] }
  | ViewOp.NotifySwapped =>
    { v with notify_disconnection := true
             posted := v.posted ++ [NotificationType.WEB_CONTENTS_SWAPPED] }
  | ViewOp.NotifyDisconnected =>
    if !v.notify_disconnection then v
    else
      { v with notify_disconnection := false
               posted := v.posted ++ [NotificationType.WEB_CONTENTS_DISCONNECTED] }
  | ViewOp.DialogClosed now => { v with last_javascript_message_dismissal := now }

/-- Several moves of the view in a row. -/
def View.applyAll (v : View) : List ViewOp → View
  | [] => v
  | op :: ops => (v.apply op).applyAll ops

/-- The moves of the view that one operation of the tab amounts to. -/
def WebContents.viewOps (s : WebContents) (env : Services) : Op → List ViewOp
  | Op.SetIsLoading is_loading _ => [ViewOp.SetIsLoading is_loading]
  | Op.DidStartLoading _ _ => [ViewOp.SetIsLoading true]
  | Op.DidStopLoading _ _ => [ViewOp.SetIsLoading false]
  | Op.LoadStateChanged url load_state => [ViewOp.LoadStateChanged load_state url.host]
  | Op.RenderViewReady rvh =>
    if rvh != s.render_view_host then [] else [ViewOp.NotifyConnected]
  | Op.RenderViewGone rvh =>
    if !env.printing_OnRenderViewGone rvh then []
    else if rvh != s.render_view_host then []
    else [ViewOp.SetIsLoading false, ViewOp.NotifyDisconnected]
  | Op.NotifySwapped => [ViewOp.NotifySwapped]
  | Op.DidNavigate rvh params =>
    if PageTransition.IsMainFrame params.transition then
      match s.render_manager_.pending_host with
      | some p => if p.host == rvh then [ViewOp.NotifySwapped] else []
      | none => []
    else []
  | Op.UpdateTitle _ _ _ => [ViewOp.SetNotWaitingForResponse]
  | Op.RunJavaScriptMessage _ _ _ _ _ =>
    if s.suppress_javascript_messages_ || s.insideConstrainedPopup then
      [ViewOp.DialogClosed env.Now]
    else []
  | Op.OnJavaScriptMessageBoxClosed _ _ _ => [ViewOp.DialogClosed env.Now]
  | _ => []

/-! ## Concrete inputs -/

/-- A profile that is not incognito and has a history service. -/
def exampleProfile : Profile :=
  { is_off_the_record := false, has_history_service := true, has_template_url_fetcher := true }

/-- An endpoint, number 1, in a site instance that has no site yet. -/
def exampleEndpoint : Endpoint :=
  { host := 1, site_instance := { id := 1, site := none, max_page_id := -1 } }

/-- The URL `https://a.example/x`. -/
def exampleURL : GURL :=
  { spec := "https://a.example/x", scheme := "https", host := "a.example", file_name := "x",
    is_valid := true }

/-- Collaborators at time 0: the print manager lets every gone endpoint through,
the controller commits nothing, the render manager sends every navigation to
the current endpoint, and the profile has no download manager and no bookmark
model. -/
def exampleServices : Services :=
  { Now := 0
    printing_OnRenderViewGone := fun _ => true
    IsURLInPageNavigation := fun _ => false
    RendererDidNavigate := fun _ _ => none
    in_progress_count := none
    SameDomainOrHost := fun a b => a.host == b.host
    IsBookmarked := none
    GenerateKeyword := fun _ _ => ""
    CanReplaceKeyword := fun _ _ _ => (false, none)
    GenerateFaviconURL := fun u => u
    TrimWhitespace := fun t => t.trim
    GetTitleForDisplay := fun e => if e.title.isEmpty then e.display_url.spec else e.title
    render_manager_Navigate := fun m _ => some (m, m.current_host.host)
    devtools_manager := false
    GetFavIcon := 5
    NewCallbackFunctor := 11
    CreateRenderView := fun _ => true
    prefs :=
      { kAlternateErrorPagesEnabled := "alternate_error_pages.enabled"
        kWebKitJavaEnabled := "webkit.webprefs.java_enabled"
        kWebKitJavascriptEnabled := "webkit.webprefs.javascript_enabled"
        kWebKitLoadsImagesAutomatically := "webkit.webprefs.loads_images_automatically"
        kWebKitPluginsEnabled := "webkit.webprefs.plugins_enabled"
        kWebKitUsesUniversalDetector := "webkit.webprefs.uses_universal_detector"
        kWebKitSerifFontFamily := "webkit.webprefs.serif_font_family"
        kWebKitSansSerifFontFamily := "webkit.webprefs.sansserif_font_family"
        kWebKitFixedFontFamily := "webkit.webprefs.fixed_font_family"
        kWebKitDefaultFontSize := "webkit.webprefs.default_font_size"
        kWebKitDefaultFixedFontSize := "webkit.webprefs.default_fixed_font_size"
        kDefaultCharset := "intl.charset_default" }
    prefs_GetBoolean := fun _ => true
    AppendGoogleLocaleParam := fun u => u
    AppendGoogleTLDParam := fun u => u
    GetWebkitPrefs := 9 }

/-- A fresh tab on `exampleEndpoint`. -/
def exampleTab : WebContents := WebContents.fresh exampleProfile exampleEndpoint none

/-! ## Histories that report load states only while loading -/

/-- Whether the operation is a `LoadStateChanged`. -/
def Op.isLoadStateChanged : Op → Bool
  | Op.LoadStateChanged _ _ => true
  | _ => false

/-- Whether the view move is a `LoadStateChanged`. -/
def ViewOp.isLoadStateChanged : ViewOp → Bool
  | ViewOp.LoadStateChanged _ _ => true
  | _ => false

/-- Whether, along the history run from `s`, every `LoadStateChanged` arrives
while the tab is loading. -/
def WebContents.loadStateChangesWhileLoading (s : WebContents) : List (Services × Op) → Bool
  | [] => true
  | (env, op) :: rest =>
    (!op.isLoadStateChanged || s.is_loading_) &&
      (s.step env op).loadStateChangesWhileLoading rest

/-- A history with one load: start, a load state report, stop. -/
def exampleLoadHistory : List (Services × Op) :=
  [(exampleServices, Op.DidStartLoading 1 0),
   (exampleServices, Op.LoadStateChanged exampleURL LoadState.LOAD_STATE_CONNECTING),
   (exampleServices, Op.DidStopLoading 1 0)]

/-- The invariant of the loading flags: a tab that is not loading has an idle
load state and no load state host. -/
def View.idleWhenNotLoading (v : View) : Prop :=
  v.is_loading = false → v.load_state = LoadState.LOAD_STATE_IDLE ∧ v.load_state_host = ""

/-! ## Concrete tabs -/

/-- A tab that is loading and has announced its connection: the fresh tab after
`DidStartLoading` and `RenderViewReady` from its endpoint. -/
def exampleLoadingTab : WebContents :=
  exampleTab.run
    [(exampleServices, Op.DidStartLoading 1 0), (exampleServices, Op.RenderViewReady 1)]

/-- Collaborators as in `exampleServices`, but with a print manager that reports
every gone endpoint as not valuable. -/
def examplePrintVeto : Services :=
  { exampleServices with printing_OnRenderViewGone := fun _ => false }

/-- The URL `https://a.example/y`. -/
def exampleOtherURL : GURL :=
  { spec := "https://a.example/y", scheme := "https", host := "a.example", file_name := "y",
    is_valid := true }

/-- A pending, not yet committed entry for `url`. -/
def examplePendingEntry (url : GURL) : NavigationEntry :=
  { url := url, display_url := url, user_typed_url := GURL.EmptyGURL,
    referrer := GURL.EmptyGURL, transition_type := PageTransition.LINK, page_id := -1,
    title := "", favicon_url := GURL.EmptyGURL, content_state := "", feedlist := [],
    site_instance := 1 }

/-- The fresh tab with a navigation to `exampleURL` pending. -/
def examplePendingTab : WebContents :=
  exampleTab.step exampleServices
    (Op.controller_changed
      { exampleTab.controller_ with pending_entry := some (examplePendingEntry exampleURL) })

/-! ## Reading a trace of notifications -/

/-- Scan the notifications with the flag "a load is open".  `LOAD_START` is legal
only when no load is open, and opens one; `LOAD_STOP` is legal only when a load
is open, and closes it; the other kinds are skipped.  The result is the flag at
the end of the list, or `none` when an illegal notification was met: `some _`
says that the two kinds strictly alternate, beginning with `LOAD_START` when
the scan starts with no load open. -/
def loadAlternation : Bool → List NotificationType → Option Bool
  | open_, [] => some open_
  | open_, NotificationType.LOAD_START :: ts =>
    if open_ then none else loadAlternation true ts
  | open_, NotificationType.LOAD_STOP :: ts =>
    if open_ then loadAlternation false ts else none
  | open_, _ :: ts => loadAlternation open_ ts

/-- Scan the notifications for an announcement that still awaits its
`WEB_CONTENTS_DISCONNECTED`: true when the last of the connection notifications
(`CONNECTED`, `SWAPPED`, `DISCONNECTED`) in the list is a `CONNECTED` or a
`SWAPPED`; the first argument is the answer for a list without any. -/
def owesDisconnect : Bool → List NotificationType → Bool
  | owed, [] => owed
  | _, NotificationType.WEB_CONTENTS_CONNECTED :: ts => owesDisconnect true ts
  | _, NotificationType.WEB_CONTENTS_SWAPPED :: ts => owesDisconnect true ts
  | _, NotificationType.WEB_CONTENTS_DISCONNECTED :: ts => owesDisconnect false ts
  | owed, _ :: ts => owesDisconnect owed ts

/-- A tab whose endpoint became ready and then went away: the fresh tab after
`RenderViewReady` and `RenderViewGone` from its endpoint. -/
def exampleCrashedTab : WebContents :=
  exampleTab.run
    [(exampleServices, Op.RenderViewReady 1), (exampleServices, Op.RenderViewGone 1)]

/-- Collaborators as in `exampleServices`, at `ms` milliseconds on the clock. -/
def exampleServicesAt (ms : Int) : Services :=
  { exampleServices with Now := TimeDelta.FromMilliseconds ms }

/-- A tab whose last JavaScript dialog was closed at 200 ms: the fresh tab after
`OnJavaScriptMessageBoxClosed` at that time. -/
def exampleDismissedTab : WebContents :=
  exampleTab.step (exampleServicesAt 200) (Op.OnJavaScriptMessageBoxClosed 7 true "")

/-- A frame-navigate message of the main frame for `exampleURL`. -/
def exampleParams : FrameNavigateParams :=
  { url := exampleURL, transition := PageTransition.LINK, page_id := 2,
    referrer := GURL.EmptyGURL, redirects := [], contents_mime_type := "text/html",
    password_form_origin_is_valid := false, searchable_form_url := GURL.EmptyGURL,
    searchable_form_encoding := "", should_update_history := true }

/-- Collaborators as in `exampleServices`, with a controller that commits every
frame-navigate message as a new main-frame entry after `https://a.example/y`. -/
def exampleCommitting : Services :=
  { exampleServices with
    RendererDidNavigate := fun c params =>
      some ({ c with entries := c.entries ++ [examplePendingEntry params.url]
                     last_committed_entry_index := c.entries.length
                     pending_entry := none },
            { entry := examplePendingEntry params.url, previous_url := exampleOtherURL,
              is_main_frame := true, is_user_initiated_main_frame_load := true }) }

/-- A tab in which the user has asked to suppress further JavaScript dialogs. -/
def exampleSuppressedTab : WebContents :=
  exampleTab.step exampleServices (Op.set_suppress_javascript_messages true)

/-! ## The dialog clock along a history -/

/-- Whether the operation, run in state `s`, closes a JavaScript dialog: the
user closing one, or a request that is suppressed and answered at once. -/
def WebContents.closesDialog (s : WebContents) : Op → Bool
  | Op.OnJavaScriptMessageBoxClosed _ _ _ => true
  | Op.RunJavaScriptMessage _ _ _ _ _ =>
    s.suppress_javascript_messages_ || s.insideConstrainedPopup
  | _ => false

/-- The time of the most recent dialog close along the history run from `s`, or
`t0` when the history closes none. -/
def WebContents.lastDialogClose (s : WebContents) (t0 : TimeTicks) :
    List (Services × Op) → TimeTicks
  | [] => t0
  | (env, op) :: rest =>
    (s.step env op).lastDialogClose (if s.closesDialog op then env.Now else t0) rest

/-! ## Titles of entries -/

/-- The title that `UpdateTitleForEntry` settles on (lines 1737-1745): the file
name for a `file:` URL without a title, else the trimmed title. -/
def finalTitle (env : Services) (entry : NavigationEntry) (title : String) : String :=
  if entry.url.SchemeIsFile && title.isEmpty then entry.url.file_name
  else env.TrimWhitespace title

/-- A `file:` URL with the file name `report.html`. -/
def exampleFileURL : GURL :=
  { spec := "file:///home/u/report.html", scheme := "file", host := "",
    file_name := "report.html", is_valid := true }

/-- A committed entry, page 3 of site instance 1, for `url`, still without title. -/
def exampleCommittedEntry (url : GURL) : NavigationEntry :=
  { examplePendingEntry url with page_id := 3 }

/-! ## Calls on the history service -/

/-- Whether the call is one on the history service: `AddPage`, `SetPageTitle`,
`SetPageThumbnail` or `SetFavIconOutOfDateForPage`. -/
def isHistoryCall : Effect → Bool
  | Effect.history_AddPage _ _ _ _ _ => true
  | Effect.history_SetPageTitle _ _ => true
  | Effect.history_SetPageThumbnail _ _ _ => true
  | Effect.history_SetFavIconOutOfDateForPage _ => true
  | _ => false

/-- Whether the entry is the one of site instance `instance_` with page id
`page_id`. -/
def NavigationEntry.hasPageID (e : NavigationEntry) (instance_ : SiteInstanceId)
    (page_id : Int) : Bool :=
  e.site_instance == instance_ && e.page_id == page_id

/-- The fresh tab with one committed entry, page 3 for `https://a.example/x`, and
a load under way. -/
def exampleOnePageTab : WebContents :=
  exampleTab.run
    [(exampleServices,
      Op.controller_changed
        { exampleTab.controller_ with
          entries := [exampleCommittedEntry exampleURL]
          last_committed_entry_index := 0
          current_entry_index := 0 }),
     (exampleServices, Op.DidStartLoading 1 3)]

/-! ## Closing child windows -/

/-- The close requests for a list of child windows in the words of the spec: one
for every non-null window, in descending index order (reverse of insertion). -/
def closeRequests (windows : List (Option ConstrainedWindow)) : List Effect :=
  (windows.reverse.filterMap id).map Effect.CloseConstrainedWindow

/-! ## The download shelf -/

/-- Between `s` and `t` nothing touched the download shelf: the visibility flag
is the same, the trace of `t` extends the one of `s`, and the extension holds
no `ToolbarSizeChanged(false)`, the call that only `SetDownloadShelfVisible`
makes. -/
def ShelfQuiet (s t : WebContents) : Prop :=
  t.shelf_visible_ = s.shelf_visible_ ∧
  ∃ es, t.effects = s.effects ++ es ∧ Effect.ToolbarSizeChanged false ∉ es

/-- A tab whose download shelf is visible, shown at time 0. -/
def exampleShelfTab : WebContents :=
  { exampleTab with shelf_visible_ := true }

/-- The URL `https://b.example/z`, in another domain than `exampleURL`. -/
def exampleOtherDomainURL : GURL :=
  { spec := "https://b.example/z", scheme := "https", host := "b.example", file_name := "z",
    is_valid := true }

/-- The commit of `exampleOtherDomainURL` coming from `exampleURL`. -/
def exampleCrossDomainDetails : LoadCommittedDetails :=
  { entry := exampleCommittedEntry exampleOtherDomainURL, previous_url := exampleURL,
    is_main_frame := true, is_user_initiated_main_frame_load := false }

/-- Collaborators as in `exampleServicesAt`, with a download manager that has no
download in progress. -/
def exampleDownloadIdleAt (ms : Int) : Services :=
  { exampleServicesAt ms with in_progress_count := some 0 }

/-! ## Incognito tabs -/

/-- An incognito profile that does have a history service. -/
def exampleIncognitoProfile : Profile :=
  { is_off_the_record := true, has_history_service := true, has_template_url_fetcher := true }

/-- A fresh incognito tab with a pending navigation to `exampleURL`. -/
def exampleIncognitoTab : WebContents :=
  let s := WebContents.fresh exampleIncognitoProfile exampleEndpoint none
  let c : NavigationController :=
    { s.controller_ with pending_entry := some (examplePendingEntry exampleURL) }
  { s with controller_ := c }

/-! ## Learning keywords -/

/-- The URL `https://a.example/search`, the action of a search form. -/
def exampleSearchURL : GURL :=
  { spec := "https://a.example/search", scheme := "https", host := "a.example",
    file_name := "search", is_valid := true }

/-- A committed entry, page 4, reached by submitting a form. -/
def exampleFormSubmitEntry : NavigationEntry :=
  { exampleCommittedEntry exampleSearchURL with
    page_id := 4
    transition_type := { core := PageTransitionCore.FORM_SUBMIT, qualifier := 0 } }

/-- Collaborators as in `exampleServices`, with a keyword generator that answers
the host of the URL and a keyword model that lets every keyword be replaced and
reports the record registered under it. -/
def exampleSearchServices : Services :=
  { exampleServices with
    GenerateKeyword := fun u _ => u.host
    CanReplaceKeyword := fun m keyword _ => (true, m.GetTemplateURLForKeyword keyword) }

/-- A keyword `a.example` that came from an OSDD at `exampleOtherURL`. -/
def exampleOSDDKeyword : TemplateURL :=
  { keyword := "a.example", short_name := "a.example", url := "https://a.example/find",
    input_encodings := [], favicon_url := GURL.EmptyGURL, originating_url := exampleOtherURL,
    safe_for_autoreplace := true }

/-- A tab whose history is `https://a.example/x` followed by the form submit, the
latter being the last committed entry, over a loaded keyword model that holds
`template_urls`. -/
def exampleSearchTab (template_urls : List TemplateURL) : WebContents :=
  let c : NavigationController :=
    { exampleTab.controller_ with
      entries := [exampleCommittedEntry exampleURL, exampleFormSubmitEntry]
      last_committed_entry_index := 1
      current_entry_index := 1 }
  { exampleTab with
    controller_ := c
    template_url_model_ := some { loaded := true, template_urls := template_urls } }

/-- The frame-navigate message of the form submit: it carries the searchable form
URL and its encoding. -/
def exampleSearchParams : FrameNavigateParams :=
  { exampleParams with
    url := exampleSearchURL
    page_id := 4
    searchable_form_url := exampleSearchURL
    searchable_form_encoding := "UTF-8" }

/-! ## The base entry of an OSDD -/

/-- A tab whose history is `https://a.example/x` followed by two form submits,
the second of which is the last committed entry (index 2) and the active one,
over a loaded, empty keyword model. -/
def exampleFormChainTab : WebContents :=
  let c : NavigationController :=
    { exampleTab.controller_ with
      entries := [exampleCommittedEntry exampleURL, exampleFormSubmitEntry,
        exampleFormSubmitEntry]
      last_committed_entry_index := 2
      current_entry_index := 2 }
  { exampleTab with
    controller_ := c
    template_url_model_ := some { loaded := true, template_urls := [] } }

/-- A tab whose whole history is two form submits, the second of which is the
last committed entry (index 1). -/
def exampleAllFormsTab : WebContents :=
  let c : NavigationController :=
    { exampleTab.controller_ with
      entries := [exampleFormSubmitEntry, exampleFormSubmitEntry]
      last_committed_entry_index := 1
      current_entry_index := 1 }
  { exampleTab with
    controller_ := c
    template_url_model_ := some { loaded := true, template_urls := [] } }

/-! ## Page ids of a restored session -/

/-- The endpoints the renderer manager holds: the current one, then the pending
one if there is one. -/
def RenderViewHostManager.endpoints (m : RenderViewHostManager) : List Endpoint :=
  m.current_host :: m.pending_host.toList

/-- Whether the operation hands the renderer manager over to code outside the
tab: the collaborator move `render_manager_changed`, and `NavigateToPendingEntry`,
whose manager is the one `render_manager_.Navigate` leaves. -/
def Op.replacesRenderManager : Op → Bool
  | Op.render_manager_changed _ => true
  | Op.NavigateToPendingEntry _ => true
  | _ => false

/-- Whether the operation can touch the renderer manager at all: the two that
replace it, the commit `DidNavigate`, the failed provisional load and the
creation of a view. -/
def Op.touchesRenderManager : Op → Bool
  | Op.render_manager_changed _ => true
  | Op.NavigateToPendingEntry _ => true
  | Op.DidNavigate _ _ => true
  | Op.DidFailProvisionalLoadWithError _ _ _ _ _ => true
  | Op.CreateRenderViewForRenderManager _ => true
  | _ => false

/-- A tab restored from a session whose largest page id is 7: the fresh tab with
that `max_restored_page_id`; the site instance of its endpoint has handed out
no page id yet. -/
def exampleRestoredTab : WebContents :=
  let c : NavigationController := { exampleTab.controller_ with max_restored_page_id := 7 }
  { exampleTab with controller_ := c }

/-- A tab restored from a session whose only page has id 0. -/
def exampleRestoredZeroTab : WebContents :=
  let c : NavigationController := { exampleTab.controller_ with max_restored_page_id := 0 }
  { exampleTab with controller_ := c }

/-- No site instance had its `max_page_id` lowered between the managers `m` and
`m'`: every endpoint of `m'` was an endpoint of `m`, for the same site
instance, whose `max_page_id` was not larger then than it is now. -/
def RenderViewHostManager.maxPageIDNotLowered (m m' : RenderViewHostManager) : Prop :=
  ∀ e' ∈ m'.endpoints, ∃ e ∈ m.endpoints,
    e.host = e'.host ∧ e.site_instance.id = e'.site_instance.id ∧
    e.site_instance.max_page_id ≤ e'.site_instance.max_page_id

/-- The history in which the render manager asks the restored tab to create the
view of its endpoint 1. -/
def exampleCreateViewHistory : List (Services × Op) :=
  [(exampleServices, Op.CreateRenderViewForRenderManager 1)]

/-! ## The renderer manager -/

/-- Modelled from the spec: the events of the state machine of the renderer
manager (section 4.1 of the spec, and the protocol comment at lines 64-101 of
the source): a navigation that stays in the site, one that leaves it and
brings the endpoint to stand up, the answer of the beforeunload handler, the
cross-site response being ready or turning out to be a download, the commit of
a main-frame navigation by an endpoint, and an endpoint aborting its
provisional load. -/
inductive ManagerEvent where
  | navigate_same_site
  | navigate_cross_site (pending : Endpoint)
  | beforeunload (proceed : Bool)
  | cross_site_response_ready
  | download_detected
  | did_navigate_main_frame (rvh : RenderViewHost)
  | renderer_aborted_provisional_load (rvh : RenderViewHost)
  deriving DecidableEq, Repr

/-- Modelled from the spec: the commit hook `did_navigate_main_frame(endpoint)` on
the manager alone, "if `endpoint == pending`, perform swap": `current ← pending`
and back to NORMAL. -/
def RenderViewHostManager.DidNavigateMainFrame (m : RenderViewHostManager)
    (rvh : RenderViewHost) : RenderViewHostManager :=
  match m.pending_host with
  | some p =>
    if p.host == rvh then
      { m with current_host := p, pending_host := none,
               renderer_state := RendererState.NORMAL }
    else m
  | none => m

/-- Modelled from the spec: one row of the state machine table of section 4.1.
An event for which the table has no row in the present state leaves the
manager as it is; a download keeps it PENDING with its pending endpoint
(lines 86-91 of the source). -/
def RenderViewHostManager.handle (m : RenderViewHostManager) :
    ManagerEvent → RenderViewHostManager
  | ManagerEvent.navigate_same_site => m
  | ManagerEvent.navigate_cross_site pending =>
    match m.renderer_state with
    | RendererState.NORMAL =>
      { m with pending_host := some pending, renderer_state := RendererState.PENDING }
    | RendererState.PENDING => m
  | ManagerEvent.beforeunload proceed =>
    match m.renderer_state with
    | RendererState.NORMAL => m
    | RendererState.PENDING =>
      if proceed then m
      else { m with pending_host := none, renderer_state := RendererState.NORMAL }
  | ManagerEvent.cross_site_response_ready => m
  | ManagerEvent.download_detected => m
  | ManagerEvent.did_navigate_main_frame rvh => m.DidNavigateMainFrame rvh
  | ManagerEvent.renderer_aborted_provisional_load rvh => m.RendererAbortedProvisionalLoad rvh

/-- The manager after a list of events, oldest first. -/
def RenderViewHostManager.handleAll (m : RenderViewHostManager) :
    List ManagerEvent → RenderViewHostManager
  | [] => m
  | ev :: rest => (m.handle ev).handleAll rest

/-- The invariant of the manager: PENDING exactly when there is a pending
endpoint (so PENDING implies one exists and NORMAL implies there is none). -/
def RenderViewHostManager.wellFormed (m : RenderViewHostManager) : Bool :=
  (m.renderer_state == RendererState.PENDING) == m.pending_host.isSome

/-- Whether the managers that code outside the tab hands over in this operation
keep the invariant: the manager of `render_manager_changed`, and the one
`render_manager_.Navigate` leaves in `NavigateToPendingEntry`. -/
def WebContents.managerHandedOverWellFormed (s : WebContents) (env : Services) : Op → Bool
  | Op.render_manager_changed m => m.wellFormed
  | Op.NavigateToPendingEntry _ =>
    match s.controller_.pending_entry with
    | none => true
    | some entry =>
      match env.render_manager_Navigate s.render_manager_ entry with
      | none => true
      | some r => r.1.wellFormed
  | _ => true

/-- Whether, along the history run from `s`, every manager handed over by code
outside the tab keeps the invariant. -/
def WebContents.managersHandedOverWellFormed (s : WebContents) :
    List (Services × Op) → Bool
  | [] => true
  | (env, op) :: rest =>
    s.managerHandedOverWellFormed env op && (s.step env op).managersHandedOverWellFormed rest

/-- The number of pending endpoints the manager holds. -/
def RenderViewHostManager.pendingCount (m : RenderViewHostManager) : Nat :=
  m.pending_host.toList.length

/-- A second endpoint, number 2, in another site instance. -/
def exampleCrossSiteEndpoint : Endpoint :=
  { host := 2, site_instance := { id := 2, site := none, max_page_id := -1 } }

/-- The happy path of a cross-site navigation as the manager sees it: the
pending endpoint stands up, beforeunload proceeds, the response is ready, the
pending endpoint commits. -/
def exampleCrossSiteEvents : List ManagerEvent :=
  [ManagerEvent.navigate_cross_site exampleCrossSiteEndpoint,
   ManagerEvent.beforeunload true,
   ManagerEvent.cross_site_response_ready,
   ManagerEvent.did_navigate_main_frame 2]

/-- The same navigation as the tab sees it: the manager stands up the pending
endpoint, which then commits a main-frame navigation. -/
def exampleCrossSiteHistory : List (Services × Op) :=
  [(exampleServices,
    Op.render_manager_changed
      (exampleTab.render_manager_.handle
        (ManagerEvent.navigate_cross_site exampleCrossSiteEndpoint))),
   (exampleServices, Op.DidNavigate 2 exampleParams)]

/-! ## Child windows that leave the list while it is walked -/

/-- The loop of lines 1652-1657 (and 233-238) once more, now with the close
callback of the spec, which "may reentrantly mutate the list": `removes window`
tells whether `CloseConstrainedWindow` on that window takes it out of
`child_windows_` before it returns.  The read `child_windows_[i]` of an index
that is out of bounds has no defined result, and the loop then has none. -/
def WebContents.closeChildWindowsBelowReentrant (s : WebContents)
    (removes : ConstrainedWindow → Bool) : Nat → Option WebContents
  | 0 => some s
  | i + 1 =>
    match s.child_windows_.get? i with
    | none => none
    | some none => s.closeChildWindowsBelowReentrant removes i
    | some (some window) =>
      let s1 := s.emit (Effect.CloseConstrainedWindow window)
      let s2 : WebContents :=
        if removes window then
          { s1 with child_windows_ := s1.child_windows_.erase (some window) }
        else s1
      s2.closeChildWindowsBelowReentrant removes i

/-- A tab with the child windows 7 and 8 and an empty slot between them. -/
def exampleChildWindowsTab : WebContents :=
  { exampleTab with child_windows_ := [some 7, none, some 8] }

/-! ## Waiting only while loading -/

/-- The invariant of the two loading flags: a tab that waits for the response is
loading. -/
def View.waitingWhileLoading (v : View) : Prop :=
  v.waiting_for_response = true → v.is_loading = true

/-- A frame-navigate message of a subframe for `exampleURL`, with another MIME
type than the tab has. -/
def exampleSubframeParams : FrameNavigateParams :=
  { exampleParams with
    transition := { core := PageTransitionCore.AUTO_SUBFRAME, qualifier := 0 }
    contents_mime_type := "image/png" }

/-! ## Find replies, history entries and links -/

/-- A tab whose find request 4 is under way, with 3 matches and the ordinal 1
stored from an earlier reply. -/
def exampleFindTab : WebContents :=
  { exampleTab with
    current_find_request_id_ := 4
    find_result_ :=
      { request_id := 4, number_of_matches := 3,
        selection_rect := { x := 0, y := 0, width := 0, height := 0 },
        active_match_ordinal := 1, final_update := false } }

/-- A frame-navigate message of the main frame for `exampleOtherURL`, reached
through two redirects. -/
def exampleRedirectParams : FrameNavigateParams :=
  { exampleParams with
    url := exampleOtherURL
    redirects := [exampleURL, exampleOtherURL] }

/-- A tab on which a privileged page is committed whose links count as
`AUTO_BOOKMARK`. -/
def exampleDOMUITab : WebContents :=
  let m : RenderViewHostManager :=
    { exampleTab.render_manager_ with
      dom_ui := some
        { overridden_title := ""
          link_transition_type := { core := PageTransitionCore.AUTO_BOOKMARK, qualifier := 0 } } }
  { exampleTab with render_manager_ := m }

/-! ## Theorems -/

/-! ### Traces -/

theorem emit_effects (s : WebContents) (e : Effect) :
    (s.emit e).effects = s.effects ++ [e] := rfl

theorem notifications_append (xs ys : List Effect) :
    notifications (xs ++ ys) = notifications xs ++ notifications ys := by
  induction xs with
  | nil => rfl
  | cons x xs ih => cases x <;> simp [notifications, ih]

theorem emittedSince_of_append (s t : WebContents) (es : List Effect)
    (h : t.effects = s.effects ++ es) : emittedSince s t = es := by
  simp [emittedSince, h]

theorem emittedSince_self (s : WebContents) : emittedSince s s = [] := by
  simp [emittedSince]

theorem SetIsLoading_effects (s : WebContents) (x : Bool)
    (d : Option LoadNotificationDetails) :
    (s.SetIsLoading x d).effects = s.effects ++ SetIsLoading_emitted s x d := by
  unfold WebContents.SetIsLoading SetIsLoading_emitted
  by_cases h : x = s.is_loading_
  · simp [h]
  · cases x <;> cases hd : s.delegate_ <;> simp_all [WebContents.emit]

theorem SetIsLoading_is_loading (s : WebContents) (x : Bool)
    (d : Option LoadNotificationDetails) : (s.SetIsLoading x d).is_loading_ = x := by
  unfold WebContents.SetIsLoading
  by_cases h : x = s.is_loading_
  · simp [h]
  · cases x <;> cases hd : s.delegate_ <;> simp_all [WebContents.emit]

/-- C1: `SetIsLoading(x)` is idempotent.  The first call posts exactly one
notification, `LOAD_START` when `x` is true and `LOAD_STOP` when it is false, if
`x` differs from `is_loading`, and none otherwise; a second call with the same
`x` returns the very same tab state, so it emits nothing and leaves `is_loading`,
`waiting_for_response`, `load_state` and `load_state_host` as they were. -/
theorem SetIsLoading_idempotent (s : WebContents) (x : Bool)
    (d d2 : Option LoadNotificationDetails) :
    notifications (emittedSince s (s.SetIsLoading x d)) =
        (if x = s.is_loading_ then []
         else [if x then NotificationType.LOAD_START else NotificationType.LOAD_STOP]) ∧
    (s.SetIsLoading x d).SetIsLoading x d2 = s.SetIsLoading x d ∧
    emittedSince (s.SetIsLoading x d) ((s.SetIsLoading x d).SetIsLoading x d2) = [] ∧
    notifications (emittedSince s ((s.SetIsLoading x d).SetIsLoading x d2)) =
      notifications (emittedSince s (s.SetIsLoading x d)) ∧
    ((s.SetIsLoading x d).SetIsLoading x d2).is_loading_ = (s.SetIsLoading x d).is_loading_ ∧
    ((s.SetIsLoading x d).SetIsLoading x d2).waiting_for_response_ =
      (s.SetIsLoading x d).waiting_for_response_ ∧
    ((s.SetIsLoading x d).SetIsLoading x d2).load_state_ = (s.SetIsLoading x d).load_state_ ∧
    ((s.SetIsLoading x d).SetIsLoading x d2).load_state_host_ =
      (s.SetIsLoading x d).load_state_host_ := by
  have h2 : (s.SetIsLoading x d).SetIsLoading x d2 = s.SetIsLoading x d := by
    have hl := SetIsLoading_is_loading s x d
    generalize s.SetIsLoading x d = t at hl
    simp [WebContents.SetIsLoading, hl]
  refine ⟨?_, h2, ?_, ?_, ?_, ?_, ?_, ?_⟩
  · rw [emittedSince_of_append s _ _ (SetIsLoading_effects s x d)]
    unfold SetIsLoading_emitted
    by_cases h : x = s.is_loading_
    · simp [h, notifications]
    · cases hd : s.delegate_ <;> simp [h, hd, notifications]
  · rw [h2]; exact emittedSince_self _
  all_goals rw [h2]

/-! ### The view follows the handlers -/

theorem signals_append (xs ys : List Effect) :
    signals (xs ++ ys) = signals xs ++ signals ys := by
  induction xs with
  | nil => rfl
  | cons x xs ih =>
    cases x <;> simp [signals, ih]
    split <;> simp

theorem view_emit (s : WebContents) (e : Effect) :
    (s.emit e).view = { s.view with posted := s.view.posted ++ signals [e] } := by
  simp [WebContents.view, WebContents.emit, signals_append]

theorem view_SetIsLoading (s : WebContents) (x : Bool) (d : Option LoadNotificationDetails) :
    (s.SetIsLoading x d).view = s.view.apply (ViewOp.SetIsLoading x) := by
  unfold WebContents.SetIsLoading View.apply
  by_cases h : x = s.is_loading_
  · simp [h, WebContents.view]
  · cases x <;> cases hd : s.delegate_ <;>
      simp_all [WebContents.view, WebContents.emit, signals_append, signals, notifications,
        isSignal]

theorem view_SetNotWaitingForResponse (s : WebContents) :
    s.SetNotWaitingForResponse.view = s.view.apply ViewOp.SetNotWaitingForResponse := by
  simp [WebContents.SetNotWaitingForResponse, WebContents.view, View.apply]

theorem view_NotifyConnected (s : WebContents) :
    s.NotifyConnected.view = s.view.apply ViewOp.NotifyConnected := by
  simp [WebContents.NotifyConnected, WebContents.view, View.apply, WebContents.emit,
    signals_append, signals, notifications, isSignal]

theorem view_NotifySwapped (s : WebContents) :
    s.NotifySwapped.view = s.view.apply ViewOp.NotifySwapped := by
  simp [WebContents.NotifySwapped, WebContents.view, View.apply, WebContents.emit,
    signals_append, signals, notifications, isSignal]

theorem view_NotifyDisconnected (s : WebContents) :
    s.NotifyDisconnected.view = s.view.apply ViewOp.NotifyDisconnected := by
  unfold WebContents.NotifyDisconnected View.apply
  cases h : s.notify_disconnection_ <;>
    simp [h, WebContents.view, WebContents.emit, signals_append, signals, notifications,
      isSignal]

theorem view_SetIsCrashed (s : WebContents) (b : Bool) : (s.SetIsCrashed b).view = s.view := rfl

theorem view_LoadStateChanged (s : WebContents) (url : GURL) (ls : LoadState) :
    (s.LoadStateChanged url ls).view = s.view.apply (ViewOp.LoadStateChanged ls url.host) := by
  unfold WebContents.LoadStateChanged View.apply
  by_cases h : ls = LoadState.LOAD_STATE_READING_RESPONSE <;> cases hl : s.is_loading_ <;>
    simp [h, hl, WebContents.view, WebContents.SetNotWaitingForResponse,
      WebContents.NotifyNavigationStateChanged, WebContents.emit, signals_append, signals,
      notifications, isSignal]

theorem view_setEntry (s : WebContents) (i : Nat) (e : NavigationEntry) :
    (s.setEntry i e).view = s.view := rfl

theorem view_NotifyNavigationStateChanged (s : WebContents) (f : List InvalidateTypes) :
    (s.NotifyNavigationStateChanged f).view = s.view := by
  simp [WebContents.NotifyNavigationStateChanged, WebContents.view, WebContents.emit,
    signals_append, signals]

theorem view_RenderViewReady (s : WebContents) (rvh : RenderViewHost) :
    (s.RenderViewReady rvh).view =
      s.view.applyAll (if rvh != s.render_view_host then [] else [ViewOp.NotifyConnected]) := by
  unfold WebContents.RenderViewReady
  by_cases h : rvh = s.render_view_host <;>
    simp [h, View.applyAll, view_SetIsCrashed, view_NotifyConnected]

theorem view_RenderViewGone (s : WebContents) (env : Services) (rvh : RenderViewHost) :
    (s.RenderViewGone env rvh).view =
      s.view.applyAll
        (if !env.printing_OnRenderViewGone rvh then []
         else if rvh != s.render_view_host then []
         else [ViewOp.SetIsLoading false, ViewOp.NotifyDisconnected]) := by
  unfold WebContents.RenderViewGone
  cases hp : env.printing_OnRenderViewGone rvh
  · simp [View.applyAll]
  · by_cases h : rvh = s.render_view_host
    · simp [h, View.applyAll, view_emit, signals, view_SetIsCrashed, view_NotifyDisconnected,
        view_SetIsLoading]
    · simp [h, View.applyAll]

theorem view_UpdateState (s : WebContents) (rvh : RenderViewHost) (page_id : Int)
    (state : String) : (s.UpdateState rvh page_id state).view = s.view := by
  unfold WebContents.UpdateState
  split
  · rfl
  · split
    · rfl
    · split
      · rfl
      · simp [view_emit, signals, view_setEntry]

theorem view_UpdateTitleForEntry (s : WebContents) (env : Services) (entry : NavigationEntry)
    (title : String) : (s.UpdateTitleForEntry env entry title).2.2.view = s.view := by
  unfold WebContents.UpdateTitleForEntry
  simp only
  repeat' split
  all_goals simp [WebContents.view, WebContents.emit, signals_append, signals]

theorem view_UpdateTitle (s : WebContents) (env : Services) (rvh : RenderViewHost)
    (page_id : Int) (title : String) :
    (s.UpdateTitle env rvh page_id title).view =
      s.view.apply ViewOp.SetNotWaitingForResponse := by
  unfold WebContents.UpdateTitle
  simp only
  rw [← view_SetNotWaitingForResponse]
  split
  · rfl
  · split
    · rfl
    · rename_i entry _
      have h := view_UpdateTitleForEntry s.SetNotWaitingForResponse env entry title
      split
      · rfl
      · rename_i e1 s2 heq
        rw [heq] at h
        simp only at h
        split
        · rw [view_NotifyNavigationStateChanged, view_setEntry, h]
        · rw [view_setEntry, h]

theorem view_UpdateFeedList (s : WebContents) (rvh : RenderViewHost) (page_id : Int)
    (feedlist : List String) : (s.UpdateFeedList rvh page_id feedlist).view = s.view := by
  unfold WebContents.UpdateFeedList
  split
  · rfl
  · split
    · rfl
    · split
      · rfl
      · simp only
        split
        · rw [view_NotifyNavigationStateChanged, view_setEntry]
        · rw [view_setEntry]

theorem view_UpdateTargetURL (s : WebContents) (page_id : Int) (url : GURL) :
    (s.UpdateTargetURL page_id url).view = s.view := by
  unfold WebContents.UpdateTargetURL
  split <;> simp [view_emit, signals]

theorem view_Close (s : WebContents) (rvh : RenderViewHost) : (s.Close rvh).view = s.view := by
  unfold WebContents.Close
  split <;> simp [view_emit, signals]

theorem view_DidStopLoading (s : WebContents) (env : Services) (rvh : RenderViewHost)
    (page_id : Int) :
    (s.DidStopLoading env rvh page_id).view = s.view.apply (ViewOp.SetIsLoading false) := by
  unfold WebContents.DidStopLoading
  simp [view_SetIsLoading, view_emit, signals]

theorem view_DidFailProvisionalLoadWithError (s : WebContents) (env : Services)
    (rvh : RenderViewHost) (is_main_frame : Bool) (error_code : Int) (url : GURL)
    (repost : Bool) :
    (s.DidFailProvisionalLoadWithError env rvh is_main_frame error_code url repost).view =
      s.view := by
  unfold WebContents.DidFailProvisionalLoadWithError
  simp only
  split
  · split
    · rfl
    · simp only [view_emit, signals, isSignal]
      split
      · split <;> simp [WebContents.view, WebContents.emit, signals_append, signals]
      · simp [WebContents.view]
  · simp [view_emit, signals, isSignal]

theorem view_OnJavaScriptMessageBoxClosed (s : WebContents) (env : Services)
    (reply_msg : ReplyMsg) (success : Bool) (prompt : String) :
    (s.OnJavaScriptMessageBoxClosed env reply_msg success prompt).view =
      s.view.apply (ViewOp.DialogClosed env.Now) := by
  simp [WebContents.OnJavaScriptMessageBoxClosed, WebContents.view, WebContents.emit,
    signals_append, signals, View.apply]

/-- The two outcomes of `RunJavaScriptMessage`. -/
theorem RunJavaScriptMessage_eq (s : WebContents) (env : Services)
    (message default_prompt : String) (frame_url : GURL) (flags : Int) (reply_msg : ReplyMsg) :
    s.RunJavaScriptMessage env message default_prompt frame_url flags reply_msg =
      if s.suppress_javascript_messages_ || s.insideConstrainedPopup then
        (true, s.OnJavaScriptMessageBoxClosed env reply_msg false "")
      else
        (false, s.emit (Effect.RunJavascriptMessageBox frame_url flags message default_prompt
          (decide (env.Now - s.last_javascript_message_dismissal_ <
            TimeDelta.FromMilliseconds kJavascriptMessageExpectedDelay)) reply_msg)) := by
  have hdec : (if env.Now - s.last_javascript_message_dismissal_ <
      TimeDelta.FromMilliseconds kJavascriptMessageExpectedDelay then true else false) =
      decide (env.Now - s.last_javascript_message_dismissal_ <
        TimeDelta.FromMilliseconds kJavascriptMessageExpectedDelay) := by
    by_cases hlt : env.Now - s.last_javascript_message_dismissal_ <
        TimeDelta.FromMilliseconds kJavascriptMessageExpectedDelay <;> simp [hlt]
  unfold WebContents.RunJavaScriptMessage WebContents.insideConstrainedPopup
  simp only [hdec]
  cases hd : s.delegate_ with
  | none =>
    cases hs : s.suppress_javascript_messages_ <;> simp
  | some d =>
    cases hs : s.suppress_javascript_messages_
    · by_cases hc : d.constraining_contents = true
      · simp [hc]
      · simp only [Bool.not_eq_true] at hc
        simp [hc]
    · simp

theorem view_RunJavaScriptMessage (s : WebContents) (env : Services) (message : String)
    (default_prompt : String) (frame_url : GURL) (flags : Int) (reply_msg : ReplyMsg) :
    (s.RunJavaScriptMessage env message default_prompt frame_url flags reply_msg).2.view =
      s.view.applyAll
        (if s.suppress_javascript_messages_ || s.insideConstrainedPopup then
          [ViewOp.DialogClosed env.Now]
        else []) := by
  rw [RunJavaScriptMessage_eq]
  cases hb : (s.suppress_javascript_messages_ || s.insideConstrainedPopup)
  · simp [view_emit, signals, View.applyAll]
  · simp [view_OnJavaScriptMessageBoxClosed, View.applyAll]

theorem view_SetDownloadShelfVisible (s : WebContents) (env : Services) (visible : Bool) :
    (s.SetDownloadShelfVisible env visible).view = s.view := by
  unfold WebContents.SetDownloadShelfVisible
  cases visible <;> cases hd : s.delegate_ <;> cases hs : s.shelf_visible_ <;>
    simp [hd, hs, WebContents.view, WebContents.emit, signals_append, signals]

theorem view_closeChildWindowsBelow (n : Nat) :
    ∀ s : WebContents, (s.closeChildWindowsBelow n).view = s.view := by
  induction n with
  | zero => intro s; rfl
  | succ i ih =>
    intro s
    unfold WebContents.closeChildWindowsBelow
    simp only
    rw [ih]
    split <;> simp [view_emit, signals]

theorem view_closeInfoBars (ds : List InfoBarDelegate) :
    ∀ s : WebContents, (s.closeInfoBars ds).view = s.view := by
  induction ds with
  | nil => intro s; rfl
  | cons d ds ih =>
    intro s
    unfold WebContents.closeInfoBars
    rw [ih]
    simp [view_emit, signals]

theorem view_MaybeCloseChildWindows (s : WebContents) (env : Services) (p c : GURL) :
    (s.MaybeCloseChildWindows env p c).view = s.view := by
  unfold WebContents.MaybeCloseChildWindows
  split
  · rfl
  · exact view_closeChildWindowsBelow _ s

theorem view_UpdateStarredStateForCurrentURL (s : WebContents) (env : Services) :
    (s.UpdateStarredStateForCurrentURL env).view = s.view := by
  unfold WebContents.UpdateStarredStateForCurrentURL
  simp only
  repeat' split
  all_goals simp [WebContents.view, WebContents.emit, signals_append, signals]

theorem view_UpdateHistoryForNavigation (s : WebContents) (u : GURL)
    (params : FrameNavigateParams) : (s.UpdateHistoryForNavigation u params).view = s.view := by
  unfold WebContents.UpdateHistoryForNavigation
  repeat' split
  all_goals simp [WebContents.view, WebContents.emit, signals_append, signals]

theorem view_GenerateKeywordIfNecessary (s : WebContents) (env : Services)
    (params : FrameNavigateParams) : (s.GenerateKeywordIfNecessary env params).view = s.view := by
  unfold WebContents.GenerateKeywordIfNecessary
  simp only
  repeat' split
  all_goals simp [WebContents.view, WebContents.emit, signals_append, signals]

theorem view_DidNavigateMainFramePostCommit (s : WebContents) (env : Services)
    (details : LoadCommittedDetails) (params : FrameNavigateParams) :
    (s.DidNavigateMainFramePostCommit env details params).view = s.view := by
  unfold WebContents.DidNavigateMainFramePostCommit
  simp only
  rw [view_UpdateStarredStateForCurrentURL, view_MaybeCloseChildWindows, view_emit]
  have h4 : ∀ t : WebContents,
      ({ t with received_page_title_ := false } : WebContents).view = t.view := fun _ => rfl
  simp only [signals, List.append_nil]
  rw [h4, view_GenerateKeywordIfNecessary]
  repeat' split
  all_goals simp [view_emit, signals, view_UpdateTargetURL, view_SetDownloadShelfVisible]

theorem view_DidNavigateAnyFramePostCommit (s : WebContents) (env : Services)
    (rvh : RenderViewHost) (details : LoadCommittedDetails) (params : FrameNavigateParams) :
    (s.DidNavigateAnyFramePostCommit env rvh details params).view = s.view := by
  unfold WebContents.DidNavigateAnyFramePostCommit
  have h1 : ({ s with suppress_javascript_messages_ := false } : WebContents).view = s.view :=
    rfl
  simp only
  repeat' split
  all_goals simp [view_emit, signals, view_UpdateHistoryForNavigation, h1]

theorem view_render_manager_DidNavigateMainFrame (s : WebContents) (rvh : RenderViewHost) :
    (s.render_manager_DidNavigateMainFrame rvh).view =
      s.view.applyAll
        (match s.render_manager_.pending_host with
          | some p => if p.host == rvh then [ViewOp.NotifySwapped] else []
          | none => []) := by
  unfold WebContents.render_manager_DidNavigateMainFrame
  split
  · split
    · rw [view_NotifySwapped]; rfl
    · rfl
  · rfl

theorem view_DidNavigate (s : WebContents) (env : Services) (rvh : RenderViewHost)
    (params : FrameNavigateParams) :
    (s.DidNavigate env rvh params).view =
      s.view.applyAll (s.viewOps env (Op.DidNavigate rvh params)) := by
  have hsite : ∀ (t : WebContents) (u : GURL), (t.SetSite u).view = t.view := fun _ _ => rfl
  have hmime : ∀ (t : WebContents) (m : String),
      ({ t with contents_mime_type_ := m } : WebContents).view = t.view := fun _ _ => rfl
  have hctl : ∀ (t : WebContents) (c : NavigationController),
      ({ t with controller_ := c } : WebContents).view = t.view := fun _ _ => rfl
  have key : (s.DidNavigate env rvh params).view =
      (if PageTransition.IsMainFrame params.transition then
        s.render_manager_DidNavigateMainFrame rvh else s).view := by
    unfold WebContents.DidNavigate
    lift_lets
    extract_lets s1 s2 s3
    have h2 : s2.view = s1.view := by
      simp only [s2]
      split
      · exact hsite _ _
      · rfl
    have h3 : s3.view = s1.view := by
      simp only [s3]
      split
      · rw [hmime, h2]
      · exact h2
    cases env.RendererDidNavigate s3.controller_ params with
    | none => exact h3
    | some cd =>
      obtain ⟨c, det⟩ := cd
      simp only
      rw [view_DidNavigateAnyFramePostCommit]
      split
      · rw [view_DidNavigateMainFramePostCommit, hctl, h3]
      · rw [hctl, h3]
  rw [key]
  by_cases hm : PageTransition.IsMainFrame params.transition = true
  · simp only [WebContents.viewOps, hm, if_true]
    exact view_render_manager_DidNavigateMainFrame s rvh
  · simp only [WebContents.viewOps, hm]
    rfl

theorem view_NavigateToPendingEntry (s : WebContents) (env : Services) (reload : Bool) :
    (s.NavigateToPendingEntry env reload).2.view = s.view := by
  cases h1 : s.controller_.pending_entry with
  | none => simp [WebContents.NavigateToPendingEntry, h1]
  | some entry =>
    cases h2 : env.render_manager_Navigate s.render_manager_ entry with
    | none => simp [WebContents.NavigateToPendingEntry, h1, h2]
    | some md =>
      obtain ⟨m, dest⟩ := md
      cases h3 : env.devtools_manager <;> cases reload <;>
        cases h4 : s.profile_.is_off_the_record <;>
        cases h5 : s.profile_.has_history_service <;>
        cases h6 : (entry.page_id == -1 && entry.url.SchemeIs kJavaScriptScheme) <;>
        simp [WebContents.NavigateToPendingEntry, h1, h2, h3, h4, h5, h6, WebContents.view,
          WebContents.emit, signals_append, signals]

theorem view_UpdateThumbnail (s : WebContents) (url : GURL) (bitmap : SkBitmap) (score : Nat) :
    (s.UpdateThumbnail url bitmap score).view = s.view := by
  unfold WebContents.UpdateThumbnail
  split <;> simp [view_emit, signals]

theorem view_PageHasOSDD (s : WebContents) (env : Services) (rvh : RenderViewHost)
    (page_id : Int) (url : GURL) (autodetected : Bool) :
    (s.PageHasOSDD env rvh page_id url autodetected).view = s.view := by
  unfold WebContents.PageHasOSDD
  simp only
  repeat' split
  all_goals simp [view_emit, signals]

theorem view_CreateShortcut (s : WebContents) (env : Services) :
    (s.CreateShortcut env).view = s.view := by
  unfold WebContents.CreateShortcut
  simp only
  repeat' split
  all_goals simp [WebContents.view, WebContents.emit, signals_append, signals]

theorem view_OnDidGetApplicationInfo (s : WebContents) (env : Services) (page_id : Int)
    (info : Nat) : (s.OnDidGetApplicationInfo env page_id info).view = s.view := by
  unfold WebContents.OnDidGetApplicationInfo
  simp only
  split <;> simp [WebContents.view, WebContents.emit, signals_append, signals]

/-- The view of the tab after one operation is the view before it, moved by the
view moves of that operation. -/
theorem view_UpdateMaxPageIDIfNecessary (s : WebContents) (site_instance : SiteInstance)
    (rvh : RenderViewHost) :
    (s.UpdateMaxPageIDIfNecessary site_instance rvh).2.view = s.view := by
  unfold WebContents.UpdateMaxPageIDIfNecessary
  simp only
  repeat' split
  all_goals simp [WebContents.view, WebContents.emit, signals_append, signals]

theorem view_CreateRenderViewForRenderManager (s : WebContents) (env : Services)
    (render_view_host : Endpoint) :
    (s.CreateRenderViewForRenderManager env render_view_host).2.2.view = s.view := by
  unfold WebContents.CreateRenderViewForRenderManager
  simp only
  split
  · split <;> simp [WebContents.view, WebContents.emit, signals_append, signals]
  · rw [view_UpdateMaxPageIDIfNecessary]
    split <;> simp [WebContents.view, WebContents.emit, signals_append, signals]

theorem view_CreateRenderViewFor (s : WebContents) (env : Services) (rvh : RenderViewHost) :
    (s.CreateRenderViewFor env rvh).view = s.view.applyAll
      (s.viewOps env (Op.CreateRenderViewForRenderManager rvh)) := by
  have h := fun e => view_CreateRenderViewForRenderManager s env e
  unfold WebContents.CreateRenderViewFor
  simp only [WebContents.viewOps, View.applyAll]
  repeat' split
  all_goals first
    | rfl
    | exact h _

theorem view_Observe_PREF_CHANGED (s : WebContents) (env : Services) (pref_name_in : String) :
    (s.Observe_PREF_CHANGED env pref_name_in).view = s.view.applyAll
      (s.viewOps env (Op.Observe_PREF_CHANGED pref_name_in)) := by
  unfold WebContents.Observe_PREF_CHANGED WebContents.UpdateAlternateErrorPageURL
    WebContents.UpdateWebPreferences
  simp only [WebContents.viewOps, View.applyAll]
  repeat' split
  all_goals simp [WebContents.view, WebContents.emit, signals_append, signals]

theorem view_OnFindReply (s : WebContents) (env : Services)
    (request_id number_of_matches : Int)
    (selection_rect : Rect) (active_match_ordinal : Int) (final_update : Bool) :
    (s.OnFindReply request_id number_of_matches selection_rect active_match_ordinal
      final_update).view = s.view.applyAll
      (s.viewOps env (Op.OnFindReply request_id number_of_matches selection_rect
        active_match_ordinal final_update)) := by
  unfold WebContents.OnFindReply
  simp only [WebContents.viewOps, View.applyAll]
  split
  · rfl
  · simp [WebContents.view, WebContents.emit, signals_append, signals, isSignal]

theorem view_RequestOpenURL (s : WebContents) (env : Services) (url referrer : GURL)
    (disposition : WindowOpenDisposition) :
    (s.RequestOpenURL url referrer disposition).view = s.view.applyAll
      (s.viewOps env (Op.RequestOpenURL url referrer disposition)) := by
  unfold WebContents.RequestOpenURL
  simp only [WebContents.viewOps, View.applyAll]
  split <;> simp [WebContents.view, WebContents.emit, signals_append, signals]

theorem view_step (s : WebContents) (env : Services) (op : Op) :
    (s.step env op).view = s.view.applyAll (s.viewOps env op) := by
  cases op with
  | SetIsLoading x d => exact view_SetIsLoading s x d
  | DidStartLoading rvh p => exact view_SetIsLoading s true none
  | DidStopLoading rvh p => exact view_DidStopLoading s env rvh p
  | LoadStateChanged u ls => exact view_LoadStateChanged s u ls
  | RenderViewReady rvh => exact view_RenderViewReady s rvh
  | RenderViewGone rvh => exact view_RenderViewGone s env rvh
  | NotifySwapped => exact view_NotifySwapped s
  | DidNavigate rvh params => exact view_DidNavigate s env rvh params
  | UpdateState rvh p st => exact view_UpdateState s rvh p st
  | UpdateTitle rvh p t => exact view_UpdateTitle s env rvh p t
  | UpdateFeedList rvh p f => exact view_UpdateFeedList s rvh p f
  | UpdateEncoding rvh e => rfl
  | UpdateTargetURL p u => exact view_UpdateTargetURL s p u
  | UpdateFavIconURL rvh p u =>
    simp [WebContents.step, WebContents.UpdateFavIconURL, view_emit, signals,
      WebContents.viewOps, View.applyAll]
  | Close rvh => exact view_Close s rvh
  | DidStartProvisionalLoadForFrame rvh m u =>
    simp [WebContents.step, WebContents.DidStartProvisionalLoadForFrame, view_emit, signals,
      isSignal, WebContents.viewOps, View.applyAll]
  | DidFailProvisionalLoadWithError rvh m e u r =>
    exact view_DidFailProvisionalLoadWithError s env rvh m e u r
  | RunJavaScriptMessage m d u f r => exact view_RunJavaScriptMessage s env m d u f r
  | OnJavaScriptMessageBoxClosed r su p => exact view_OnJavaScriptMessageBoxClosed s env r su p
  | SetDownloadShelfVisible v => exact view_SetDownloadShelfVisible s env v
  | set_suppress_javascript_messages b => rfl
  | set_delegate d => rfl
  | NavigateToPendingEntry reload => exact view_NavigateToPendingEntry s env reload
  | UpdateThumbnail u b sc => exact view_UpdateThumbnail s u b sc
  | PageHasOSDD rvh p u a => exact view_PageHasOSDD s env rvh p u a
  | CreateShortcut => exact view_CreateShortcut s env
  | OnDidGetApplicationInfo p i => exact view_OnDidGetApplicationInfo s env p i
  | CreateRenderViewForRenderManager rvh => exact view_CreateRenderViewFor s env rvh
  | Observe_PREF_CHANGED n => exact view_Observe_PREF_CHANGED s env n
  | OnFindReply r n sr a f => exact view_OnFindReply s env r n sr a f
  | RequestOpenURL u r d => exact view_RequestOpenURL s env u r d
  | controller_changed c => rfl
  | render_manager_changed m => rfl
  | interstitial_changed b => rfl
  | child_windows_changed ws => rfl
  | infobar_delegates_changed ds => rfl
  | pending_install_changed p => rfl
  | url_model_changed m => rfl

/-! ### The loading flags -/

theorem idleWhenNotLoading_apply (v : View) (op : ViewOp)
    (hop : op.isLoadStateChanged = false ∨ v.is_loading = true)
    (h : v.idleWhenNotLoading) : (v.apply op).idleWhenNotLoading := by
  unfold View.idleWhenNotLoading at *
  cases op with
  | SetIsLoading x =>
    simp only [View.apply]
    by_cases hx : x = v.is_loading
    · simp only [hx, beq_self_eq_true, if_true]; exact h
    · cases x <;> simp_all
  | LoadStateChanged ls host =>
    rcases hop with hop | hop
    · simp [ViewOp.isLoadStateChanged] at hop
    · simp [View.apply, hop]
  | NotifyDisconnected =>
    simp only [View.apply]
    split <;> exact h
  | DialogClosed now => exact h
  | SetNotWaitingForResponse => exact h
  | NotifyConnected => exact h
  | NotifySwapped => exact h

theorem idleWhenNotLoading_applyAll (ops : List ViewOp) :
    ∀ v : View, (∀ op ∈ ops, op.isLoadStateChanged = false) → v.idleWhenNotLoading →
      (v.applyAll ops).idleWhenNotLoading := by
  induction ops with
  | nil => intro v _ h; exact h
  | cons op ops ih =>
    intro v hops h
    unfold View.applyAll
    apply ih
    · intro o ho; exact hops o (List.mem_cons_of_mem _ ho)
    · exact idleWhenNotLoading_apply v op (Or.inl (hops op (List.mem_cons_self _ _))) h

theorem viewOps_not_LoadStateChanged (s : WebContents) (env : Services) (op : Op)
    (hop : op.isLoadStateChanged = false) :
    ∀ vo ∈ s.viewOps env op, vo.isLoadStateChanged = false := by
  intro vo hvo
  cases op <;> simp only [WebContents.viewOps] at hvo
  case LoadStateChanged => simp [Op.isLoadStateChanged] at hop
  all_goals (try (repeat' split at hvo))
  all_goals simp only [List.mem_cons, List.mem_singleton, List.not_mem_nil, or_false] at hvo
  all_goals (try (rcases hvo with hvo | hvo))
  all_goals (first | (subst hvo; rfl) | simp_all [ViewOp.isLoadStateChanged])

theorem idleWhenNotLoading_step (s : WebContents) (env : Services) (op : Op)
    (hop : op.isLoadStateChanged = false ∨ s.is_loading_ = true)
    (h : s.view.idleWhenNotLoading) : (s.step env op).view.idleWhenNotLoading := by
  rw [view_step]
  cases hc : op.isLoadStateChanged
  · exact idleWhenNotLoading_applyAll _ _ (viewOps_not_LoadStateChanged s env op hc) h
  · cases op <;> simp [Op.isLoadStateChanged] at hc
    rename_i url ls
    have hl : s.view.is_loading = true := by
      rcases hop with hop | hop
      · simp [Op.isLoadStateChanged] at hop
      · exact hop
    exact idleWhenNotLoading_apply _ _ (Or.inr hl) h

theorem idleWhenNotLoading_run (history : List (Services × Op)) :
    ∀ s : WebContents, s.loadStateChangesWhileLoading history = true →
      s.view.idleWhenNotLoading → (s.run history).view.idleWhenNotLoading := by
  induction history with
  | nil => intro s _ h; exact h
  | cons eo rest ih =>
    intro s hh h
    obtain ⟨env, op⟩ := eo
    simp only [WebContents.loadStateChangesWhileLoading, Bool.and_eq_true, Bool.or_eq_true,
      Bool.not_eq_true'] at hh
    exact ih _ hh.2 (idleWhenNotLoading_step s env op hh.1 h)

/-- C2, as the claim states it, fails: on a fresh tab, one `LoadStateChanged`
leaves a tab that is not loading with the load state `CONNECTING` and the host
`a.example`. -/
theorem idle_when_not_loading_counterexample :
    (exampleTab.run [(exampleServices,
        Op.LoadStateChanged exampleURL LoadState.LOAD_STATE_CONNECTING)]).is_loading_ = false ∧
    ¬ ((exampleTab.run [(exampleServices,
          Op.LoadStateChanged exampleURL LoadState.LOAD_STATE_CONNECTING)]).load_state_ =
        LoadState.LOAD_STATE_IDLE ∧
      (exampleTab.run [(exampleServices,
          Op.LoadStateChanged exampleURL LoadState.LOAD_STATE_CONNECTING)]).load_state_host_ =
        "") := by
  decide

/-- C2, amended: in every state reached from a fresh tab by a history in which
each `LoadStateChanged` arrives while the tab is loading, a tab that is not
loading has the idle load state and an empty load state host. -/
theorem idle_when_not_loading (profile : Profile) (endpoint : Endpoint)
    (url_model : Option TemplateURLModel) (history : List (Services × Op))
    (hh : (WebContents.fresh profile endpoint url_model).loadStateChangesWhileLoading history
      = true)
    (hl : ((WebContents.fresh profile endpoint url_model).run history).is_loading_ = false) :
    ((WebContents.fresh profile endpoint url_model).run history).load_state_ =
        LoadState.LOAD_STATE_IDLE ∧
    ((WebContents.fresh profile endpoint url_model).run history).load_state_host_ = "" := by
  have h0 : (WebContents.fresh profile endpoint url_model).view.idleWhenNotLoading := by
    intro _; exact ⟨rfl, rfl⟩
  exact idleWhenNotLoading_run history _ hh h0 hl

/-- C2, amended, at a history with one load: the load state reported while
loading is cleared again when the load stops. -/
theorem idle_when_not_loading_witness :
    exampleTab.loadStateChangesWhileLoading exampleLoadHistory = true ∧
    (exampleTab.run exampleLoadHistory).is_loading_ = false ∧
    (exampleTab.run exampleLoadHistory).load_state_ = LoadState.LOAD_STATE_IDLE ∧
    (exampleTab.run exampleLoadHistory).load_state_host_ = "" :=
  ⟨by decide, by decide,
    idle_when_not_loading exampleProfile exampleEndpoint none exampleLoadHistory
      (by decide) (by decide)⟩

/-! ### Identity checks of the inbound handlers -/

/-- C3, as the claim states it, fails: `DidStartLoading` from endpoint 2, which
is not the current endpoint 1 of the fresh tab, turns `is_loading` on and posts
`LOAD_START`. -/
theorem endpoint_mismatch_counterexample :
    (2 : RenderViewHost) ≠ exampleTab.render_view_host ∧
    exampleTab.is_loading_ = false ∧
    (exampleTab.DidStartLoading 2 0).is_loading_ = true ∧
    notifications (emittedSince exampleTab (exampleTab.DidStartLoading 2 0)) =
      [NotificationType.LOAD_START] := by
  decide

/-- C3, amended: the handlers that test their endpoint argument, which are
`RenderViewReady`, `RenderViewGone`, `UpdateFeedList` and `Close`, return the
very same tab state (hence post nothing) when the argument is not the current
endpoint; `DidStartLoading`, `DidStopLoading`, `UpdateEncoding` and
`UpdateFavIconURL` do not look at the argument: an event from any endpoint is
handled as the same event from the current one. -/
theorem endpoint_mismatch_dropped (s : WebContents) (env : Services) (rvh : RenderViewHost)
    (h : rvh ≠ s.render_view_host) :
    s.RenderViewReady rvh = s ∧
    s.RenderViewGone env rvh = s ∧
    (∀ page_id feedlist, s.UpdateFeedList rvh page_id feedlist = s) ∧
    s.Close rvh = s ∧
    (∀ page_id, s.DidStartLoading rvh page_id = s.DidStartLoading s.render_view_host page_id) ∧
    (∀ page_id,
      s.DidStopLoading env rvh page_id = s.DidStopLoading env s.render_view_host page_id) ∧
    (∀ encoding, s.UpdateEncoding rvh encoding = s.UpdateEncoding s.render_view_host encoding) ∧
    (∀ page_id icon_url,
      s.UpdateFavIconURL rvh page_id icon_url =
        s.UpdateFavIconURL s.render_view_host page_id icon_url) := by
  refine ⟨?_, ?_, ?_, ?_, fun _ => rfl, fun _ => rfl, fun _ => rfl, fun _ _ => rfl⟩
  · simp [WebContents.RenderViewReady, h]
  · unfold WebContents.RenderViewGone
    cases env.printing_OnRenderViewGone rvh <;> simp [h]
  · intro page_id feedlist
    simp [WebContents.UpdateFeedList, h]
  · simp [WebContents.Close, h]

/-- C3, amended, on the fresh tab with current endpoint 1 and events from
endpoint 2. -/
theorem endpoint_mismatch_dropped_witness :
    (2 : RenderViewHost) ≠ exampleTab.render_view_host ∧
    exampleTab.RenderViewReady 2 = exampleTab ∧
    exampleTab.RenderViewGone exampleServices 2 = exampleTab ∧
    exampleTab.Close 2 = exampleTab :=
  ⟨by decide,
    (endpoint_mismatch_dropped exampleTab exampleServices 2 (by decide)).1,
    (endpoint_mismatch_dropped exampleTab exampleServices 2 (by decide)).2.1,
    (endpoint_mismatch_dropped exampleTab exampleServices 2 (by decide)).2.2.2.1⟩

/-! ### Endpoint gone -/

/-- C4, as the claim states it, fails: when the print manager reports the gone
endpoint as not valuable, `RenderViewGone` for the current endpoint of a loading
tab returns at once: the tab is still loading and is not marked crashed. -/
theorem RenderViewGone_counterexample :
    (1 : RenderViewHost) = exampleLoadingTab.render_view_host ∧
    (exampleLoadingTab.RenderViewGone examplePrintVeto 1).is_loading_ = true ∧
    (exampleLoadingTab.RenderViewGone examplePrintVeto 1).is_crashed_ = false := by
  decide

/-- C4, amended: when the print manager lets the event through
(`printing_.OnRenderViewGone(rvh)` is true), `RenderViewGone(rvh)` for the
current endpoint leaves the tab not loading and crashed, with the disconnection
flag cleared, and posts `LOAD_STOP` exactly when the tab was loading followed by
`WEB_CONTENTS_DISCONNECTED` exactly when a connection had been announced; for an
endpoint that is not the current one, and whenever the print manager holds the
event back, it returns the very same tab state and posts nothing. -/
theorem RenderViewGone_spec (s : WebContents) (env : Services) (rvh : RenderViewHost) :
    (env.printing_OnRenderViewGone rvh = true → rvh = s.render_view_host →
      (s.RenderViewGone env rvh).is_loading_ = false ∧
      (s.RenderViewGone env rvh).is_crashed_ = true ∧
      (s.RenderViewGone env rvh).notify_disconnection_ = false ∧
      notifications (emittedSince s (s.RenderViewGone env rvh)) =
        (if s.is_loading_ then [NotificationType.LOAD_STOP] else []) ++
        (if s.notify_disconnection_ then [NotificationType.WEB_CONTENTS_DISCONNECTED]
         else [])) ∧
    (rvh ≠ s.render_view_host → s.RenderViewGone env rvh = s) ∧
    (env.printing_OnRenderViewGone rvh = false → s.RenderViewGone env rvh = s) := by
  refine ⟨?_, ?_, ?_⟩
  · intro hp hr
    subst hr
    have hv := view_RenderViewGone s env s.render_view_host
    simp only [hp, Bool.not_true, bne_self_eq_false, Bool.false_eq_true, if_false,
      View.applyAll] at hv
    have heff : (s.RenderViewGone env s.render_view_host).effects =
        s.effects ++ (SetIsLoading_emitted s false none ++
          (if s.notify_disconnection_ then
            [Effect.Notify NotificationType.WEB_CONTENTS_DISCONNECTED
              NotificationDetails.NoDetails] else []) ++
          [Effect.view_Invalidate, Effect.HungRendererWarning_HideForWebContents]) := by
      unfold WebContents.RenderViewGone
      simp only [hp, Bool.not_true, bne_self_eq_false, Bool.false_eq_true, if_false]
      simp only [emit_effects, WebContents.SetIsCrashed]
      have hnd : (s.SetIsLoading false none).notify_disconnection_ = s.notify_disconnection_ := by
        have := congrArg View.notify_disconnection (view_SetIsLoading s false none)
        simp only [WebContents.view, View.apply] at this
        rw [this]; split <;> rfl
      unfold WebContents.NotifyDisconnected
      rw [hnd]
      cases hn : s.notify_disconnection_ <;>
        simp [emit_effects, SetIsLoading_effects, List.append_assoc]
    refine ⟨?_, ?_, ?_, ?_⟩
    · have := congrArg View.is_loading hv
      simp only [WebContents.view, View.apply] at this
      rw [this]
      cases hl : s.is_loading_ <;> cases hn : s.notify_disconnection_ <;> simp [hl, hn]
    · simp [WebContents.RenderViewGone, hp, WebContents.emit, WebContents.SetIsCrashed]
    · have := congrArg View.notify_disconnection hv
      simp only [WebContents.view, View.apply] at this
      rw [this]
      cases hl : s.is_loading_ <;> cases hn : s.notify_disconnection_ <;> simp [hl, hn]
    · rw [emittedSince_of_append s _ _ heff]
      unfold SetIsLoading_emitted
      cases hl : s.is_loading_ <;> cases hn : s.notify_disconnection_ <;>
        cases hd : s.delegate_ <;> simp [notifications]
  · intro hr
    unfold WebContents.RenderViewGone
    cases env.printing_OnRenderViewGone rvh <;> simp [hr]
  · intro hp
    simp [WebContents.RenderViewGone, hp]

/-- C4, amended, on a tab that is loading and connected: the current endpoint 1
goes away, then an endpoint 2 that is not the current one, then the print
manager holds the event back. -/
theorem RenderViewGone_spec_witness :
    ((exampleLoadingTab.RenderViewGone exampleServices 1).is_loading_ = false ∧
      (exampleLoadingTab.RenderViewGone exampleServices 1).is_crashed_ = true ∧
      (exampleLoadingTab.RenderViewGone exampleServices 1).notify_disconnection_ = false ∧
      notifications (emittedSince exampleLoadingTab
          (exampleLoadingTab.RenderViewGone exampleServices 1)) =
        (if exampleLoadingTab.is_loading_ then [NotificationType.LOAD_STOP] else []) ++
        (if exampleLoadingTab.notify_disconnection_ then
          [NotificationType.WEB_CONTENTS_DISCONNECTED] else [])) ∧
    exampleLoadingTab.RenderViewGone exampleServices 2 = exampleLoadingTab ∧
    exampleLoadingTab.RenderViewGone examplePrintVeto 1 = exampleLoadingTab :=
  ⟨(RenderViewGone_spec exampleLoadingTab exampleServices 1).1 rfl (by decide),
    (RenderViewGone_spec exampleLoadingTab exampleServices 2).2.1 (by decide),
    (RenderViewGone_spec exampleLoadingTab examplePrintVeto 1).2.2 rfl⟩

/-! ### Aborted provisional load -/

/-- C5: with no interstitial showing, `DidFailProvisionalLoadWithError` with
`ERR_ABORTED` for the URL `url` calls `DiscardNonCommittedEntries` if and only
if a pending entry exists and its URL is `url`; in that case the controller
loses its pending entry, and otherwise (no pending entry, or one for another
URL) the controller, and so the pending entry, is left as it was. -/
theorem aborted_load_discards_matching_pending (s : WebContents) (env : Services)
    (rvh : RenderViewHost) (is_main_frame : Bool) (url : GURL) (repost : Bool)
    (h : s.showing_interstitial_page = false) :
    (Effect.controller_DiscardNonCommittedEntries ∈
        emittedSince s
          (s.DidFailProvisionalLoadWithError env rvh is_main_frame ERR_ABORTED url repost) ↔
      ∃ e, s.controller_.pending_entry = some e ∧ e.url = url) ∧
    ((∃ e, s.controller_.pending_entry = some e ∧ e.url = url) →
      (s.DidFailProvisionalLoadWithError env rvh is_main_frame ERR_ABORTED url
          repost).controller_ = s.controller_.DiscardNonCommittedEntries ∧
      (s.DidFailProvisionalLoadWithError env rvh is_main_frame ERR_ABORTED url
          repost).controller_.pending_entry = none) ∧
    (¬ (∃ e, s.controller_.pending_entry = some e ∧ e.url = url) →
      (s.DidFailProvisionalLoadWithError env rvh is_main_frame ERR_ABORTED url
          repost).controller_ = s.controller_) := by
  cases hp : s.controller_.pending_entry with
  | none =>
    have heff : (s.DidFailProvisionalLoadWithError env rvh is_main_frame ERR_ABORTED url
        repost).effects = s.effects ++
          [Effect.Notify NotificationType.FAIL_PROVISIONAL_LOAD_WITH_ERROR
            (NotificationDetails.ProvisionalLoad
              { is_main_frame := is_main_frame
                is_in_page_navigation := env.IsURLInPageNavigation url
                url := url
                error_code := ERR_ABORTED })] := by
      simp [WebContents.DidFailProvisionalLoadWithError, h, hp, WebContents.emit]
    refine ⟨?_, ?_, ?_⟩
    · rw [emittedSince_of_append s _ _ heff]
      simp
    · simp
    · intro _
      simp [WebContents.DidFailProvisionalLoadWithError, h, hp, WebContents.emit]
  | some e =>
    by_cases hu : e.url = url
    · have heff : (s.DidFailProvisionalLoadWithError env rvh is_main_frame ERR_ABORTED url
          repost).effects = s.effects ++
            [Effect.controller_DiscardNonCommittedEntries,
              Effect.Notify NotificationType.FAIL_PROVISIONAL_LOAD_WITH_ERROR
              (NotificationDetails.ProvisionalLoad
                { is_main_frame := is_main_frame
                  is_in_page_navigation := env.IsURLInPageNavigation url
                  url := url
                  error_code := ERR_ABORTED })] := by
        simp [WebContents.DidFailProvisionalLoadWithError, h, hp, hu, WebContents.emit]
      refine ⟨?_, ?_, ?_⟩
      · rw [emittedSince_of_append s _ _ heff]
        simp [hu]
      · intro _
        simp [WebContents.DidFailProvisionalLoadWithError, h, hp, hu, WebContents.emit,
          NavigationController.DiscardNonCommittedEntries]
      · intro hne
        exact absurd ⟨e, rfl, hu⟩ hne
    · have heff : (s.DidFailProvisionalLoadWithError env rvh is_main_frame ERR_ABORTED url
          repost).effects = s.effects ++
            [Effect.Notify NotificationType.FAIL_PROVISIONAL_LOAD_WITH_ERROR
              (NotificationDetails.ProvisionalLoad
                { is_main_frame := is_main_frame
                  is_in_page_navigation := env.IsURLInPageNavigation url
                  url := url
                  error_code := ERR_ABORTED })] := by
        simp [WebContents.DidFailProvisionalLoadWithError, h, hp, hu, WebContents.emit]
      refine ⟨?_, ?_, ?_⟩
      · rw [emittedSince_of_append s _ _ heff]
        simp [hu]
      · rintro ⟨e2, he2, hu2⟩
        cases he2
        exact absurd hu2 hu
      · intro _
        simp [WebContents.DidFailProvisionalLoadWithError, h, hp, hu, WebContents.emit]

/-- C5 on a tab with a navigation to `https://a.example/x` pending: an abort for
that URL discards the pending entry, an abort for `https://a.example/y` keeps
it. -/
theorem aborted_load_discards_matching_pending_witness :
    examplePendingTab.showing_interstitial_page = false ∧
    (examplePendingTab.DidFailProvisionalLoadWithError exampleServices 1 true ERR_ABORTED
        exampleURL false).controller_.pending_entry = none ∧
    (examplePendingTab.DidFailProvisionalLoadWithError exampleServices 1 true ERR_ABORTED
        exampleOtherURL false).controller_ = examplePendingTab.controller_ :=
  ⟨rfl,
    ((aborted_load_discards_matching_pending examplePendingTab exampleServices 1 true
      exampleURL false rfl).2.1 ⟨examplePendingEntry exampleURL, rfl, rfl⟩).2,
    (aborted_load_discards_matching_pending examplePendingTab exampleServices 1 true
      exampleOtherURL false rfl).2.2 (by
        rintro ⟨e, he, hu⟩
        have he2 : e = examplePendingEntry exampleURL := by
          have : some e = some (examplePendingEntry exampleURL) := he.symm.trans rfl
          exact Option.some.inj this
        subst he2
        exact absurd hu (by decide))⟩

/-! ### Alternation of `LOAD_START` and `LOAD_STOP` -/

theorem loadAlternation_signals (es : List Effect) :
    ∀ b, loadAlternation b (notifications es) = loadAlternation b (signals es) := by
  induction es with
  | nil => intro b; rfl
  | cons e es ih =>
    intro b
    cases e with
    | Notify t d =>
      cases t <;> cases b <;> simp [notifications, signals, isSignal, loadAlternation, ih]
    | _ => simp [notifications, signals, ih]

theorem loadAlternation_append (xs : List NotificationType) (t : NotificationType) :
    ∀ b, loadAlternation b (xs ++ [t]) =
      (loadAlternation b xs).bind (fun b2 => loadAlternation b2 [t]) := by
  induction xs with
  | nil => intro b; rfl
  | cons x xs ih =>
    intro b
    cases x <;> cases b <;> simp [loadAlternation, ih]

theorem loadAlternation_apply (v : View) (op : ViewOp)
    (h : loadAlternation false v.posted = some v.is_loading) :
    loadAlternation false (v.apply op).posted = some (v.apply op).is_loading := by
  cases op with
  | SetIsLoading x =>
    simp only [View.apply]
    by_cases hx : x = v.is_loading
    · simp only [hx, beq_self_eq_true, if_true]; exact h
    · cases x <;> cases hl : v.is_loading <;>
        simp_all [loadAlternation_append, loadAlternation]
  | SetNotWaitingForResponse => exact h
  | LoadStateChanged ls host => exact h
  | NotifyConnected => simp [View.apply, loadAlternation_append, h, loadAlternation]
  | NotifySwapped => simp [View.apply, loadAlternation_append, h, loadAlternation]
  | NotifyDisconnected =>
    simp only [View.apply]
    split
    · exact h
    · simp [loadAlternation_append, h, loadAlternation]
  | DialogClosed now => exact h

theorem loadAlternation_applyAll (ops : List ViewOp) :
    ∀ v : View, loadAlternation false v.posted = some v.is_loading →
      loadAlternation false (v.applyAll ops).posted = some (v.applyAll ops).is_loading := by
  induction ops with
  | nil => intro v h; exact h
  | cons op ops ih => intro v h; exact ih _ (loadAlternation_apply v op h)

theorem loadAlternation_run (history : List (Services × Op)) :
    ∀ s : WebContents, loadAlternation false s.view.posted = some s.view.is_loading →
      loadAlternation false (s.run history).view.posted = some (s.run history).view.is_loading := by
  induction history with
  | nil => intro s h; exact h
  | cons eo rest ih =>
    intro s h
    obtain ⟨env, op⟩ := eo
    apply ih
    rw [view_step]
    exact loadAlternation_applyAll _ _ h

/-- The scan accepts a run of complete loads and rejects a `LOAD_STOP` with no
load open as well as a second `LOAD_START` in a row. -/
theorem loadAlternation_examples :
    loadAlternation false
        [NotificationType.LOAD_START, NotificationType.WEB_CONTENTS_CONNECTED,
          NotificationType.LOAD_STOP, NotificationType.LOAD_START] = some true ∧
    loadAlternation false [NotificationType.LOAD_STOP] = none ∧
    loadAlternation false [NotificationType.LOAD_START, NotificationType.LOAD_START] = none ∧
    loadAlternation false
        [NotificationType.LOAD_START, NotificationType.LOAD_STOP,
          NotificationType.LOAD_STOP] = none := by
  decide

/-- C6: in every history of a fresh tab the notifications `LOAD_START` and
`LOAD_STOP` strictly alternate, beginning with `LOAD_START`: scanning all
notifications posted, each `LOAD_START` arrives when no load is open and each
`LOAD_STOP` when one is open, and at the end a load is open exactly when the tab
is loading. -/
theorem load_notifications_alternate (profile : Profile) (endpoint : Endpoint)
    (url_model : Option TemplateURLModel) (history : List (Services × Op)) :
    loadAlternation false
        (notifications ((WebContents.fresh profile endpoint url_model).run history).effects) =
      some ((WebContents.fresh profile endpoint url_model).run history).is_loading_ := by
  rw [loadAlternation_signals]
  exact loadAlternation_run history (WebContents.fresh profile endpoint url_model) rfl

/-! ### Notifications of the destructor -/

theorem owesDisconnect_signals (es : List Effect) :
    ∀ b, owesDisconnect b (notifications es) = owesDisconnect b (signals es) := by
  induction es with
  | nil => intro b; rfl
  | cons e es ih =>
    intro b
    cases e with
    | Notify t d =>
      cases t <;> simp [notifications, signals, isSignal, owesDisconnect, ih]
    | _ => simp [notifications, signals, ih]

theorem owesDisconnect_append (xs : List NotificationType) (t : NotificationType) :
    ∀ b, owesDisconnect b (xs ++ [t]) = owesDisconnect (owesDisconnect b xs) [t] := by
  induction xs with
  | nil => intro b; rfl
  | cons x xs ih =>
    intro b
    cases x <;> simp [owesDisconnect, ih]

theorem owesDisconnect_apply (v : View) (op : ViewOp)
    (h : owesDisconnect false v.posted = v.notify_disconnection) :
    owesDisconnect false (v.apply op).posted = (v.apply op).notify_disconnection := by
  cases op with
  | SetIsLoading x =>
    simp only [View.apply]
    by_cases hx : x = v.is_loading
    · simp only [hx, beq_self_eq_true, if_true]; exact h
    · cases x <;> simp_all [owesDisconnect_append, owesDisconnect]
  | SetNotWaitingForResponse => exact h
  | LoadStateChanged ls host => exact h
  | NotifyConnected => simp [View.apply, owesDisconnect_append, owesDisconnect]
  | NotifySwapped => simp [View.apply, owesDisconnect_append, owesDisconnect]
  | NotifyDisconnected =>
    simp only [View.apply]
    split
    · exact h
    · simp [owesDisconnect_append, owesDisconnect]
  | DialogClosed now => exact h

theorem owesDisconnect_applyAll (ops : List ViewOp) :
    ∀ v : View, owesDisconnect false v.posted = v.notify_disconnection →
      owesDisconnect false (v.applyAll ops).posted = (v.applyAll ops).notify_disconnection := by
  induction ops with
  | nil => intro v h; exact h
  | cons op ops ih => intro v h; exact ih _ (owesDisconnect_apply v op h)

theorem owesDisconnect_run (history : List (Services × Op)) :
    ∀ s : WebContents, owesDisconnect false s.view.posted = s.view.notify_disconnection →
      owesDisconnect false (s.run history).view.posted =
        (s.run history).view.notify_disconnection := by
  induction history with
  | nil => intro s h; exact h
  | cons eo rest ih =>
    intro s h
    obtain ⟨env, op⟩ := eo
    apply ih
    rw [view_step]
    exact owesDisconnect_applyAll _ _ h

theorem closeChildWindowsBelow_effects (n : Nat) :
    ∀ s : WebContents, ∃ es, (s.closeChildWindowsBelow n).effects = s.effects ++ es ∧
      notifications es = [] := by
  induction n with
  | zero => intro s; exact ⟨[], by simp [WebContents.closeChildWindowsBelow], rfl⟩
  | succ i ih =>
    intro s
    unfold WebContents.closeChildWindowsBelow
    simp only
    split
    · rename_i w _
      obtain ⟨es, h1, h2⟩ := ih (s.emit (Effect.CloseConstrainedWindow w))
      refine ⟨Effect.CloseConstrainedWindow w :: es, ?_, ?_⟩
      · rw [h1, emit_effects]; simp
      · simp [notifications, h2]
    · exact ih s

theorem closeInfoBars_effects (ds : List InfoBarDelegate) :
    ∀ s : WebContents, ∃ es, (s.closeInfoBars ds).effects = s.effects ++ es ∧
      notifications es = [] := by
  induction ds with
  | nil => intro s; exact ⟨[], by simp [WebContents.closeInfoBars], rfl⟩
  | cons d ds ih =>
    intro s
    unfold WebContents.closeInfoBars
    obtain ⟨es, h1, h2⟩ := ih (s.emit (Effect.InfoBarClosed d))
    refine ⟨Effect.InfoBarClosed d :: es, ?_, ?_⟩
    · rw [h1, emit_effects]; simp
    · simp [notifications, h2]

/-- The notifications the destructor posts: one `WEB_CONTENTS_DISCONNECTED` when
the disconnection flag is set, then `TAB_CONTENTS_DESTROYED`. -/
theorem destructor_notifications (s : WebContents) :
    notifications (emittedSince s s.destructor) =
      (if s.notify_disconnection_ then [NotificationType.WEB_CONTENTS_DISCONNECTED] else []) ++
        [NotificationType.TAB_CONTENTS_DESTROYED] := by
  unfold WebContents.destructor
  lift_lets
  extract_lets s1 s2 s3 s4 s5 s6 s7 s8
  have e3 : s3.effects = s.effects ++ ([Effect.view_OnContentsDestroy] ++
      (if s.notify_disconnection_ then
        [Effect.Notify NotificationType.WEB_CONTENTS_DISCONNECTED NotificationDetails.NoDetails]
       else [])) := by
    simp only [s3, s2, s1, WebContents.NotifyDisconnected, WebContents.emit]
    cases s.notify_disconnection_ <;> simp
  have e5 : ∃ es, s5.effects = s4.effects ++ es ∧ notifications es = [] := by
    simp only [s5]
    split
    · exact ⟨[Effect.pending_install_Cancel], rfl, rfl⟩
    · exact ⟨[], by simp, rfl⟩
  obtain ⟨a5, h5, n5⟩ := e5
  obtain ⟨a6, h6, n6⟩ := closeChildWindowsBelow_effects s5.child_windows_.length s5
  obtain ⟨a7, h7, n7⟩ := closeInfoBars_effects s6.infobar_delegates_ s6
  have hall : (s8.emit (Effect.Notify NotificationType.TAB_CONTENTS_DESTROYED
      NotificationDetails.NoDetails)).effects =
      s.effects ++ ([Effect.view_OnContentsDestroy] ++
        (if s.notify_disconnection_ then
          [Effect.Notify NotificationType.WEB_CONTENTS_DISCONNECTED
            NotificationDetails.NoDetails]
         else []) ++ [Effect.HungRendererWarning_HideForWebContents] ++ a5 ++ a6 ++ a7 ++
        [Effect.Notify NotificationType.TAB_CONTENTS_DESTROYED
          NotificationDetails.NoDetails]) := by
    have h8 : s8.effects = s7.effects := rfl
    have h4 : s4.effects = s3.effects ++ [Effect.HungRendererWarning_HideForWebContents] := rfl
    rw [emit_effects, h8]
    simp only [s7, s6] at h7 h6 ⊢
    rw [h7, h6, h5, h4, e3]
    simp [List.append_assoc]
  rw [emittedSince_of_append s _ _ hall]
  simp only [notifications_append, n5, n6, n7]
  cases s.notify_disconnection_ <;> simp [notifications]

/-- The scan reports a pending announcement after `CONNECTED` or `SWAPPED`, and
none on an empty list or once `DISCONNECTED` has answered. -/
theorem owesDisconnect_examples :
    owesDisconnect false [] = false ∧
    owesDisconnect false [NotificationType.WEB_CONTENTS_CONNECTED] = true ∧
    owesDisconnect false [NotificationType.LOAD_START,
      NotificationType.WEB_CONTENTS_SWAPPED] = true ∧
    owesDisconnect false [NotificationType.WEB_CONTENTS_CONNECTED,
      NotificationType.WEB_CONTENTS_DISCONNECTED, NotificationType.LOAD_STOP] = false := by
  decide

/-- C7, as the claim states it, fails: a tab posts `WEB_CONTENTS_CONNECTED` when
its endpoint becomes ready and `WEB_CONTENTS_DISCONNECTED` when that endpoint
goes away; destroying the tab afterwards posts no `WEB_CONTENTS_DISCONNECTED`,
although a `WEB_CONTENTS_CONNECTED` was posted during its life. -/
theorem destructor_counterexample :
    NotificationType.WEB_CONTENTS_CONNECTED ∈ notifications exampleCrashedTab.effects ∧
    NotificationType.WEB_CONTENTS_DISCONNECTED ∉
      notifications (emittedSince exampleCrashedTab exampleCrashedTab.destructor) := by
  decide

/-- C7, amended: after every history of a fresh tab, the destructor posts
exactly one `WEB_CONTENTS_DISCONNECTED` if the last connection notification of
the tab's life is a `WEB_CONTENTS_CONNECTED` or a `WEB_CONTENTS_SWAPPED` (one not
yet answered by a `WEB_CONTENTS_DISCONNECTED`) and none otherwise, and then
exactly one `TAB_CONTENTS_DESTROYED`; these are all the notifications it posts. -/
theorem destructor_disconnects_once (profile : Profile) (endpoint : Endpoint)
    (url_model : Option TemplateURLModel) (history : List (Services × Op)) :
    notifications
        (emittedSince ((WebContents.fresh profile endpoint url_model).run history)
          ((WebContents.fresh profile endpoint url_model).run history).destructor) =
      (if owesDisconnect false
            (notifications ((WebContents.fresh profile endpoint url_model).run history).effects)
        then [NotificationType.WEB_CONTENTS_DISCONNECTED] else []) ++
        [NotificationType.TAB_CONTENTS_DESTROYED] := by
  rw [destructor_notifications, owesDisconnect_signals]
  have h := owesDisconnect_run history (WebContents.fresh profile endpoint url_model) rfl
  simp only [WebContents.view] at h
  rw [h]

/-! ### JavaScript dialog arbitration -/

/-- C8: `RunJavaScriptMessage` reports `did_suppress_message` as
`suppress_javascript_messages_` or "the tab is inside a constrained popup" (a
delegate exists and reports a constraining contents).  When it suppresses, the
only call it makes is the reply through `OnJavaScriptMessageBoxClosed` with
`success = false` and an empty prompt, so no dialog is shown; when it does not,
the only call it makes is one `RunJavascriptMessageBox`, so exactly one dialog
is shown. -/
theorem RunJavaScriptMessage_suppression (s : WebContents) (env : Services)
    (message default_prompt : String) (frame_url : GURL) (flags : Int) (reply_msg : ReplyMsg) :
    (s.RunJavaScriptMessage env message default_prompt frame_url flags reply_msg).1 =
      (s.suppress_javascript_messages_ || s.insideConstrainedPopup) ∧
    emittedSince s
        (s.RunJavaScriptMessage env message default_prompt frame_url flags reply_msg).2 =
      (if s.suppress_javascript_messages_ || s.insideConstrainedPopup then
        [Effect.render_manager_OnJavaScriptMessageBoxClosed reply_msg false ""]
      else
        [Effect.RunJavascriptMessageBox frame_url flags message default_prompt
          (decide (env.Now - s.last_javascript_message_dismissal_ <
            TimeDelta.FromMilliseconds kJavascriptMessageExpectedDelay)) reply_msg]) := by
  rw [RunJavaScriptMessage_eq]
  cases hb : (s.suppress_javascript_messages_ || s.insideConstrainedPopup)
  · simp only [Bool.false_eq_true, if_false, true_and]
    exact emittedSince_of_append s _ _ (emit_effects s _)
  · simp only [if_true, true_and]
    exact emittedSince_of_append s _ _ rfl

/-- C9: after `DidNavigate` for a navigation that the controller commits
(`RendererDidNavigate` returns true), in particular one that changes the
main-frame URL, `suppress_javascript_messages_` is false whatever it was. -/
theorem DidNavigate_clears_suppression (s : WebContents) (env : Services)
    (rvh : RenderViewHost) (params : FrameNavigateParams)
    (h : (env.RendererDidNavigate s.controller_ params).isSome = true) :
    (s.DidNavigate env rvh params).suppress_javascript_messages_ = false := by
  have hpost : ∀ (t : WebContents) (d : LoadCommittedDetails),
      (t.DidNavigateAnyFramePostCommit env rvh d params).suppress_javascript_messages_ =
        false := by
    intro t d
    unfold WebContents.DidNavigateAnyFramePostCommit WebContents.UpdateHistoryForNavigation
    simp only
    repeat' split
    all_goals simp [WebContents.emit]
  have hctl : (if PageTransition.IsMainFrame params.transition then
      s.render_manager_DidNavigateMainFrame rvh else s).controller_ = s.controller_ := by
    unfold WebContents.render_manager_DidNavigateMainFrame
    repeat' split
    all_goals simp [WebContents.NotifySwapped, WebContents.emit]
  unfold WebContents.DidNavigate
  lift_lets
  extract_lets s1 s2 s3
  have h3 : s3.controller_ = s.controller_ := by
    have h2 : s2.controller_ = s1.controller_ := by
      simp only [s2]
      split <;> rfl
    have h3 : s3.controller_ = s2.controller_ := by
      simp only [s3]
      split <;> rfl
    rw [h3, h2]
    exact hctl
  rw [h3]
  cases hr : env.RendererDidNavigate s.controller_ params with
  | none => rw [hr] at h; simp at h
  | some cd =>
    obtain ⟨c, d⟩ := cd
    exact hpost _ d

/-- C9 on a tab in which the user has suppressed further dialogs: the commit of
a main-frame navigation from `https://a.example/y` to `https://a.example/x`
clears the flag. -/
theorem DidNavigate_clears_suppression_witness :
    exampleSuppressedTab.suppress_javascript_messages_ = true ∧
    (exampleCommitting.RendererDidNavigate exampleSuppressedTab.controller_
      exampleParams).isSome = true ∧
    (exampleSuppressedTab.DidNavigate exampleCommitting 1
      exampleParams).suppress_javascript_messages_ = false :=
  ⟨rfl, rfl, DidNavigate_clears_suppression exampleSuppressedTab exampleCommitting 1
    exampleParams rfl⟩

theorem last_dismissal_step (s : WebContents) (env : Services) (op : Op) :
    (s.step env op).last_javascript_message_dismissal_ =
      if s.closesDialog op then env.Now else s.last_javascript_message_dismissal_ := by
  have h := congrArg View.last_javascript_message_dismissal (view_step s env op)
  have hv : (s.step env op).view.last_javascript_message_dismissal =
      (s.step env op).last_javascript_message_dismissal_ := rfl
  rw [hv] at h
  rw [h]
  have hs : s.last_javascript_message_dismissal_ = s.view.last_javascript_message_dismissal :=
    rfl
  rw [hs]
  generalize s.view = v
  cases op <;> simp only [WebContents.viewOps, WebContents.closesDialog]
  all_goals (try (repeat' split))
  all_goals (try simp_all [View.applyAll, View.apply])
  all_goals (try (repeat' split))
  all_goals (try rfl)

theorem last_dismissal_run (history : List (Services × Op)) :
    ∀ (s : WebContents) (t0 : TimeTicks), s.last_javascript_message_dismissal_ = t0 →
      (s.run history).last_javascript_message_dismissal_ = s.lastDialogClose t0 history := by
  induction history with
  | nil => intro s t0 h; exact h
  | cons eo rest ih =>
    intro s t0 h
    obtain ⟨env, op⟩ := eo
    simp only [WebContents.run, WebContents.lastDialogClose]
    apply ih
    rw [last_dismissal_step, h]

/-- C10: for a JavaScript dialog request at time `Now` that is not suppressed,
the dialog is shown with the "suppress further dialogs" checkbox if and only if
`Now - last_javascript_message_dismissal_` is strictly less than 1000 ms; and
`last_javascript_message_dismissal_` is the time of the most recent dialog
close: `OnJavaScriptMessageBoxClosed` stores the clock there, and after every
history of a fresh tab the member holds the time of the last close of that
history (the null time 0 when there was none). -/
theorem suppress_checkbox_offered_within_delay (s : WebContents) (env : Services)
    (message default_prompt : String) (frame_url : GURL) (flags : Int) (reply_msg : ReplyMsg)
    (hs : (s.RunJavaScriptMessage env message default_prompt frame_url flags reply_msg).1 =
      false) :
    (∃ show_suppress_checkbox : Bool,
      emittedSince s
          (s.RunJavaScriptMessage env message default_prompt frame_url flags reply_msg).2 =
        [Effect.RunJavascriptMessageBox frame_url flags message default_prompt
          show_suppress_checkbox reply_msg] ∧
      (show_suppress_checkbox = true ↔
        env.Now - s.last_javascript_message_dismissal_ < TimeDelta.FromMilliseconds 1000)) ∧
    (∀ (close_env : Services) (r : ReplyMsg) (success : Bool) (prompt : String),
      (s.OnJavaScriptMessageBoxClosed close_env r success
        prompt).last_javascript_message_dismissal_ = close_env.Now) ∧
    (∀ (profile : Profile) (endpoint : Endpoint) (url_model : Option TemplateURLModel)
      (history : List (Services × Op)),
      ((WebContents.fresh profile endpoint url_model).run
        history).last_javascript_message_dismissal_ =
        (WebContents.fresh profile endpoint url_model).lastDialogClose 0 history) := by
  have hshape : (s.RunJavaScriptMessage env message default_prompt frame_url flags reply_msg) =
      (false, s.emit (Effect.RunJavascriptMessageBox frame_url flags message default_prompt
        (decide (env.Now - s.last_javascript_message_dismissal_ <
          TimeDelta.FromMilliseconds kJavascriptMessageExpectedDelay)) reply_msg)) := by
    rw [RunJavaScriptMessage_eq] at hs ⊢
    cases hb : (s.suppress_javascript_messages_ || s.insideConstrainedPopup)
    · simp
    · rw [hb] at hs
      simp at hs
  refine ⟨⟨decide (env.Now - s.last_javascript_message_dismissal_ <
      TimeDelta.FromMilliseconds kJavascriptMessageExpectedDelay), ?_, ?_⟩, ?_, ?_⟩
  · rw [hshape]
    exact emittedSince_of_append s _ _ (emit_effects s _)
  · simp [TimeDelta.FromMilliseconds, kJavascriptMessageExpectedDelay]
  · intro close_env r success prompt
    rfl
  · intro profile endpoint url_model history
    exact last_dismissal_run history _ 0 rfl

/-- C10 on a tab whose last dialog was closed at 200 ms: a request at 500 ms
is shown with the checkbox, one at exactly 1200 ms, which is 1000 ms after the
close, is shown without it. -/
theorem suppress_checkbox_offered_within_delay_witness :
    exampleDismissedTab.last_javascript_message_dismissal_ = TimeDelta.FromMilliseconds 200 ∧
    emittedSince exampleDismissedTab
        (exampleDismissedTab.RunJavaScriptMessage (exampleServicesAt 500) "m" "" exampleURL 0
          9).2 =
      [Effect.RunJavascriptMessageBox exampleURL 0 "m" "" true 9] ∧
    emittedSince exampleDismissedTab
        (exampleDismissedTab.RunJavaScriptMessage (exampleServicesAt 1200) "m" "" exampleURL 0
          9).2 =
      [Effect.RunJavascriptMessageBox exampleURL 0 "m" "" false 9] := by
  refine ⟨rfl, ?_, ?_⟩
  · obtain ⟨⟨b, hb, hiff⟩, _, _⟩ :=
      suppress_checkbox_offered_within_delay exampleDismissedTab (exampleServicesAt 500)
        "m" "" exampleURL 0 9 (by decide)
    have hb2 : b = true := hiff.2 (by decide)
    rw [hb, hb2]
  · obtain ⟨⟨b, hb, hiff⟩, _, _⟩ :=
      suppress_checkbox_offered_within_delay exampleDismissedTab (exampleServicesAt 1200)
        "m" "" exampleURL 0 9 (by decide)
    have hb2 : b = false := by
      cases b
      · rfl
      · exact absurd (hiff.1 rfl) (by decide)
    rw [hb, hb2]

/-! ### Title policy -/

/-- C11: `GetTitle` returns the first available of, in this order: (i) the
overridden title of the privileged page (the pending DOM UI when there is one,
else the committed one) if that page exists and the title is non-empty, (ii)
the display title of the transient entry, (iii) the display title of the
last-committed entry, (iv) the lazy-load title when the controller is loading
lazily, (v) the empty string. -/
theorem GetTitle_first_available (s : WebContents) (env : Services) :
    s.GetTitle env = firstAvailable (s.titleCandidates env) := by
  have key : ∀ (o : Option DOMUI) (fallback : String) (rest : List (Option String)),
      fallback = firstAvailable rest →
      (match (match o with
          | some d => if !d.overridden_title.isEmpty then some d.overridden_title else none
          | none => none) with
        | some title => title
        | none => fallback) =
      firstAvailable
        ((o.map (fun d => d.overridden_title)).filter (fun t => !t.isEmpty) :: rest) := by
    intro o fallback rest hf
    cases o with
    | none => simpa [firstAvailable, Option.filter] using hf
    | some d =>
      cases he : d.overridden_title.isEmpty <;>
        simp [firstAvailable, Option.filter, he, hf]
  have hour : (match s.render_manager_.pending_dom_ui with
      | some d => some d
      | none => s.render_manager_.dom_ui) = s.privilegedPage := by
    unfold WebContents.privilegedPage
    cases s.render_manager_.pending_dom_ui <;> rfl
  unfold WebContents.GetTitle WebContents.titleCandidates
  simp only [hour]
  apply key
  cases ht : s.controller_.transient_entry <;>
    cases hc : s.controller_.GetLastCommittedEntry <;>
    cases hl : s.controller_.loading_url_lazily <;>
    simp [firstAvailable]

/-! ### Titles of entries -/

/-- The two outcomes of `UpdateTitleForEntry`. -/
theorem UpdateTitleForEntry_eq (s : WebContents) (env : Services) (entry : NavigationEntry)
    (title : String) :
    s.UpdateTitleForEntry env entry title =
      if finalTitle env entry title = entry.title then (false, entry, s)
      else
        (true, { entry with title := finalTitle env entry title },
          (if s.profile_.is_off_the_record = false ∧ s.received_page_title_ = false then
            ({ (if s.profile_.has_history_service then
                  s.emit (Effect.history_SetPageTitle entry.display_url
                    (finalTitle env entry title))
                else s) with
              received_page_title_ := !(entry.url.SchemeIsFile && title.isEmpty) } :
              WebContents)
          else s).emit (Effect.view_SetPageTitle (finalTitle env entry title))) := by
  unfold WebContents.UpdateTitleForEntry finalTitle
  simp only [beq_iff_eq]
  by_cases h1 : (if (entry.url.SchemeIsFile && title.isEmpty) = true then entry.url.file_name
      else env.TrimWhitespace title) = entry.title
  · simp only [h1, if_true]
  · simp only [h1, if_false]
    cases s.profile_.is_off_the_record <;> cases s.received_page_title_ <;> simp

/-- C12: calling `UpdateTitleForEntry(e, T)` and then `UpdateTitleForEntry(e, T)`
again makes the second call return false and hand back the entry and the tab
exactly as the first call left them: the entry title, the `received_page_title_`
flag and the trace of calls to history and view are untouched by it. -/
theorem UpdateTitleForEntry_twice (s : WebContents) (env : Services) (entry : NavigationEntry)
    (title : String) :
    (s.UpdateTitleForEntry env entry title).2.2.UpdateTitleForEntry env
        (s.UpdateTitleForEntry env entry title).2.1 title =
      (false, (s.UpdateTitleForEntry env entry title).2.1,
        (s.UpdateTitleForEntry env entry title).2.2) ∧
    emittedSince (s.UpdateTitleForEntry env entry title).2.2
        ((s.UpdateTitleForEntry env entry title).2.2.UpdateTitleForEntry env
          (s.UpdateTitleForEntry env entry title).2.1 title).2.2 = [] := by
  have hfin : finalTitle env (s.UpdateTitleForEntry env entry title).2.1 title =
      (s.UpdateTitleForEntry env entry title).2.1.title := by
    rw [UpdateTitleForEntry_eq]
    by_cases h : finalTitle env entry title = entry.title
    · simp only [h, if_true]
    · simp only [h, if_false]
      rfl
  have h2 : (s.UpdateTitleForEntry env entry title).2.2.UpdateTitleForEntry env
        (s.UpdateTitleForEntry env entry title).2.1 title =
      (false, (s.UpdateTitleForEntry env entry title).2.1,
        (s.UpdateTitleForEntry env entry title).2.2) := by
    generalize (s.UpdateTitleForEntry env entry title).2.1 = e1 at hfin ⊢
    generalize (s.UpdateTitleForEntry env entry title).2.2 = s1
    rw [UpdateTitleForEntry_eq, if_pos hfin]
  refine ⟨h2, ?_⟩
  rw [h2]
  exact emittedSince_self _

theorem GetEntryIndexWithPageID_none (c : NavigationController) (instance_ : SiteInstanceId)
    (page_id : Int) (h : ∀ e ∈ c.entries, e.hasPageID instance_ page_id = false) :
    c.GetEntryIndexWithPageID instance_ page_id = none := by
  unfold NavigationController.GetEntryIndexWithPageID
  have hlen : c.entries.findIdx
      (fun e => e.site_instance == instance_ && e.page_id == page_id) = c.entries.length :=
    List.findIdx_eq_length_of_false h
  simp [hlen]

/-- C14, as the claim states it, fails: a tab that is loading and waits for the
response has one entry, page 3; `UpdateTitle` for the unknown page 5 clears
`waiting_for_response_`. -/
theorem unknown_page_id_counterexample :
    (∀ e ∈ exampleOnePageTab.controller_.entries,
      e.hasPageID exampleOnePageTab.GetSiteInstance.id 5 = false) ∧
    exampleOnePageTab.waiting_for_response_ = true ∧
    (exampleOnePageTab.UpdateTitle exampleServices 1 5 "t").waiting_for_response_ = false := by
  decide

/-- C14, amended: when no entry matches the current site instance and the page
id, `UpdateState` and `UpdateFeedList` return the very same tab state, and
`UpdateTitle` does nothing but clear `waiting_for_response_`: it leaves every
navigation entry and the rest of the tab as they were, and none of the three
makes any call (so none posts a notification). -/
theorem unknown_page_id_dropped (s : WebContents) (env : Services) (rvh : RenderViewHost)
    (page_id : Int)
    (h : ∀ e ∈ s.controller_.entries, e.hasPageID s.GetSiteInstance.id page_id = false) :
    (∀ state, s.UpdateState rvh page_id state = s) ∧
    (∀ feedlist, s.UpdateFeedList rvh page_id feedlist = s) ∧
    (∀ title, s.UpdateTitle env rvh page_id title = { s with waiting_for_response_ := false } ∧
      (s.UpdateTitle env rvh page_id title).controller_ = s.controller_ ∧
      emittedSince s (s.UpdateTitle env rvh page_id title) = []) := by
  have hnone := GetEntryIndexWithPageID_none s.controller_ s.GetSiteInstance.id page_id h
  have htitle : ∀ title,
      s.UpdateTitle env rvh page_id title = { s with waiting_for_response_ := false } := by
    intro title
    have h1 : s.SetNotWaitingForResponse.controller_.GetEntryIndexWithPageID
        s.SetNotWaitingForResponse.GetSiteInstance.id page_id = none := hnone
    simp only [WebContents.UpdateTitle, h1]
    rfl
  refine ⟨?_, ?_, ?_⟩
  · intro state
    simp [WebContents.UpdateState, hnone]
  · intro feedlist
    unfold WebContents.UpdateFeedList
    split
    · rfl
    · simp [hnone]
  · intro title
    rw [htitle]
    exact ⟨rfl, rfl, by simp [emittedSince]⟩

/-- C14, amended, on a loading tab whose only entry is page 3, for the unknown
page 5. -/
theorem unknown_page_id_dropped_witness :
    (∀ e ∈ exampleOnePageTab.controller_.entries,
      e.hasPageID exampleOnePageTab.GetSiteInstance.id 5 = false) ∧
    exampleOnePageTab.UpdateState 1 5 "state" = exampleOnePageTab ∧
    exampleOnePageTab.UpdateFeedList 1 5 ["feed"] = exampleOnePageTab ∧
    (exampleOnePageTab.UpdateTitle exampleServices 1 5 "t").controller_ =
      exampleOnePageTab.controller_ :=
  ⟨by decide,
    (unknown_page_id_dropped exampleOnePageTab exampleServices 1 5 (by decide)).1 "state",
    (unknown_page_id_dropped exampleOnePageTab exampleServices 1 5 (by decide)).2.1 ["feed"],
    ((unknown_page_id_dropped exampleOnePageTab exampleServices 1 5 (by decide)).2.2 "t").2.1⟩

/-! ### Closing child windows -/

theorem closeRequests_take_succ (windows : List (Option ConstrainedWindow)) (i : Nat) :
    closeRequests (windows.take (i + 1)) =
      (match windows.get? i with
        | some (some window) => [Effect.CloseConstrainedWindow window]
        | _ => []) ++ closeRequests (windows.take i) := by
  unfold closeRequests
  rw [List.take_succ, List.reverse_append, List.filterMap_append, List.map_append,
    List.get?_eq_getElem?]
  cases h : windows[i]? with
  | none => simp
  | some w => cases w <;> simp

theorem closeChildWindowsBelow_spec (n : Nat) :
    ∀ s : WebContents,
      s.closeChildWindowsBelow n =
        { s with effects := s.effects ++ closeRequests (s.child_windows_.take n) } := by
  induction n with
  | zero =>
    intro s
    simp [WebContents.closeChildWindowsBelow, closeRequests]
  | succ i ih =>
    intro s
    unfold WebContents.closeChildWindowsBelow
    simp only
    rw [closeRequests_take_succ]
    split
    · rename_i w hw
      rw [ih (s.emit (Effect.CloseConstrainedWindow w))]
      simp [WebContents.emit]
    · rename_i hw
      rw [ih s]
      cases hg : s.child_windows_.get? i with
      | none => simp
      | some w =>
        cases w with
        | none => simp
        | some w => exact absurd hg (hw w)

/-- C15: if the previous and the current URL are in the same registry-controlled
domain or host, `MaybeCloseChildWindows` returns the very same tab state and
closes no window; otherwise the calls it makes are exactly the close requests
for the non-null child windows, one each, in descending index order, and the
list of child windows itself is left as it was. -/
theorem MaybeCloseChildWindows_spec (s : WebContents) (env : Services)
    (previous_url current_url : GURL) :
    (s.MaybeCloseChildWindows env previous_url current_url =
      if env.SameDomainOrHost previous_url current_url then s
      else s.closeChildWindowsBelow s.child_windows_.length) ∧
    emittedSince s (s.MaybeCloseChildWindows env previous_url current_url) =
      (if env.SameDomainOrHost previous_url current_url then []
       else closeRequests s.child_windows_) ∧
    (s.MaybeCloseChildWindows env previous_url current_url).child_windows_ =
      s.child_windows_ := by
  unfold WebContents.MaybeCloseChildWindows
  cases env.SameDomainOrHost previous_url current_url
  · have h := closeChildWindowsBelow_spec s.child_windows_.length s
    rw [List.take_length] at h
    simp only [Bool.false_eq_true, if_false, true_and]
    rw [h]
    exact ⟨emittedSince_of_append s _ _ rfl, rfl⟩
  · simp [emittedSince_self]

/-! ### The download shelf -/

theorem ShelfQuiet_refl (s : WebContents) : ShelfQuiet s s :=
  ⟨rfl, [], by simp, by simp⟩

theorem ShelfQuiet_trans {a b c : WebContents} (h1 : ShelfQuiet a b) (h2 : ShelfQuiet b c) :
    ShelfQuiet a c := by
  obtain ⟨v1, es1, e1, n1⟩ := h1
  obtain ⟨v2, es2, e2, n2⟩ := h2
  refine ⟨by rw [v2, v1], es1 ++ es2, by rw [e2, e1, List.append_assoc], ?_⟩
  simp [n1, n2]

theorem ShelfQuiet_emit (s : WebContents) (e : Effect)
    (h : e ≠ Effect.ToolbarSizeChanged false) : ShelfQuiet s (s.emit e) :=
  ⟨rfl, [e], rfl, by simpa using fun h' => h h'.symm⟩

theorem ShelfQuiet_UpdateTargetURL (s : WebContents) (page_id : Int) (url : GURL) :
    ShelfQuiet s (s.UpdateTargetURL page_id url) := by
  unfold WebContents.UpdateTargetURL
  split
  · exact ShelfQuiet_emit _ _ (by simp)
  · exact ShelfQuiet_refl _

theorem ShelfQuiet_GenerateKeywordIfNecessary (s : WebContents) (env : Services)
    (params : FrameNavigateParams) :
    ShelfQuiet s (s.GenerateKeywordIfNecessary env params) := by
  unfold WebContents.GenerateKeywordIfNecessary
  simp only
  repeat' split
  all_goals first
    | exact ShelfQuiet_refl _
    | exact ShelfQuiet_emit _ _ (by simp)

theorem ShelfQuiet_MaybeCloseChildWindows (s : WebContents) (env : Services)
    (previous_url current_url : GURL) :
    ShelfQuiet s (s.MaybeCloseChildWindows env previous_url current_url) := by
  unfold WebContents.MaybeCloseChildWindows
  split
  · exact ShelfQuiet_refl _
  · rw [closeChildWindowsBelow_spec]
    exact ⟨rfl, _, rfl, by simp [closeRequests]⟩

theorem ShelfQuiet_UpdateStarredStateForCurrentURL (s : WebContents) (env : Services) :
    ShelfQuiet s (s.UpdateStarredStateForCurrentURL env) := by
  unfold WebContents.UpdateStarredStateForCurrentURL
  simp only
  split
  · exact ⟨rfl, [_], rfl, by simp⟩
  · exact ⟨rfl, [], by simp, by simp⟩

theorem SetDownloadShelfVisible_false (s : WebContents) (env : Services) :
    (s.SetDownloadShelfVisible env false).shelf_visible_ = false ∧
    ∃ es, (s.SetDownloadShelfVisible env false).effects =
      s.effects ++ es ++ [Effect.ToolbarSizeChanged false] := by
  unfold WebContents.SetDownloadShelfVisible
  simp only [Bool.false_eq_true, if_false]
  cases hv : s.shelf_visible_
  · exact ⟨by simp [WebContents.emit, hv], [], by simp [WebContents.emit]⟩
  · cases hd : s.delegate_.isSome
    · exact ⟨by simp [WebContents.emit, hd], [], by simp [WebContents.emit, hd]⟩
    · exact ⟨by simp [WebContents.emit, hd], [Effect.delegate_ContentsStateChanged],
        by simp [WebContents.emit, hd]⟩

theorem DidNavigateMainFramePostCommit_shelf (s : WebContents) (env : Services)
    (details : LoadCommittedDetails) (params : FrameNavigateParams) :
    ShelfQuiet
      (if env.in_progress_count == some 0 && !details.previous_url.is_empty &&
          !env.SameDomainOrHost details.previous_url details.entry.url then
        if env.Now - s.last_download_shelf_show_ >
            TimeDelta.FromMilliseconds kDownloadShelfHideDelay then
          s.SetDownloadShelfVisible env false
        else s
      else s)
      (s.DidNavigateMainFramePostCommit env details params) := by
  unfold WebContents.DidNavigateMainFramePostCommit
  simp only
  refine ShelfQuiet_trans ?_ (ShelfQuiet_UpdateStarredStateForCurrentURL _ _)
  refine ShelfQuiet_trans ?_ (ShelfQuiet_MaybeCloseChildWindows _ _ _ _)
  refine ShelfQuiet_trans ?_ (ShelfQuiet_emit _ _ (by simp))
  refine ShelfQuiet_trans ?_
    (⟨rfl, [], by simp, by simp⟩ : ShelfQuiet
      (WebContents.GenerateKeywordIfNecessary _ env params) _)
  refine ShelfQuiet_trans ?_ (ShelfQuiet_GenerateKeywordIfNecessary _ _ _)
  have key : ∀ s1 : WebContents, ShelfQuiet s1
      (if details.is_user_initiated_main_frame_load then
        if !params.password_form_origin_is_valid then
          (s1.UpdateTargetURL details.entry.page_id GURL.EmptyGURL).emit
            Effect.password_manager_DidNavigate
        else s1.UpdateTargetURL details.entry.page_id GURL.EmptyGURL
      else s1) := by
    intro s1
    split
    · split
      · exact ShelfQuiet_trans (ShelfQuiet_UpdateTargetURL _ _ _)
          (ShelfQuiet_emit _ _ (by simp))
      · exact ShelfQuiet_UpdateTargetURL _ _ _
    · exact ShelfQuiet_refl _
  exact key _

/-- C16 as stated fails in its "if" direction: in a profile without download
manager there is no active download, the previous URL is not empty, the two
URLs are in different domains and the shelf was shown 6000 ms ago, yet the
commit does not hide the shelf. -/
theorem download_shelf_hidden_counterexample :
    (exampleServicesAt 6000).in_progress_count = none ∧
    exampleCrossDomainDetails.previous_url.is_empty = false ∧
    (exampleServicesAt 6000).SameDomainOrHost exampleCrossDomainDetails.previous_url
      exampleCrossDomainDetails.entry.url = false ∧
    (exampleServicesAt 6000).Now - exampleShelfTab.last_download_shelf_show_ >
      TimeDelta.FromMilliseconds 5000 ∧
    Effect.ToolbarSizeChanged false ∉
      emittedSince exampleShelfTab
        (exampleShelfTab.DidNavigateMainFramePostCommit (exampleServicesAt 6000)
          exampleCrossDomainDetails exampleParams) ∧
    exampleShelfTab.shelf_visible_ = true ∧
    (exampleShelfTab.DidNavigateMainFramePostCommit (exampleServicesAt 6000)
      exampleCrossDomainDetails exampleParams).shelf_visible_ = true := by
  decide

/-- C16, amended: on a committed main-frame navigation
(`DidNavigateMainFramePostCommit`) the hide policy calls
`SetDownloadShelfVisible(false)`, seen in the trace as its
`ToolbarSizeChanged(false)`, if and only if the four conditions hold together:
the profile has a download manager and it reports no download in progress,
the previous URL is not empty, the previous and the committed URL are not in
the same registry-controlled domain or host, and the time since the shelf was
last shown is strictly greater than 5000 ms.  The shelf is then hidden;
otherwise its visibility is what it was. -/
theorem download_shelf_hidden_iff (s : WebContents) (env : Services)
    (details : LoadCommittedDetails) (params : FrameNavigateParams) :
    (Effect.ToolbarSizeChanged false ∈
        emittedSince s (s.DidNavigateMainFramePostCommit env details params) ↔
      (env.in_progress_count = some 0 ∧ details.previous_url.is_empty = false ∧
        env.SameDomainOrHost details.previous_url details.entry.url = false ∧
        env.Now - s.last_download_shelf_show_ > TimeDelta.FromMilliseconds 5000)) ∧
    (s.DidNavigateMainFramePostCommit env details params).shelf_visible_ =
      (if env.in_progress_count = some 0 ∧ details.previous_url.is_empty = false ∧
          env.SameDomainOrHost details.previous_url details.entry.url = false ∧
          env.Now - s.last_download_shelf_show_ > TimeDelta.FromMilliseconds 5000
        then false else s.shelf_visible_) := by
  obtain ⟨hv, es, he, hn⟩ := DidNavigateMainFramePostCommit_shelf s env details params
  obtain ⟨hf, pre, hp⟩ := SetDownloadShelfVisible_false s env
  by_cases hc : env.in_progress_count = some 0 ∧ details.previous_url.is_empty = false ∧
      env.SameDomainOrHost details.previous_url details.entry.url = false ∧
      env.Now - s.last_download_shelf_show_ > TimeDelta.FromMilliseconds 5000
  · obtain ⟨c1, c2, c3, c4⟩ := hc
    have c4' : env.Now - s.last_download_shelf_show_ >
        TimeDelta.FromMilliseconds kDownloadShelfHideDelay := c4
    simp only [c1, c2, c3, c4', beq_self_eq_true, Bool.not_false, Bool.and_self, if_true] at hv he
    rw [hp] at he
    rw [hf] at hv
    have hem : emittedSince s (s.DidNavigateMainFramePostCommit env details params) =
        pre ++ [Effect.ToolbarSizeChanged false] ++ es :=
      emittedSince_of_append s _ _ (by rw [he]; simp)
    refine ⟨?_, ?_⟩
    · rw [hem]
      simp [c1, c2, c3, c4]
    · rw [hv]
      simp [c1, c2, c3, c4]
  · have hs : (if env.in_progress_count == some 0 && !details.previous_url.is_empty &&
          !env.SameDomainOrHost details.previous_url details.entry.url then
        if env.Now - s.last_download_shelf_show_ >
            TimeDelta.FromMilliseconds kDownloadShelfHideDelay then
          s.SetDownloadShelfVisible env false
        else s
      else s) = s := by
      by_cases c1 : env.in_progress_count = some 0
      · cases c2 : details.previous_url.is_empty
        · cases c3 : env.SameDomainOrHost details.previous_url details.entry.url
          · have c4 : ¬ env.Now - s.last_download_shelf_show_ >
                TimeDelta.FromMilliseconds kDownloadShelfHideDelay :=
              fun h => hc ⟨c1, c2, c3, h⟩
            simp [c1, c4]
          · simp
        · simp
      · simp [c1]
    rw [hs] at hv he
    have hem : emittedSince s (s.DidNavigateMainFramePostCommit env details params) = es :=
      emittedSince_of_append s _ _ he
    refine ⟨?_, ?_⟩
    · rw [hem]
      exact ⟨fun h => absurd h hn, fun h => absurd h hc⟩
    · rw [hv, if_neg hc]

/-- C16, amended, at concrete inputs: with a download manager that reports no
download in progress the commit to another domain, 6000 ms after the shelf was
shown, hides the shelf; after exactly 5000 ms it does not. -/
theorem download_shelf_hidden_iff_witness :
    Effect.ToolbarSizeChanged false ∈
      emittedSince exampleShelfTab
        (exampleShelfTab.DidNavigateMainFramePostCommit (exampleDownloadIdleAt 6000)
          exampleCrossDomainDetails exampleParams) ∧
    (exampleShelfTab.DidNavigateMainFramePostCommit (exampleDownloadIdleAt 6000)
      exampleCrossDomainDetails exampleParams).shelf_visible_ = false ∧
    (exampleShelfTab.DidNavigateMainFramePostCommit (exampleDownloadIdleAt 5000)
      exampleCrossDomainDetails exampleParams).shelf_visible_ = true :=
  ⟨(download_shelf_hidden_iff exampleShelfTab (exampleDownloadIdleAt 6000)
      exampleCrossDomainDetails exampleParams).1.mpr (by decide),
   by decide, by decide⟩

/-! ### Incognito tabs -/

/-- C17: in a tab whose profile is off the record, none of the four operations
that can reach the history service makes a call on it, whatever their
arguments: `UpdateHistoryForNavigation` (`AddPage`), `UpdateTitleForEntry`
(`SetPageTitle`), `UpdateThumbnail` (`SetPageThumbnail`) and
`NavigateToPendingEntry`, reload or not (`SetFavIconOutOfDateForPage`). -/
theorem incognito_no_history_call (s : WebContents) (env : Services)
    (hinc : s.profile_.is_off_the_record = true) :
    (∀ (display_url : GURL) (params : FrameNavigateParams),
      ∀ e ∈ emittedSince s (s.UpdateHistoryForNavigation display_url params),
        isHistoryCall e = false) ∧
    (∀ (entry : NavigationEntry) (title : String),
      ∀ e ∈ emittedSince s (s.UpdateTitleForEntry env entry title).2.2,
        isHistoryCall e = false) ∧
    (∀ (url : GURL) (bitmap : SkBitmap) (score : Nat),
      ∀ e ∈ emittedSince s (s.UpdateThumbnail url bitmap score), isHistoryCall e = false) ∧
    (∀ reload : Bool,
      ∀ e ∈ emittedSince s (s.NavigateToPendingEntry env reload).2,
        isHistoryCall e = false) := by
  refine ⟨?_, ?_, ?_, ?_⟩
  · intro display_url params e he
    simp [WebContents.UpdateHistoryForNavigation, hinc, emittedSince_self] at he
  · intro entry title e he
    rw [UpdateTitleForEntry_eq] at he
    split at he
    · simp [emittedSince_self] at he
    · simp [hinc, emittedSince, WebContents.emit] at he
      subst he
      rfl
  · intro url bitmap score e he
    simp [WebContents.UpdateThumbnail, hinc, emittedSince_self] at he
  · intro reload
    cases hp : s.controller_.pending_entry with
    | none => simp [WebContents.NavigateToPendingEntry, hp, emittedSince_self]
    | some entry =>
      cases hn : env.render_manager_Navigate s.render_manager_ entry with
      | none => simp [WebContents.NavigateToPendingEntry, hp, hn, emittedSince_self]
      | some r =>
        obtain ⟨render_manager, dest⟩ := r
        cases hd : env.devtools_manager <;>
          cases hj : (entry.page_id == -1 && entry.url.SchemeIs kJavaScriptScheme) <;>
          simp [WebContents.NavigateToPendingEntry, hp, hn, hd, hj, hinc, emittedSince,
            WebContents.emit, isHistoryCall]

/-- C17 at a concrete input: the incognito tab, reloading its pending entry and
taking a title, makes no call on the history service, while the navigation
itself does go out. -/
theorem incognito_no_history_call_witness :
    exampleIncognitoTab.profile_.is_off_the_record = true ∧
    (∀ e ∈ emittedSince exampleIncognitoTab
        (exampleIncognitoTab.NavigateToPendingEntry exampleServices true).2,
      isHistoryCall e = false) ∧
    (∀ e ∈ emittedSince exampleIncognitoTab
        (exampleIncognitoTab.UpdateTitleForEntry exampleServices
          (exampleCommittedEntry exampleURL) "Report").2.2,
      isHistoryCall e = false) ∧
    (exampleIncognitoTab.NavigateToPendingEntry exampleServices true).1 = true :=
  ⟨rfl,
   (incognito_no_history_call exampleIncognitoTab exampleServices rfl).2.2.2 true,
   (incognito_no_history_call exampleIncognitoTab exampleServices rfl).2.1
     (exampleCommittedEntry exampleURL) "Report",
   by decide⟩

/-! ### Learning keywords -/

theorem GenerateKeywordIfNecessary_osdd (s : WebContents) (env : Services)
    (params : FrameNavigateParams)
    (url_model : TemplateURLModel) (previous_entry : NavigationEntry) (cur : TemplateURL)
    (hm : s.template_url_model_ = some url_model)
    (hprev : s.controller_.entries.get? (s.controller_.last_committed_entry_index - 1).toNat =
      some previous_entry)
    (hcur : (env.CanReplaceKeyword url_model
        (env.GenerateKeyword
          (if previous_entry.user_typed_url.is_valid then previous_entry.user_typed_url
           else previous_entry.url) true)
        params.searchable_form_url.spec).2 = some cur)
    (hval : cur.originating_url.is_valid = true) :
    (s.GenerateKeywordIfNecessary env params).template_url_model_ =
      s.template_url_model_ := by
  unfold WebContents.GenerateKeywordIfNecessary
  simp only [hm, hprev]
  repeat' split
  all_goals first
    | rfl
    | exact hm
    | simp_all

set_option maxHeartbeats 1000000 in
theorem GenerateKeywordIfNecessary_added (s : WebContents) (env : Services)
    (params : FrameNavigateParams) :
    (s.GenerateKeywordIfNecessary env params).template_url_model_ = s.template_url_model_ ∨
      ∃ (url_model : TemplateURLModel) (previous_entry : NavigationEntry)
        (new_url : TemplateURL) (kept : List TemplateURL),
        s.profile_.is_off_the_record = false ∧
        s.template_url_model_ = some url_model ∧
        s.controller_.entries.get? (s.controller_.last_committed_entry_index - 1).toNat =
          some previous_entry ∧
        (s.GenerateKeywordIfNecessary env params).template_url_model_ =
          some { url_model with template_urls := kept ++ [new_url] } ∧
        (kept = url_model.template_urls ∨
          ∃ cur : TemplateURL, cur.originating_url.is_valid = false ∧
            kept = url_model.template_urls.erase cur) ∧
        new_url.keyword =
          env.GenerateKeyword
            (if previous_entry.user_typed_url.is_valid then previous_entry.user_typed_url
             else previous_entry.url) true ∧
        new_url.url = params.searchable_form_url.spec ∧
        new_url.input_encodings = [params.searchable_form_encoding] := by
  generalize hr : s.GenerateKeywordIfNecessary env params = r
  unfold WebContents.GenerateKeywordIfNecessary at hr
  simp only at hr
  repeat' split at hr
  all_goals subst hr
  all_goals try exact Or.inl rfl
  all_goals right
  all_goals
    refine ⟨_, _, _, _, Bool.eq_false_iff.mpr (by assumption), by assumption, by assumption,
      rfl, ?_, ?_, rfl, rfl⟩
  all_goals first
    | exact Or.inl rfl
    | exact Or.inr ⟨_, Bool.eq_false_iff.mpr (by assumption), rfl⟩
    | rw [if_pos (by assumption)]
    | rw [if_neg (by assumption)]

/-- C18: `GenerateKeywordIfNecessary` returns the tab as it was when the profile
is off the record, and leaves the keyword model as it was when the record that
`CanReplaceKeyword` names as the one to be replaced has a valid originating URL
(it came from an OSDD).  In every case the keyword model is either unchanged,
or it is the old one with at most the replaced record (one without valid
originating URL) removed and exactly one record appended, whose keyword is the
keyword generated from the previous entry, whose URL is the searchable form
URL and whose encodings are the searchable form encoding alone. -/
theorem GenerateKeywordIfNecessary_model (s : WebContents) (env : Services)
    (params : FrameNavigateParams) :
    (s.profile_.is_off_the_record = true → s.GenerateKeywordIfNecessary env params = s) ∧
    (∀ (url_model : TemplateURLModel) (previous_entry : NavigationEntry) (cur : TemplateURL),
      s.template_url_model_ = some url_model →
      s.controller_.entries.get? (s.controller_.last_committed_entry_index - 1).toNat =
        some previous_entry →
      (env.CanReplaceKeyword url_model
        (env.GenerateKeyword
          (if previous_entry.user_typed_url.is_valid then previous_entry.user_typed_url
           else previous_entry.url) true)
        params.searchable_form_url.spec).2 = some cur →
      cur.originating_url.is_valid = true →
      (s.GenerateKeywordIfNecessary env params).template_url_model_ =
        s.template_url_model_) ∧
    ((s.GenerateKeywordIfNecessary env params).template_url_model_ = s.template_url_model_ ∨
      ∃ (url_model : TemplateURLModel) (previous_entry : NavigationEntry)
        (new_url : TemplateURL) (kept : List TemplateURL),
        s.profile_.is_off_the_record = false ∧
        s.template_url_model_ = some url_model ∧
        s.controller_.entries.get? (s.controller_.last_committed_entry_index - 1).toNat =
          some previous_entry ∧
        (s.GenerateKeywordIfNecessary env params).template_url_model_ =
          some { url_model with template_urls := kept ++ [new_url] } ∧
        (kept = url_model.template_urls ∨
          ∃ cur : TemplateURL, cur.originating_url.is_valid = false ∧
            kept = url_model.template_urls.erase cur) ∧
        new_url.keyword =
          env.GenerateKeyword
            (if previous_entry.user_typed_url.is_valid then previous_entry.user_typed_url
             else previous_entry.url) true ∧
        new_url.url = params.searchable_form_url.spec ∧
        new_url.input_encodings = [params.searchable_form_encoding]) := by
  refine ⟨?_, ?_, GenerateKeywordIfNecessary_added s env params⟩
  · intro hinc
    unfold WebContents.GenerateKeywordIfNecessary
    simp [hinc]
  · intro url_model previous_entry cur hm hprev hcur hval
    exact GenerateKeywordIfNecessary_osdd s env params url_model previous_entry cur hm hprev
      hcur hval

/-- C18 at concrete inputs: the incognito tab comes back as it was; the tab
whose keyword `a.example` came from an OSDD keeps its keyword model; and the
same tab over an empty keyword model does learn the keyword, so the first two
are not vacuous. -/
theorem GenerateKeywordIfNecessary_model_witness :
    exampleIncognitoTab.profile_.is_off_the_record = true ∧
    exampleIncognitoTab.GenerateKeywordIfNecessary exampleSearchServices exampleSearchParams =
      exampleIncognitoTab ∧
    ((exampleSearchTab [exampleOSDDKeyword]).GenerateKeywordIfNecessary exampleSearchServices
        exampleSearchParams).template_url_model_ =
      (exampleSearchTab [exampleOSDDKeyword]).template_url_model_ ∧
    ((exampleSearchTab []).GenerateKeywordIfNecessary exampleSearchServices
        exampleSearchParams).template_url_model_ =
      some { loaded := true
             template_urls :=
              [{ keyword := "a.example", short_name := "a.example",
                 url := "https://a.example/search", input_encodings := ["UTF-8"],
                 favicon_url := GURL.EmptyGURL, originating_url := GURL.EmptyGURL,
                 safe_for_autoreplace := true }] } :=
  ⟨rfl,
   (GenerateKeywordIfNecessary_model exampleIncognitoTab exampleSearchServices
      exampleSearchParams).1 rfl,
   (GenerateKeywordIfNecessary_model (exampleSearchTab [exampleOSDDKeyword])
      exampleSearchServices exampleSearchParams).2.1
      { loaded := true, template_urls := [exampleOSDDKeyword] }
      (exampleCommittedEntry exampleURL) exampleOSDDKeyword rfl rfl (by decide) rfl,
   by decide⟩

/-! ### The base entry of an OSDD -/

theorem osddBaseSearch_reads (entries : List NavigationEntry) (n : Nat) :
    (∀ i ∈ (osddBaseSearch entries n).1, i < n) ∧ (osddBaseSearch entries n).1.length ≤ n := by
  induction n with
  | zero => simp [osddBaseSearch]
  | succ n ih =>
    unfold osddBaseSearch
    cases h : entries.get? n with
    | none => simp
    | some e =>
      cases hf : IsFormSubmit e
      · simp [hf]
      · simp only [hf, if_true]
        refine ⟨?_, ?_⟩
        · intro i hi
          rcases List.mem_cons.mp hi with rfl | hi
          · exact Nat.lt_succ_self _
          · exact Nat.lt_succ_of_lt (ih.1 i hi)
        · simpa using ih.2

theorem osddBaseSearch_some (entries : List NavigationEntry) (n j : Nat) :
    (osddBaseSearch entries n).2 = some j ↔
      (j < n ∧ (entries.get? j).map IsFormSubmit = some false ∧
        ∀ i, j < i → i < n → (entries.get? i).map IsFormSubmit = some true) := by
  induction n with
  | zero => simp [osddBaseSearch]
  | succ n ih =>
    unfold osddBaseSearch
    cases h : entries.get? n with
    | none =>
      have hn : (entries.get? n).map IsFormSubmit = none := by rw [h]; rfl
      simp only
      constructor
      · intro hc
        exact absurd hc (by simp)
      · rintro ⟨hj, ha, hall⟩
        rcases Nat.lt_succ_iff_lt_or_eq.mp hj with hlt | rfl
        · have := hall n hlt (Nat.lt_succ_self n)
          rw [hn] at this
          exact absurd this (by simp)
        · rw [hn] at ha
          exact absurd ha (by simp)
    | some e =>
      cases hf : IsFormSubmit e
      · have hn : (entries.get? n).map IsFormSubmit = some false := by rw [h, ← hf]; rfl
        simp only [hf, Bool.false_eq_true, if_false, Option.some.injEq]
        constructor
        · rintro rfl
          refine ⟨Nat.lt_succ_self _, hn, ?_⟩
          intro i h1 h2
          omega
        · rintro ⟨hj, _, hall⟩
          rcases Nat.lt_succ_iff_lt_or_eq.mp hj with hlt | rfl
          · have := hall n hlt (Nat.lt_succ_self n)
            rw [hn] at this
            exact absurd this (by simp)
          · rfl
      · have hn : (entries.get? n).map IsFormSubmit = some true := by rw [h, ← hf]; rfl
        simp only [hf, if_true]
        rw [ih]
        constructor
        · rintro ⟨hj, ha, hall⟩
          refine ⟨Nat.lt_succ_of_lt hj, ha, ?_⟩
          intro i h1 h2
          rcases Nat.lt_succ_iff_lt_or_eq.mp h2 with hlt | rfl
          · exact hall i h1 hlt
          · exact hn
        · rintro ⟨hj, ha, hall⟩
          rcases Nat.lt_succ_iff_lt_or_eq.mp hj with hlt | rfl
          · exact ⟨hlt, ha, fun i h1 h2 => hall i h1 (Nat.lt_succ_of_lt h2)⟩
          · rw [hn] at ha
            exact absurd ha (by simp)

theorem osddBaseIndex_some (s : WebContents) (entry : NavigationEntry)
    (hent : s.controller_.GetLastCommittedEntry = some entry) (j : Nat) :
    s.osddBaseIndex = some j ↔
      (j ≤ s.controller_.last_committed_entry_index.toNat ∧
        (s.controller_.entries.get? j).map IsFormSubmit = some false ∧
        ∀ i, j < i → i ≤ s.controller_.last_committed_entry_index.toNat →
          (s.controller_.entries.get? i).map IsFormSubmit = some true) := by
  have hk : s.controller_.entries.get? s.controller_.last_committed_entry_index.toNat =
      some entry := by
    unfold NavigationController.GetLastCommittedEntry at hent
    split at hent
    · exact absurd hent (by simp)
    · exact hent
  have hres : s.osddBaseIndex =
      if IsFormSubmit entry then (osddBaseSearch s.controller_.entries
        s.controller_.last_committed_entry_index.toNat).2
      else some s.controller_.last_committed_entry_index.toNat := by
    unfold WebContents.osddBaseIndex
    rw [hent]
  rw [hres]
  cases hf : IsFormSubmit entry
  · have hn : (s.controller_.entries.get?
        s.controller_.last_committed_entry_index.toNat).map IsFormSubmit = some false := by
      rw [hk, ← hf]; rfl
    simp only [Bool.false_eq_true, if_false, Option.some.injEq]
    constructor
    · rintro rfl
      exact ⟨le_refl _, hn, fun i h1 h2 => by omega⟩
    · rintro ⟨hj, _, hall⟩
      rcases Nat.lt_or_eq_of_le hj with hlt | heq
      · have := hall _ hlt (le_refl _)
        rw [hn] at this
        exact absurd this (by simp)
      · exact heq.symm
  · have hn : (s.controller_.entries.get?
        s.controller_.last_committed_entry_index.toNat).map IsFormSubmit = some true := by
      rw [hk, ← hf]; rfl
    simp only [if_true]
    rw [osddBaseSearch_some]
    constructor
    · rintro ⟨hj, ha, hall⟩
      refine ⟨Nat.le_of_lt hj, ha, fun i h1 h2 => ?_⟩
      rcases Nat.lt_or_eq_of_le h2 with hlt | heq
      · exact hall i h1 hlt
      · rw [heq]; exact hn
    · rintro ⟨hj, ha, hall⟩
      rcases Nat.lt_or_eq_of_le hj with hlt | heq
      · exact ⟨hlt, ha, fun i h1 h2 => hall i h1 (Nat.le_of_lt h2)⟩
      · rw [heq, hn] at ha
        exact absurd ha (by simp)

set_option maxHeartbeats 1000000 in
theorem PageHasOSDD_download (s : WebContents) (env : Services) (rvh : RenderViewHost)
    (page_id : Int) (url : GURL) (autodetected : Bool)
    (keyword : String) (u f : GURL) (a : Bool)
    (hmem : Effect.template_url_fetcher_ScheduleDownload keyword u f a ∈
      emittedSince s (s.PageHasOSDD env rvh page_id url autodetected)) :
    ∃ (j : Nat) (base_entry : NavigationEntry),
      s.osddBaseIndex = some j ∧ s.controller_.entries.get? j = some base_entry ∧
      keyword = env.GenerateKeyword
        (if base_entry.user_typed_url.is_valid then base_entry.user_typed_url
         else base_entry.url) autodetected ∧
      u = url ∧ f = base_entry.favicon_url ∧ a = autodetected := by
  generalize hr : s.PageHasOSDD env rvh page_id url autodetected = r at hmem
  unfold WebContents.PageHasOSDD at hr
  simp only at hr
  repeat' split at hr
  all_goals subst hr
  all_goals simp [emittedSince, WebContents.emit] at hmem
  all_goals obtain ⟨h1, h2, h3, h4⟩ := hmem
  all_goals
    refine ⟨_, _, by assumption, by assumption, ?_, h2, h3, h4⟩
  all_goals first
    | rw [if_pos (by assumption)]; exact h1
    | rw [if_neg (by assumption)]; exact h1

theorem PageHasOSDD_schedules (s : WebContents) (env : Services) (rvh : RenderViewHost)
    (page_id : Int) (url : GURL) (autodetected : Bool)
    (url_model : TemplateURLModel) (j : Nat) (base_entry : NavigationEntry)
    (hactive : s.IsActiveEntry page_id = true)
    (hmodel : s.template_url_model_ = some url_model) (hloaded : url_model.loaded = true)
    (hfetcher : s.profile_.has_template_url_fetcher = true)
    (hrec : s.profile_.is_off_the_record = false)
    (hbase : s.osddBaseIndex = some j)
    (hentry : s.controller_.entries.get? j = some base_entry)
    (hvalid : (if base_entry.user_typed_url.is_valid then base_entry.user_typed_url
      else base_entry.url).is_valid = true)
    (hkeyword : (env.GenerateKeyword
      (if base_entry.user_typed_url.is_valid then base_entry.user_typed_url
       else base_entry.url) autodetected).isEmpty = false)
    (hfree : ∀ template_url : TemplateURL,
      url_model.GetTemplateURLForKeyword
        (env.GenerateKeyword
          (if base_entry.user_typed_url.is_valid then base_entry.user_typed_url
           else base_entry.url) autodetected) = some template_url →
      template_url.safe_for_autoreplace = true ∧ template_url.originating_url ≠ url) :
    emittedSince s (s.PageHasOSDD env rvh page_id url autodetected) =
      [Effect.template_url_fetcher_ScheduleDownload
        (env.GenerateKeyword
          (if base_entry.user_typed_url.is_valid then base_entry.user_typed_url
           else base_entry.url) autodetected)
        url base_entry.favicon_url autodetected] := by
  have hentry' : s.controller_.entries[j]? = some base_entry := by
    rw [← List.get?_eq_getElem?]
    exact hentry
  cases hg : url_model.GetTemplateURLForKeyword
      (env.GenerateKeyword
        (if base_entry.user_typed_url.is_valid then base_entry.user_typed_url
         else base_entry.url) autodetected) with
  | none =>
    simp [WebContents.PageHasOSDD, hactive, hmodel, hloaded, hfetcher, hrec, hbase, hentry',
      hvalid, hkeyword, hg, WebContents.emit, emittedSince]
  | some template_url =>
    obtain ⟨h1, h2⟩ := hfree template_url hg
    simp [WebContents.PageHasOSDD, hactive, hmodel, hloaded, hfetcher, hrec, hbase, hentry',
      hvalid, hkeyword, hg, h1, h2, WebContents.emit, emittedSince]

/-- C19: with `k` the index of the last committed entry, the entry `PageHasOSDD`
derives the keyword from is the nearest one that is not a form submit: its
index `j` is at most `k`, entry `j` is not a form submit and every entry above
`j` up to `k` is one (so `j = k` when entry `k` is not a form submit, and
otherwise `j` is the greatest index below `k` that is not a form submit).  The
backward search reads only indices below `k`, at most `k` of them.  Whenever a
download is scheduled, its keyword is the one generated from that entry (the
user-typed URL if valid, else the URL), for the announced OSDD URL and with
that entry's favicon; when there is no such entry nothing is downloaded.  And
when the guards of the handler pass (the page is the active entry, the keyword
model is loaded, the profile has a fetcher and is not off the record, the base
entry yields a valid keyword URL and a non-empty keyword, and no record under
that keyword forbids it), the handler does schedule exactly that download. -/
theorem PageHasOSDD_base_entry (s : WebContents) (env : Services) (rvh : RenderViewHost)
    (page_id : Int) (url : GURL) (autodetected : Bool) :
    (∀ entry : NavigationEntry, s.controller_.GetLastCommittedEntry = some entry →
      ∀ j : Nat, s.osddBaseIndex = some j ↔
        (j ≤ s.controller_.last_committed_entry_index.toNat ∧
          (s.controller_.entries.get? j).map IsFormSubmit = some false ∧
          ∀ i, j < i → i ≤ s.controller_.last_committed_entry_index.toNat →
            (s.controller_.entries.get? i).map IsFormSubmit = some true)) ∧
    ((∀ i ∈ (osddBaseSearch s.controller_.entries
          s.controller_.last_committed_entry_index.toNat).1,
        i < s.controller_.last_committed_entry_index.toNat) ∧
      (osddBaseSearch s.controller_.entries
          s.controller_.last_committed_entry_index.toNat).1.length ≤
        s.controller_.last_committed_entry_index.toNat) ∧
    (∀ (keyword : String) (u f : GURL) (a : Bool),
      Effect.template_url_fetcher_ScheduleDownload keyword u f a ∈
          emittedSince s (s.PageHasOSDD env rvh page_id url autodetected) →
        ∃ (j : Nat) (base_entry : NavigationEntry),
          s.osddBaseIndex = some j ∧ s.controller_.entries.get? j = some base_entry ∧
          keyword = env.GenerateKeyword
            (if base_entry.user_typed_url.is_valid then base_entry.user_typed_url
             else base_entry.url) autodetected ∧
          u = url ∧ f = base_entry.favicon_url ∧ a = autodetected) ∧
    (s.osddBaseIndex = none →
      ∀ (keyword : String) (u f : GURL) (a : Bool),
        Effect.template_url_fetcher_ScheduleDownload keyword u f a ∉
          emittedSince s (s.PageHasOSDD env rvh page_id url autodetected)) ∧
    (∀ (url_model : TemplateURLModel) (j : Nat) (base_entry : NavigationEntry),
      s.IsActiveEntry page_id = true →
      s.template_url_model_ = some url_model → url_model.loaded = true →
      s.profile_.has_template_url_fetcher = true →
      s.profile_.is_off_the_record = false →
      s.osddBaseIndex = some j →
      s.controller_.entries.get? j = some base_entry →
      (if base_entry.user_typed_url.is_valid then base_entry.user_typed_url
        else base_entry.url).is_valid = true →
      (env.GenerateKeyword
        (if base_entry.user_typed_url.is_valid then base_entry.user_typed_url
         else base_entry.url) autodetected).isEmpty = false →
      (∀ template_url : TemplateURL,
        url_model.GetTemplateURLForKeyword
          (env.GenerateKeyword
            (if base_entry.user_typed_url.is_valid then base_entry.user_typed_url
             else base_entry.url) autodetected) = some template_url →
        template_url.safe_for_autoreplace = true ∧ template_url.originating_url ≠ url) →
      emittedSince s (s.PageHasOSDD env rvh page_id url autodetected) =
        [Effect.template_url_fetcher_ScheduleDownload
          (env.GenerateKeyword
            (if base_entry.user_typed_url.is_valid then base_entry.user_typed_url
             else base_entry.url) autodetected)
          url base_entry.favicon_url autodetected]) := by
  refine ⟨fun entry hent j => osddBaseIndex_some s entry hent j,
    osddBaseSearch_reads _ _,
    fun keyword u f a hmem => PageHasOSDD_download s env rvh page_id url autodetected
      keyword u f a hmem, ?_,
    fun url_model j base_entry h1 h2 h3 h4 h5 h6 h7 h8 h9 h10 =>
      PageHasOSDD_schedules s env rvh page_id url autodetected url_model j base_entry
        h1 h2 h3 h4 h5 h6 h7 h8 h9 h10⟩
  intro hnone keyword u f a hmem
  obtain ⟨j, _, hj, _⟩ := PageHasOSDD_download s env rvh page_id url autodetected
    keyword u f a hmem
  rw [hnone] at hj
  exact absurd hj (by simp)

/-- C19 at concrete inputs: in the history link, form submit, form submit the
base entry of the last one is entry 0, found after reading indices 1 and 0, and
the handler schedules the download of the OSDD under the keyword of entry 0,
`a.example`; in a history of form submits only, nothing is downloaded. -/
theorem PageHasOSDD_base_entry_witness :
    (exampleFormChainTab.osddBaseIndex = some 0 ↔
      (0 ≤ exampleFormChainTab.controller_.last_committed_entry_index.toNat ∧
        (exampleFormChainTab.controller_.entries.get? 0).map IsFormSubmit = some false ∧
        ∀ i, 0 < i → i ≤ exampleFormChainTab.controller_.last_committed_entry_index.toNat →
          (exampleFormChainTab.controller_.entries.get? i).map IsFormSubmit = some true)) ∧
    exampleFormChainTab.osddBaseIndex = some 0 ∧
    osddBaseSearch exampleFormChainTab.controller_.entries 2 = ([1, 0], some 0) ∧
    (∃ (j : Nat) (base_entry : NavigationEntry),
      exampleFormChainTab.osddBaseIndex = some j ∧
      exampleFormChainTab.controller_.entries.get? j = some base_entry ∧
      "a.example" = exampleSearchServices.GenerateKeyword
        (if base_entry.user_typed_url.is_valid then base_entry.user_typed_url
         else base_entry.url) true ∧
      exampleOtherURL = exampleOtherURL ∧ GURL.EmptyGURL = base_entry.favicon_url ∧
      true = true) ∧
    (∀ (keyword : String) (u f : GURL) (a : Bool),
      Effect.template_url_fetcher_ScheduleDownload keyword u f a ∉
        emittedSince exampleAllFormsTab
          (exampleAllFormsTab.PageHasOSDD exampleSearchServices 1 4 exampleOtherURL true)) ∧
    emittedSince exampleFormChainTab
        (exampleFormChainTab.PageHasOSDD exampleSearchServices 1 4 exampleOtherURL true) =
      [Effect.template_url_fetcher_ScheduleDownload "a.example" exampleOtherURL
        GURL.EmptyGURL true] :=
  ⟨(PageHasOSDD_base_entry exampleFormChainTab exampleSearchServices 1 4 exampleOtherURL
      true).1 exampleFormSubmitEntry (by decide) 0,
   by decide,
   by decide,
   (PageHasOSDD_base_entry exampleFormChainTab exampleSearchServices 1 4 exampleOtherURL
      true).2.2.1 "a.example" exampleOtherURL GURL.EmptyGURL true (by decide),
   (PageHasOSDD_base_entry exampleAllFormsTab exampleSearchServices 1 4 exampleOtherURL
      true).2.2.2.1 (by decide),
   (PageHasOSDD_base_entry exampleFormChainTab exampleSearchServices 1 4 exampleOtherURL
      true).2.2.2.2 { loaded := true, template_urls := [] } 0 (exampleCommittedEntry exampleURL)
      (by decide) rfl rfl rfl rfl (by decide) rfl (by decide) (by decide) (by decide)⟩

/-! ### Shortcut install -/

/-- C20 as stated fails: replies are matched by page id alone, so after two
requests on the same page (the second superseding the first) the first reply
to arrive, the one to the first request, still starts an install. -/
theorem CreateShortcut_superseded_counterexample :
    emittedSince exampleOnePageTab
      (exampleOnePageTab.run
        [(exampleServices, Op.CreateShortcut), (exampleServices, Op.CreateShortcut),
         (exampleServices, Op.OnDidGetApplicationInfo 3 0)]) =
      [Effect.render_view_host_GetApplicationInfo 3,
       Effect.render_view_host_GetApplicationInfo 3,
       Effect.GearsCreateShortcut 0 "https://a.example/x" exampleURL 5] := by
  decide

theorem GetURL_pending_install (s : WebContents) (p : PendingInstall) :
    ({ s with pending_install_ := p } : WebContents).GetURL = s.GetURL := rfl

/-- C20, amended: the install record is a single slot.  With a last committed
entry, `CreateShortcut` overwrites the record, whatever it held, with the
entry's page id, the tab's URL, icon and title (the URL string when the title
is empty) and no callback token; a token of the prior request is cancelled
first; and the request for the application info goes out for that page id.
Afterwards a reply for any other page id is ignored: it starts no install and
leaves the tab as it is.  Without a last committed entry the tab, and with it
the record, is unchanged. -/
theorem CreateShortcut_single_slot (s : WebContents) (env : Services) :
    (∀ entry : NavigationEntry, s.controller_.GetLastCommittedEntry = some entry →
      (s.CreateShortcut env).pending_install_ =
        { page_id := entry.page_id
          url := s.GetURL
          title := if (s.GetTitle env).isEmpty then s.GetURL.spec else s.GetTitle env
          icon := env.GetFavIcon
          callback_functor := none } ∧
      emittedSince s (s.CreateShortcut env) =
        (if s.pending_install_.callback_functor.isSome then [Effect.pending_install_Cancel]
         else []) ++ [Effect.render_view_host_GetApplicationInfo entry.page_id] ∧
      ∀ (page_id : Int) (info : Nat), page_id ≠ entry.page_id →
        (s.CreateShortcut env).OnDidGetApplicationInfo env page_id info =
          s.CreateShortcut env) ∧
    (s.controller_.GetLastCommittedEntry = none → s.CreateShortcut env = s) := by
  refine ⟨?_, ?_⟩
  · intro entry hent
    have hrec : (s.CreateShortcut env).pending_install_ =
        { page_id := entry.page_id
          url := s.GetURL
          title := if (s.GetTitle env).isEmpty then s.GetURL.spec else s.GetTitle env
          icon := env.GetFavIcon
          callback_functor := none } := by
      unfold WebContents.CreateShortcut
      rw [hent]
      cases hc : s.pending_install_.callback_functor <;>
        cases ht : (s.GetTitle env).isEmpty <;>
        simp [hc, ht, WebContents.emit, GetURL_pending_install, WebContents.GetURL]
    refine ⟨hrec, ?_, ?_⟩
    · unfold WebContents.CreateShortcut
      rw [hent]
      cases hc : s.pending_install_.callback_functor <;>
        cases ht : (s.GetTitle env).isEmpty <;>
        simp [hc, ht, WebContents.emit, emittedSince]
    · intro page_id info hne
      unfold WebContents.OnDidGetApplicationInfo
      rw [hrec]
      simp [Ne.symm hne]
  · intro hnone
    unfold WebContents.CreateShortcut
    rw [hnone]

/-- C20, amended, at concrete inputs: on the tab with one committed page 3 the
request fills the record and a reply for page 4 is ignored; on the fresh tab,
which has no committed entry, nothing changes. -/
theorem CreateShortcut_single_slot_witness :
    exampleOnePageTab.controller_.GetLastCommittedEntry =
      some (exampleCommittedEntry exampleURL) ∧
    (exampleOnePageTab.CreateShortcut exampleServices).pending_install_ =
      { page_id := 3, url := exampleURL, title := "https://a.example/x", icon := 5,
        callback_functor := none } ∧
    (exampleOnePageTab.CreateShortcut exampleServices).OnDidGetApplicationInfo
        exampleServices 4 0 = exampleOnePageTab.CreateShortcut exampleServices ∧
    exampleTab.CreateShortcut exampleServices = exampleTab :=
  ⟨by decide,
   by decide,
   ((CreateShortcut_single_slot exampleOnePageTab exampleServices).1
      (exampleCommittedEntry exampleURL) (by decide)).2.2 4 0 (by decide),
   (CreateShortcut_single_slot exampleTab exampleServices).2 (by decide)⟩

/-! ### The renderer manager under the operations of the tab -/

theorem rm_SetIsLoading (s : WebContents) (x : Bool) (d : Option LoadNotificationDetails) :
    (s.SetIsLoading x d).render_manager_ = s.render_manager_ := by
  unfold WebContents.SetIsLoading
  by_cases h : x = s.is_loading_
  · simp [h]
  · cases x <;> cases hd : s.delegate_ <;> simp_all [WebContents.emit]

theorem rm_UpdateTitleForEntry (s : WebContents) (env : Services) (entry : NavigationEntry)
    (title : String) :
    (s.UpdateTitleForEntry env entry title).2.2.render_manager_ = s.render_manager_ := by
  rw [UpdateTitleForEntry_eq]
  split
  · rfl
  · split <;> [split; skip] <;> simp [WebContents.emit]

theorem rm_RenderViewGone (s : WebContents) (env : Services) (rvh : RenderViewHost) :
    (s.RenderViewGone env rvh).render_manager_ = s.render_manager_ := by
  unfold WebContents.RenderViewGone
  repeat' split
  all_goals simp [WebContents.emit, WebContents.SetIsCrashed, WebContents.NotifyDisconnected,
    rm_SetIsLoading]
  split <;> simp [WebContents.emit, rm_SetIsLoading]

theorem rm_UpdateTitle (s : WebContents) (env : Services) (rvh : RenderViewHost) (page_id : Int)
    (title : String) :
    (s.UpdateTitle env rvh page_id title).render_manager_ = s.render_manager_ := by
  unfold WebContents.UpdateTitle
  simp only
  repeat' split
  · rfl
  · rfl
  · rfl
  · rename_i entry hget x e1 s2 heq hcond
    have := rm_UpdateTitleForEntry s.SetNotWaitingForResponse env entry title
    rw [heq] at this
    simp only at this
    simp [WebContents.NotifyNavigationStateChanged, WebContents.emit, WebContents.setEntry,
      this, WebContents.SetNotWaitingForResponse]
  · rename_i entry hget x e1 s2 heq hcond
    have := rm_UpdateTitleForEntry s.SetNotWaitingForResponse env entry title
    rw [heq] at this
    simp only at this
    simp [WebContents.setEntry, this, WebContents.SetNotWaitingForResponse]

theorem rm_step (s : WebContents) (env : Services) (op : Op)
    (h : op.touchesRenderManager = false) :
    (s.step env op).render_manager_ = s.render_manager_ := by
  cases op with
  | DidNavigate rvh params => simp [Op.touchesRenderManager] at h
  | NavigateToPendingEntry reload => simp [Op.touchesRenderManager] at h
  | render_manager_changed m => simp [Op.touchesRenderManager] at h
  | CreateRenderViewForRenderManager rvh => simp [Op.touchesRenderManager] at h
  | DidFailProvisionalLoadWithError rvh m e u r => simp [Op.touchesRenderManager] at h
  | SetIsLoading x d => exact rm_SetIsLoading s x d
  | DidStartLoading rvh p =>
    simp [WebContents.step, WebContents.DidStartLoading, rm_SetIsLoading]
  | DidStopLoading rvh p =>
    simp [WebContents.step, WebContents.DidStopLoading, rm_SetIsLoading, WebContents.emit]
  | RenderViewGone rvh => exact rm_RenderViewGone s env rvh
  | UpdateTitle rvh p t => exact rm_UpdateTitle s env rvh p t
  | _ =>
    simp only [WebContents.step, WebContents.LoadStateChanged, WebContents.RenderViewReady,
      WebContents.NotifySwapped, WebContents.UpdateState, WebContents.UpdateFeedList,
      WebContents.UpdateEncoding, WebContents.UpdateTargetURL, WebContents.UpdateFavIconURL,
      WebContents.Close, WebContents.DidStartProvisionalLoadForFrame,
      WebContents.OnJavaScriptMessageBoxClosed,
      WebContents.SetDownloadShelfVisible, WebContents.set_suppress_javascript_messages,
      WebContents.set_delegate, WebContents.UpdateThumbnail, WebContents.PageHasOSDD,
      WebContents.CreateShortcut, WebContents.OnDidGetApplicationInfo, RunJavaScriptMessage_eq,
      WebContents.Observe_PREF_CHANGED,
      WebContents.UpdateAlternateErrorPageURL, WebContents.UpdateWebPreferences,
      WebContents.OnFindReply, WebContents.RequestOpenURL]
    repeat' split
    all_goals simp [WebContents.emit, WebContents.setEntry, WebContents.SetIsCrashed,
      WebContents.NotifyConnected, WebContents.NotifyNavigationStateChanged,
      WebContents.SetNotWaitingForResponse, WebContents.set_encoding,
      WebContents.OnJavaScriptMessageBoxClosed]

theorem rm_DidNavigateMainFramePostCommit (s : WebContents) (env : Services)
    (details : LoadCommittedDetails) (params : FrameNavigateParams) :
    (s.DidNavigateMainFramePostCommit env details params).render_manager_ =
      s.render_manager_ := by
  have hstar : ∀ t : WebContents, (t.UpdateStarredStateForCurrentURL env).render_manager_ =
      t.render_manager_ := by
    intro t
    unfold WebContents.UpdateStarredStateForCurrentURL
    simp only
    split <;> simp [WebContents.emit]
  have hclose : ∀ (t : WebContents) (p c : GURL),
      (t.MaybeCloseChildWindows env p c).render_manager_ = t.render_manager_ := by
    intro t p c
    unfold WebContents.MaybeCloseChildWindows
    split
    · rfl
    · rw [closeChildWindowsBelow_spec]
  have hkey : ∀ t : WebContents, (t.GenerateKeywordIfNecessary env params).render_manager_ =
      t.render_manager_ := by
    intro t
    unfold WebContents.GenerateKeywordIfNecessary
    simp only
    repeat' split
    all_goals rfl
  have hshelf : ∀ t : WebContents, (t.SetDownloadShelfVisible env false).render_manager_ =
      t.render_manager_ := by
    intro t
    unfold WebContents.SetDownloadShelfVisible
    simp only
    repeat' split
    all_goals simp [WebContents.emit]
  have htarget : ∀ (t : WebContents) (p : Int) (u : GURL),
      (t.UpdateTargetURL p u).render_manager_ = t.render_manager_ := by
    intro t p u
    unfold WebContents.UpdateTargetURL
    split <;> rfl
  unfold WebContents.DidNavigateMainFramePostCommit
  simp only
  rw [hstar, hclose]
  simp only [WebContents.emit]
  rw [hkey]
  repeat' split
  all_goals simp [WebContents.emit, htarget, hshelf]

theorem rm_DidNavigateAnyFramePostCommit (s : WebContents) (env : Services)
    (rvh : RenderViewHost) (details : LoadCommittedDetails) (params : FrameNavigateParams) :
    (s.DidNavigateAnyFramePostCommit env rvh details params).render_manager_ =
      s.render_manager_ := by
  unfold WebContents.DidNavigateAnyFramePostCommit WebContents.UpdateHistoryForNavigation
  simp only
  repeat' split
  all_goals simp [WebContents.emit]

/-- What `DidNavigate` does to the renderer manager: the commit hook of the
manager, then `SetSite` on the current site instance when it has no site yet;
the post-commit tasks leave the manager alone. -/
theorem rm_DidNavigate (s : WebContents) (env : Services) (rvh : RenderViewHost)
    (params : FrameNavigateParams) :
    (s.DidNavigate env rvh params).render_manager_ =
      (if !(if PageTransition.IsMainFrame params.transition then
              s.render_manager_DidNavigateMainFrame rvh else s).GetSiteInstance.site.isSome then
        (if PageTransition.IsMainFrame params.transition then
              s.render_manager_DidNavigateMainFrame rvh else s).SetSite params.url
       else (if PageTransition.IsMainFrame params.transition then
              s.render_manager_DidNavigateMainFrame rvh else s)).render_manager_ := by
  unfold WebContents.DidNavigate
  simp only
  generalize (if PageTransition.IsMainFrame params.transition then
      s.render_manager_DidNavigateMainFrame rvh else s) = s1
  generalize (if !s1.GetSiteInstance.site.isSome then s1.SetSite params.url else s1) = s2
  cases hr : env.RendererDidNavigate
      (if PageTransition.IsMainFrame params.transition = true then
        ({ s2 with contents_mime_type_ := params.contents_mime_type } : WebContents)
       else s2).controller_ params with
  | none =>
    simp only
    split <;> rfl
  | some cd =>
    obtain ⟨c, d⟩ := cd
    simp only
    rw [rm_DidNavigateAnyFramePostCommit]
    split
    · rw [rm_DidNavigateMainFramePostCommit]
      split <;> rfl
    · split <;> rfl

/-! ### Page ids of a restored session -/

theorem UpdateMaxPageIDIfNecessary_eq (s : WebContents) (site_instance : SiteInstance)
    (rvh : RenderViewHost) :
    s.UpdateMaxPageIDIfNecessary site_instance rvh =
      if 0 < s.controller_.max_restored_page_id ∧
          site_instance.max_page_id < s.controller_.max_restored_page_id then
        ({ site_instance with max_page_id := s.controller_.max_restored_page_id },
          s.emit (Effect.render_view_host_ReservePageIDRange rvh
            (s.controller_.max_restored_page_id - max site_instance.max_page_id 0)))
      else (site_instance, s) := by
  unfold WebContents.UpdateMaxPageIDIfNecessary SiteInstance.UpdateMaxPageID
  simp only [gt_iff_lt]
  by_cases h1 : 0 < s.controller_.max_restored_page_id
  · by_cases h2 : site_instance.max_page_id < s.controller_.max_restored_page_id
    · simp only [h1, h2, and_self, if_true]
      by_cases h3 : site_instance.max_page_id < 0
      · have : max site_instance.max_page_id 0 = 0 := max_eq_right (le_of_lt h3)
        simp [h3, this]
      · have : max site_instance.max_page_id 0 = site_instance.max_page_id :=
          max_eq_left (not_lt.mp h3)
        simp [h3, this]
    · simp [h1, h2]
  · simp [h1]

theorem UpdateMaxPageIDIfNecessary_frame (s : WebContents) (site_instance : SiteInstance)
    (rvh : RenderViewHost) :
    (s.UpdateMaxPageIDIfNecessary site_instance rvh).2.render_manager_ = s.render_manager_ ∧
    (s.UpdateMaxPageIDIfNecessary site_instance rvh).1.id = site_instance.id ∧
    (s.UpdateMaxPageIDIfNecessary site_instance rvh).1.site = site_instance.site ∧
    site_instance.max_page_id ≤
      (s.UpdateMaxPageIDIfNecessary site_instance rvh).1.max_page_id ∧
    ((s.UpdateMaxPageIDIfNecessary site_instance rvh).1 = site_instance ∨
      site_instance.max_page_id <
        (s.UpdateMaxPageIDIfNecessary site_instance rvh).1.max_page_id) := by
  rw [UpdateMaxPageIDIfNecessary_eq]
  split
  · rename_i h
    exact ⟨rfl, rfl, rfl, le_of_lt h.2, Or.inr h.2⟩
  · exact ⟨rfl, rfl, rfl, le_refl _, Or.inl rfl⟩

/-- C21 as stated fails: for a session restored with the single page id 0 and a
site instance that has handed out no page id (`max_page_id = -1`) the restored
maximum is greater than the site instance's, yet the site instance is not
raised and nothing is reserved. -/
theorem UpdateMaxPageIDIfNecessary_counterexample :
    exampleRestoredZeroTab.controller_.max_restored_page_id >
      exampleEndpoint.site_instance.max_page_id ∧
    exampleRestoredZeroTab.UpdateMaxPageIDIfNecessary exampleEndpoint.site_instance 1 =
      (exampleEndpoint.site_instance, exampleRestoredZeroTab) := by
  decide

/-- C21, amended: whenever the controller's `max_restored_page_id` is positive and
greater than the site instance's `max_page_id`, `UpdateMaxPageIDIfNecessary`
raises the site instance's `max_page_id` to it and asks the endpoint to reserve
`max_restored_page_id - max(old max_page_id, 0)` page ids, a strictly positive
count; otherwise it changes nothing and reserves nothing.
`CreateRenderViewForRenderManager` does this for the site instance of the
endpoint as its last step, once the view has been created. -/
theorem UpdateMaxPageIDIfNecessary_spec (s : WebContents) (env : Services)
    (site_instance : SiteInstance) (rvh : RenderViewHost) (render_view_host : Endpoint) :
    s.UpdateMaxPageIDIfNecessary site_instance rvh =
      (if 0 < s.controller_.max_restored_page_id ∧
          site_instance.max_page_id < s.controller_.max_restored_page_id then
        ({ site_instance with max_page_id := s.controller_.max_restored_page_id },
          s.emit (Effect.render_view_host_ReservePageIDRange rvh
            (s.controller_.max_restored_page_id - max site_instance.max_page_id 0)))
      else (site_instance, s)) ∧
    (0 < s.controller_.max_restored_page_id ∧
        site_instance.max_page_id < s.controller_.max_restored_page_id →
      0 < s.controller_.max_restored_page_id - max site_instance.max_page_id 0) ∧
    (s.CreateRenderViewForRenderManager env render_view_host).1 =
      env.CreateRenderView render_view_host.host ∧
    (env.CreateRenderView render_view_host.host = true →
      (s.CreateRenderViewForRenderManager env render_view_host).2.1.site_instance =
        (s.UpdateMaxPageIDIfNecessary render_view_host.site_instance
          render_view_host.host).1 ∧
      emittedSince s (s.CreateRenderViewForRenderManager env render_view_host).2.2 =
        (if s.render_manager_.pending_dom_ui.isSome then
          [Effect.render_view_host_AllowDOMUIBindings render_view_host.host] else []) ++
        [Effect.view_CreateViewForWidget render_view_host.host,
          Effect.rwh_view_SetSize render_view_host.host] ++
        emittedSince s (s.UpdateMaxPageIDIfNecessary render_view_host.site_instance
          render_view_host.host).2) := by
  refine ⟨UpdateMaxPageIDIfNecessary_eq s site_instance rvh, ?_, ?_, ?_⟩
  · rintro ⟨h1, h2⟩
    have : max site_instance.max_page_id 0 < s.controller_.max_restored_page_id :=
      max_lt h2 h1
    omega
  · unfold WebContents.CreateRenderViewForRenderManager
    simp only
    cases env.CreateRenderView render_view_host.host <;> simp
  · intro hc
    unfold WebContents.CreateRenderViewForRenderManager
    simp only [hc, Bool.not_true, Bool.false_eq_true, if_false]
    rw [UpdateMaxPageIDIfNecessary_eq, UpdateMaxPageIDIfNecessary_eq]
    cases hd : s.render_manager_.pending_dom_ui.isSome <;>
      by_cases hcond : 0 < s.controller_.max_restored_page_id ∧
        render_view_host.site_instance.max_page_id < s.controller_.max_restored_page_id <;>
      simp [hd, hcond, WebContents.emit, emittedSince]

/-- C21, amended, at a concrete input: for the session restored with maximum 7
and a site instance at -1, the site instance goes to 7 and 7 page ids are
reserved on endpoint 1. -/
theorem UpdateMaxPageIDIfNecessary_spec_witness :
    (0 < exampleRestoredTab.controller_.max_restored_page_id ∧
      exampleEndpoint.site_instance.max_page_id <
        exampleRestoredTab.controller_.max_restored_page_id) ∧
    0 < exampleRestoredTab.controller_.max_restored_page_id -
      max exampleEndpoint.site_instance.max_page_id 0 ∧
    (exampleRestoredTab.CreateRenderViewForRenderManager exampleServices
        exampleEndpoint).2.1.site_instance.max_page_id = 7 ∧
    emittedSince exampleRestoredTab
        (exampleRestoredTab.CreateRenderViewForRenderManager exampleServices
          exampleEndpoint).2.2 =
      [Effect.view_CreateViewForWidget 1, Effect.rwh_view_SetSize 1,
        Effect.render_view_host_ReservePageIDRange 1 7] :=
  ⟨by decide,
   (UpdateMaxPageIDIfNecessary_spec exampleRestoredTab exampleServices
      exampleEndpoint.site_instance 1 exampleEndpoint).2.1 (by decide),
   by decide,
   by decide⟩

theorem maxPageIDNotLowered_refl (m : RenderViewHostManager) : m.maxPageIDNotLowered m :=
  fun e' he' => ⟨e', he', rfl, rfl, le_refl _⟩

theorem maxPageIDNotLowered_trans {a b c : RenderViewHostManager}
    (h1 : a.maxPageIDNotLowered b) (h2 : b.maxPageIDNotLowered c) :
    a.maxPageIDNotLowered c := by
  intro e3 he3
  obtain ⟨e2, he2, x1, x2, x3⟩ := h2 e3 he3
  obtain ⟨e1, he1, y1, y2, y3⟩ := h1 e2 he2
  exact ⟨e1, he1, y1.trans x1, y2.trans x2, le_trans y3 x3⟩

theorem rm_render_manager_DidNavigateMainFrame (s : WebContents) (rvh : RenderViewHost) :
    (s.render_manager_DidNavigateMainFrame rvh).render_manager_ =
      match s.render_manager_.pending_host with
      | some p =>
        if p.host == rvh then
          { s.render_manager_ with
            current_host := p
            pending_host := none
            renderer_state := RendererState.NORMAL }
        else s.render_manager_
      | none => s.render_manager_ := by
  unfold WebContents.render_manager_DidNavigateMainFrame
  cases s.render_manager_.pending_host with
  | none => rfl
  | some p =>
    simp only
    split
    · simp [WebContents.NotifySwapped, WebContents.emit]
    · rfl

theorem maxPageIDNotLowered_swap (m : RenderViewHostManager) (rvh : RenderViewHost) :
    m.maxPageIDNotLowered
      (match m.pending_host with
      | some p =>
        if p.host == rvh then
          { m with current_host := p, pending_host := none,
                   renderer_state := RendererState.NORMAL }
        else m
      | none => m) := by
  cases hp : m.pending_host with
  | none => exact maxPageIDNotLowered_refl m
  | some p =>
    simp only
    split
    · intro e' he'
      simp only [RenderViewHostManager.endpoints, Option.toList, List.mem_cons,
        List.mem_singleton, List.not_mem_nil, or_false] at he'
      subst he'
      exact ⟨e', by simp [RenderViewHostManager.endpoints, hp], rfl, rfl, le_refl _⟩
    · exact maxPageIDNotLowered_refl m

theorem maxPageIDNotLowered_abort (m : RenderViewHostManager) (rvh : RenderViewHost) :
    m.maxPageIDNotLowered (m.RendererAbortedProvisionalLoad rvh) := by
  unfold RenderViewHostManager.RendererAbortedProvisionalLoad
  cases hp : m.pending_host with
  | none => exact maxPageIDNotLowered_refl m
  | some p =>
    simp only
    split
    · intro e' he'
      simp only [RenderViewHostManager.endpoints, Option.toList, List.mem_cons,
        List.mem_singleton, List.not_mem_nil, or_false] at he'
      subst he'
      exact ⟨m.current_host, by simp [RenderViewHostManager.endpoints], rfl, rfl, le_refl _⟩
    · exact maxPageIDNotLowered_refl m

theorem maxPageIDNotLowered_current (m : RenderViewHostManager) (si : SiteInstance)
    (hid : si.id = m.current_host.site_instance.id)
    (hle : m.current_host.site_instance.max_page_id ≤ si.max_page_id) :
    m.maxPageIDNotLowered
      { m with current_host := { m.current_host with site_instance := si } } := by
  intro e' he'
  simp only [RenderViewHostManager.endpoints, List.mem_cons] at he'
  rcases he' with rfl | he'
  · exact ⟨m.current_host, by simp [RenderViewHostManager.endpoints], rfl, hid.symm, hle⟩
  · exact ⟨e', by simp [RenderViewHostManager.endpoints, he'], rfl, rfl, le_refl _⟩

theorem maxPageIDNotLowered_pending (m : RenderViewHostManager) (p : Endpoint)
    (si : SiteInstance) (hp : m.pending_host = some p)
    (hid : si.id = p.site_instance.id)
    (hle : p.site_instance.max_page_id ≤ si.max_page_id) :
    m.maxPageIDNotLowered
      { m with pending_host := some { p with site_instance := si } } := by
  intro e' he'
  simp only [RenderViewHostManager.endpoints, Option.toList, List.mem_cons,
    List.mem_singleton, List.not_mem_nil, or_false] at he'
  rcases he' with rfl | rfl
  · exact ⟨m.current_host, by simp [RenderViewHostManager.endpoints], rfl, rfl, le_refl _⟩
  · exact ⟨p, by simp [RenderViewHostManager.endpoints, hp], rfl, hid.symm, hle⟩

theorem CreateRenderViewForRenderManager_frame (s : WebContents) (env : Services)
    (e : Endpoint) :
    (s.CreateRenderViewForRenderManager env e).2.2.render_manager_ = s.render_manager_ ∧
    (s.CreateRenderViewForRenderManager env e).2.1.host = e.host ∧
    (s.CreateRenderViewForRenderManager env e).2.1.site_instance.id = e.site_instance.id ∧
    e.site_instance.max_page_id ≤
      (s.CreateRenderViewForRenderManager env e).2.1.site_instance.max_page_id := by
  unfold WebContents.CreateRenderViewForRenderManager
  simp only
  split
  · refine ⟨?_, rfl, rfl, le_refl _⟩
    split <;> rfl
  · simp only
    obtain ⟨h1, h2, _, h4, _⟩ := UpdateMaxPageIDIfNecessary_frame
      ((if s.render_manager_.pending_dom_ui.isSome = true then
          s.emit (Effect.render_view_host_AllowDOMUIBindings e.host) else s).emit
        (Effect.view_CreateViewForWidget e.host) |>.emit (Effect.rwh_view_SetSize e.host))
      e.site_instance e.host
    refine ⟨?_, trivial, h2, h4⟩
    rw [h1]
    split <;> rfl

theorem maxPageIDNotLowered_CreateRenderViewFor (s : WebContents) (env : Services)
    (rvh : RenderViewHost) :
    s.render_manager_.maxPageIDNotLowered (s.CreateRenderViewFor env rvh).render_manager_ := by
  have hcur : s.render_manager_.maxPageIDNotLowered
      { (s.CreateRenderViewForRenderManager env
            s.render_manager_.current_host).2.2.render_manager_ with
        current_host :=
          (s.CreateRenderViewForRenderManager env s.render_manager_.current_host).2.1 } := by
    obtain ⟨h1, h2, h3, h4⟩ :=
      CreateRenderViewForRenderManager_frame s env s.render_manager_.current_host
    rw [h1]
    intro e' he'
    simp only [RenderViewHostManager.endpoints, List.mem_cons] at he'
    rcases he' with rfl | he'
    · exact ⟨s.render_manager_.current_host, by simp [RenderViewHostManager.endpoints],
        h2.symm, h3.symm, h4⟩
    · exact ⟨e', by simp [RenderViewHostManager.endpoints, he'], rfl, rfl, le_refl _⟩
  unfold WebContents.CreateRenderViewFor
  cases hp : s.render_manager_.pending_host with
  | none =>
    simp only
    split
    · exact hcur
    · exact maxPageIDNotLowered_refl _
  | some p =>
    simp only
    split
    · obtain ⟨h1, h2, h3, h4⟩ := CreateRenderViewForRenderManager_frame s env p
      rw [h1]
      intro e' he'
      simp only [RenderViewHostManager.endpoints, Option.toList, List.mem_cons,
        List.mem_singleton, List.not_mem_nil, or_false] at he'
      rcases he' with rfl | rfl
      · exact ⟨s.render_manager_.current_host, by simp [RenderViewHostManager.endpoints],
          rfl, rfl, le_refl _⟩
      · exact ⟨p, by simp [RenderViewHostManager.endpoints, hp], h2.symm, h3.symm, h4⟩
    · split
      · exact hcur
      · exact maxPageIDNotLowered_refl _

theorem maxPageIDNotLowered_DidNavigate (s : WebContents) (env : Services)
    (rvh : RenderViewHost) (params : FrameNavigateParams) :
    s.render_manager_.maxPageIDNotLowered (s.DidNavigate env rvh params).render_manager_ := by
  rw [rm_DidNavigate]
  have h1 : s.render_manager_.maxPageIDNotLowered
      (if PageTransition.IsMainFrame params.transition then
        s.render_manager_DidNavigateMainFrame rvh else s).render_manager_ := by
    split
    · rw [rm_render_manager_DidNavigateMainFrame]
      exact maxPageIDNotLowered_swap _ rvh
    · exact maxPageIDNotLowered_refl _
  generalize (if PageTransition.IsMainFrame params.transition then
      s.render_manager_DidNavigateMainFrame rvh else s) = s1 at h1 ⊢
  split
  · exact maxPageIDNotLowered_trans h1
      (maxPageIDNotLowered_current s1.render_manager_ _ rfl (le_refl _))
  · exact h1

theorem maxPageIDNotLowered_DidFailProvisionalLoadWithError (s : WebContents) (env : Services)
    (rvh : RenderViewHost) (is_main_frame : Bool) (error_code : Int) (url : GURL)
    (repost : Bool) :
    s.render_manager_.maxPageIDNotLowered
      (s.DidFailProvisionalLoadWithError env rvh is_main_frame error_code url
        repost).render_manager_ := by
  unfold WebContents.DidFailProvisionalLoadWithError
  simp only
  repeat' split
  all_goals first
    | exact maxPageIDNotLowered_refl _
    | exact maxPageIDNotLowered_abort _ rvh

theorem maxPageIDNotLowered_step (s : WebContents) (env : Services) (op : Op)
    (h : op.replacesRenderManager = false) :
    s.render_manager_.maxPageIDNotLowered (s.step env op).render_manager_ := by
  by_cases ht : op.touchesRenderManager = false
  · rw [rm_step s env op ht]
    exact maxPageIDNotLowered_refl _
  · cases op with
    | DidNavigate rvh params => exact maxPageIDNotLowered_DidNavigate s env rvh params
    | DidFailProvisionalLoadWithError rvh m e u r =>
      exact maxPageIDNotLowered_DidFailProvisionalLoadWithError s env rvh m e u r
    | CreateRenderViewForRenderManager rvh =>
      exact maxPageIDNotLowered_CreateRenderViewFor s env rvh
    | render_manager_changed m => simp [Op.replacesRenderManager] at h
    | NavigateToPendingEntry reload => simp [Op.replacesRenderManager] at h
    | _ => simp [Op.touchesRenderManager] at ht

theorem maxPageIDNotLowered_run (history : List (Services × Op)) :
    ∀ s : WebContents, (∀ x ∈ history, x.2.replacesRenderManager = false) →
      s.render_manager_.maxPageIDNotLowered (s.run history).render_manager_ := by
  induction history with
  | nil => intro s _; exact maxPageIDNotLowered_refl _
  | cons x rest ih =>
    intro s h
    obtain ⟨env, op⟩ := x
    exact maxPageIDNotLowered_trans
      (maxPageIDNotLowered_step s env op (h (env, op) (List.mem_cons_self _ _)))
      (ih (s.step env op) (fun y hy => h y (List.mem_cons_of_mem _ hy)))

/-- C22: over every sequence of operations of the tab (those in which code
outside the tab replaces the renderer manager set aside), no site instance has
its `max_page_id` lowered: every endpoint the manager holds at the end was held
at the start, for the same site instance, with a `max_page_id` that was not
larger.  The one write the tab makes, in `UpdateMaxPageIDIfNecessary`, either
leaves the site instance as it was or stores a value strictly greater than the
one it read. -/
theorem max_page_id_never_decreases (s : WebContents) (history : List (Services × Op))
    (h : ∀ x ∈ history, x.2.replacesRenderManager = false) :
    s.render_manager_.maxPageIDNotLowered (s.run history).render_manager_ ∧
    (∀ (t : WebContents) (site_instance : SiteInstance) (rvh : RenderViewHost),
      site_instance.max_page_id ≤
        (t.UpdateMaxPageIDIfNecessary site_instance rvh).1.max_page_id ∧
      ((t.UpdateMaxPageIDIfNecessary site_instance rvh).1 = site_instance ∨
        site_instance.max_page_id <
          (t.UpdateMaxPageIDIfNecessary site_instance rvh).1.max_page_id)) :=
  ⟨maxPageIDNotLowered_run history s h,
   fun t site_instance rvh =>
    ⟨(UpdateMaxPageIDIfNecessary_frame t site_instance rvh).2.2.2.1,
     (UpdateMaxPageIDIfNecessary_frame t site_instance rvh).2.2.2.2⟩⟩

/-- C22 at a concrete input: creating the view of the restored tab raises the
`max_page_id` of its site instance from -1 to 7. -/
theorem max_page_id_never_decreases_witness :
    (∀ x ∈ exampleCreateViewHistory, x.2.replacesRenderManager = false) ∧
    exampleRestoredTab.render_manager_.maxPageIDNotLowered
      (exampleRestoredTab.run exampleCreateViewHistory).render_manager_ ∧
    exampleRestoredTab.render_manager_.current_host.site_instance.max_page_id = -1 ∧
    (exampleRestoredTab.run
      exampleCreateViewHistory).render_manager_.current_host.site_instance.max_page_id = 7 :=
  ⟨by decide,
   (max_page_id_never_decreases exampleRestoredTab exampleCreateViewHistory (by decide)).1,
   by decide, by decide⟩

/-! ### Preferences -/

/-- C23 as stated fails for the first name of the observed set: a change of
alternate-error-pages makes the tab push the alternate error page URL to the
current endpoint; the snapshot of the web preferences is not rebuilt. -/
theorem Observe_PREF_CHANGED_counterexample :
    exampleServices.prefs.kAlternateErrorPagesEnabled ∈ kPrefsToObserve exampleServices.prefs ∧
    emittedSince exampleTab
        (exampleTab.Observe_PREF_CHANGED exampleServices
          exampleServices.prefs.kAlternateErrorPagesEnabled) =
      [Effect.render_view_host_SetAlternateErrorPageURL 1 linkDoctorBaseURL] := by
  decide

/-- C23, amended: given that every observed name other than alternate-error-pages
and default charset begins with `webkit.webprefs.` (the names themselves are
declared outside the source at hand), a `PREF_CHANGED` for alternate-error-pages
pushes the alternate error page URL to the current endpoint
(`UpdateAlternateErrorPageURL`), a `PREF_CHANGED` for any other observed name
rebuilds the snapshot of the web preferences and pushes it to the current
endpoint (`UpdateWebPreferences`), and none reaches the branch of the
unexpected preference. -/
theorem Observe_PREF_CHANGED_observed (s : WebContents) (env : Services)
    (hweb : ∀ name ∈ kPrefsToObserve env.prefs,
      name ≠ env.prefs.kAlternateErrorPagesEnabled → name ≠ env.prefs.kDefaultCharset →
      StartsWithASCII name "webkit.webprefs." true = true)
    (pref_name_in : String) (hobs : pref_name_in ∈ kPrefsToObserve env.prefs) :
    emittedSince s (s.Observe_PREF_CHANGED env pref_name_in) =
      (if pref_name_in = env.prefs.kAlternateErrorPagesEnabled then
        [Effect.render_view_host_SetAlternateErrorPageURL s.render_view_host
          (s.GetAlternateErrorPageURL env)]
       else
        [Effect.render_view_host_UpdateWebPreferences s.render_view_host
          env.GetWebkitPrefs]) ∧
    s.Observe_PREF_CHANGED env pref_name_in =
      (if pref_name_in = env.prefs.kAlternateErrorPagesEnabled then
        s.UpdateAlternateErrorPageURL env
       else s.UpdateWebPreferences env) ∧
    ∀ message : String,
      Effect.NOTREACHED message ∉ emittedSince s (s.Observe_PREF_CHANGED env pref_name_in) := by
  have hres : s.Observe_PREF_CHANGED env pref_name_in =
      (if pref_name_in = env.prefs.kAlternateErrorPagesEnabled then
        s.UpdateAlternateErrorPageURL env
       else s.UpdateWebPreferences env) := by
    unfold WebContents.Observe_PREF_CHANGED
    by_cases h1 : pref_name_in = env.prefs.kAlternateErrorPagesEnabled
    · simp [h1]
    · by_cases h2 : pref_name_in = env.prefs.kDefaultCharset
      · simp [h1, h2]
      · simp [h1, h2, hweb pref_name_in hobs h1 h2]
  rw [hres]
  by_cases h1 : pref_name_in = env.prefs.kAlternateErrorPagesEnabled
  · simp [h1, WebContents.UpdateAlternateErrorPageURL, WebContents.emit, emittedSince]
  · simp [h1, WebContents.UpdateWebPreferences, WebContents.emit, emittedSince]

/-- C23, amended, with the names as the browser declares them: twelve names, ten
of them under `webkit.webprefs.`; a change of the JavaScript preference pushes
the snapshot to endpoint 1. -/
theorem Observe_PREF_CHANGED_observed_witness :
    (∀ name ∈ kPrefsToObserve exampleServices.prefs,
      name ≠ exampleServices.prefs.kAlternateErrorPagesEnabled →
      name ≠ exampleServices.prefs.kDefaultCharset →
      StartsWithASCII name "webkit.webprefs." true = true) ∧
    "webkit.webprefs.javascript_enabled" ∈ kPrefsToObserve exampleServices.prefs ∧
    emittedSince exampleTab
        (exampleTab.Observe_PREF_CHANGED exampleServices
          "webkit.webprefs.javascript_enabled") =
      [Effect.render_view_host_UpdateWebPreferences 1 9] :=
  ⟨by decide, by decide,
   (Observe_PREF_CHANGED_observed exampleTab exampleServices (by decide)
      "webkit.webprefs.javascript_enabled" (by decide)).1⟩

/-! ### The renderer manager -/

theorem wellFormed_iff (m : RenderViewHostManager) :
    m.wellFormed = true ↔
      ((m.renderer_state = RendererState.PENDING → m.pending_host.isSome = true) ∧
       (m.renderer_state = RendererState.NORMAL → m.pending_host = none)) := by
  unfold RenderViewHostManager.wellFormed
  cases m.renderer_state <;> cases m.pending_host <;> simp

theorem wellFormed_DidNavigateMainFrame (m : RenderViewHostManager) (rvh : RenderViewHost)
    (h : m.wellFormed = true) : (m.DidNavigateMainFrame rvh).wellFormed = true := by
  unfold RenderViewHostManager.DidNavigateMainFrame
  cases hp : m.pending_host with
  | none => exact h
  | some p =>
    simp only
    split
    · simp [RenderViewHostManager.wellFormed]
    · exact h

theorem wellFormed_RendererAbortedProvisionalLoad (m : RenderViewHostManager)
    (rvh : RenderViewHost) (h : m.wellFormed = true) :
    (m.RendererAbortedProvisionalLoad rvh).wellFormed = true := by
  unfold RenderViewHostManager.RendererAbortedProvisionalLoad
  cases hp : m.pending_host with
  | none => exact h
  | some p =>
    simp only
    split
    · simp [RenderViewHostManager.wellFormed]
    · exact h

theorem wellFormed_handle (m : RenderViewHostManager) (ev : ManagerEvent)
    (h : m.wellFormed = true) : (m.handle ev).wellFormed = true := by
  cases ev with
  | navigate_same_site => exact h
  | navigate_cross_site pending =>
    simp only [RenderViewHostManager.handle]
    cases hs : m.renderer_state
    · simp [RenderViewHostManager.wellFormed]
    · exact h
  | beforeunload proceed =>
    simp only [RenderViewHostManager.handle]
    cases hs : m.renderer_state
    · exact h
    · cases proceed
      · simp [RenderViewHostManager.wellFormed]
      · exact h
  | cross_site_response_ready => exact h
  | download_detected => exact h
  | did_navigate_main_frame rvh => exact wellFormed_DidNavigateMainFrame m rvh h
  | renderer_aborted_provisional_load rvh =>
    exact wellFormed_RendererAbortedProvisionalLoad m rvh h

theorem wellFormed_handleAll (events : List ManagerEvent) :
    ∀ m : RenderViewHostManager, m.wellFormed = true → (m.handleAll events).wellFormed = true := by
  induction events with
  | nil => intro m h; exact h
  | cons ev rest ih => intro m h; exact ih _ (wellFormed_handle m ev h)

theorem wellFormed_current (m : RenderViewHostManager) (e : Endpoint) :
    ({ m with current_host := e } : RenderViewHostManager).wellFormed = m.wellFormed := rfl

theorem wellFormed_step (s : WebContents) (env : Services) (op : Op)
    (h : s.render_manager_.wellFormed = true)
    (ho : s.managerHandedOverWellFormed env op = true) :
    (s.step env op).render_manager_.wellFormed = true := by
  by_cases ht : op.touchesRenderManager = false
  · rw [rm_step s env op ht]
    exact h
  · cases op with
    | DidNavigate rvh params =>
      simp only [WebContents.step]
      rw [rm_DidNavigate]
      have h1 : (if PageTransition.IsMainFrame params.transition then
          s.render_manager_DidNavigateMainFrame rvh else s).render_manager_.wellFormed = true := by
        split
        · rw [rm_render_manager_DidNavigateMainFrame]
          exact wellFormed_DidNavigateMainFrame s.render_manager_ rvh h
        · exact h
      generalize (if PageTransition.IsMainFrame params.transition then
          s.render_manager_DidNavigateMainFrame rvh else s) = s1 at h1 ⊢
      split
      · exact h1
      · exact h1
    | DidFailProvisionalLoadWithError rvh m e u r =>
      simp only [WebContents.step, WebContents.DidFailProvisionalLoadWithError]
      repeat' split
      all_goals first
        | exact h
        | exact wellFormed_RendererAbortedProvisionalLoad _ rvh h
    | CreateRenderViewForRenderManager rvh =>
      simp only [WebContents.step, WebContents.CreateRenderViewFor]
      cases hp : s.render_manager_.pending_host with
      | none =>
        simp only
        split
        · rw [(CreateRenderViewForRenderManager_frame s env _).1]
          exact h
        · exact h
      | some p =>
        simp only
        split
        · rw [(CreateRenderViewForRenderManager_frame s env _).1]
          simpa [RenderViewHostManager.wellFormed, hp] using h
        · split
          · rw [(CreateRenderViewForRenderManager_frame s env _).1]
            exact h
          · exact h
    | render_manager_changed m => exact ho
    | NavigateToPendingEntry reload =>
      simp only [WebContents.step]
      simp only [WebContents.managerHandedOverWellFormed] at ho
      cases hp : s.controller_.pending_entry with
      | none => simpa [WebContents.NavigateToPendingEntry, hp] using h
      | some entry =>
        cases hn : env.render_manager_Navigate s.render_manager_ entry with
        | none => simpa [WebContents.NavigateToPendingEntry, hp, hn] using h
        | some r =>
          obtain ⟨m, dest⟩ := r
          simp only [hp, hn] at ho
          cases hd : env.devtools_manager <;>
            cases hj : (entry.page_id == -1 && entry.url.SchemeIs kJavaScriptScheme) <;>
            cases hr : (reload && !s.profile_.is_off_the_record) <;>
            cases hh : s.profile_.has_history_service <;>
            simp [WebContents.NavigateToPendingEntry, hp, hn, hd, hj, hr, hh,
              WebContents.emit, ho]
    | _ => simp [Op.touchesRenderManager] at ht

theorem wellFormed_run (history : List (Services × Op)) :
    ∀ s : WebContents, s.render_manager_.wellFormed = true →
      s.managersHandedOverWellFormed history = true →
      (s.run history).render_manager_.wellFormed = true := by
  induction history with
  | nil => intro s h _; exact h
  | cons x rest ih =>
    intro s h ho
    obtain ⟨env, op⟩ := x
    simp only [WebContents.managersHandedOverWellFormed, Bool.and_eq_true] at ho
    exact ih (s.step env op) (wellFormed_step s env op h ho.1) ho.2

/-- C24: in every state the renderer manager reaches from its initial one by the
events of its state machine, and in every state of the manager inside a tab
run from a fresh tab (the managers that code outside the tab hands over
keeping the invariant), PENDING implies that a pending endpoint exists, NORMAL
implies that there is none, and there is at most one pending endpoint. -/
theorem renderer_manager_invariant (profile : Profile) (endpoint : Endpoint)
    (url_model : Option TemplateURLModel) (events : List ManagerEvent)
    (history : List (Services × Op))
    (ho : (WebContents.fresh profile endpoint url_model).managersHandedOverWellFormed
      history = true) :
    ((((WebContents.fresh profile endpoint url_model).render_manager_.handleAll
          events).renderer_state = RendererState.PENDING →
        ((WebContents.fresh profile endpoint url_model).render_manager_.handleAll
          events).pending_host.isSome = true) ∧
      (((WebContents.fresh profile endpoint url_model).render_manager_.handleAll
          events).renderer_state = RendererState.NORMAL →
        ((WebContents.fresh profile endpoint url_model).render_manager_.handleAll
          events).pending_host = none) ∧
      ((WebContents.fresh profile endpoint url_model).render_manager_.handleAll
          events).pendingCount ≤ 1) ∧
    ((((WebContents.fresh profile endpoint url_model).run
          history).render_manager_.renderer_state = RendererState.PENDING →
        ((WebContents.fresh profile endpoint url_model).run
          history).render_manager_.pending_host.isSome = true) ∧
      (((WebContents.fresh profile endpoint url_model).run
          history).render_manager_.renderer_state = RendererState.NORMAL →
        ((WebContents.fresh profile endpoint url_model).run
          history).render_manager_.pending_host = none) ∧
      ((WebContents.fresh profile endpoint url_model).run
          history).render_manager_.pendingCount ≤ 1) := by
  have h0 : (WebContents.fresh profile endpoint url_model).render_manager_.wellFormed = true :=
    rfl
  have hcount : ∀ m : RenderViewHostManager, m.pendingCount ≤ 1 := by
    intro m
    unfold RenderViewHostManager.pendingCount
    cases m.pending_host <;> simp
  have h1 := (wellFormed_iff _).mp (wellFormed_handleAll events _ h0)
  have h2 := (wellFormed_iff _).mp (wellFormed_run history _ h0 ho)
  exact ⟨⟨h1.1, h1.2, hcount _⟩, ⟨h2.1, h2.2, hcount _⟩⟩

/-- C24 at a concrete input, the happy path of a cross-site navigation: while
the pending endpoint 2 stands the manager is PENDING, and after its commit the
manager is NORMAL with endpoint 2 current and no pending endpoint. -/
theorem renderer_manager_invariant_witness :
    exampleTab.managersHandedOverWellFormed exampleCrossSiteHistory = true ∧
    ((exampleTab.run exampleCrossSiteHistory).render_manager_.renderer_state =
        RendererState.NORMAL →
      (exampleTab.run exampleCrossSiteHistory).render_manager_.pending_host = none) ∧
    (exampleTab.run exampleCrossSiteHistory).render_manager_.renderer_state =
      RendererState.NORMAL ∧
    (exampleTab.run exampleCrossSiteHistory).render_manager_.current_host.host = 2 ∧
    (exampleTab.run (exampleCrossSiteHistory.take 1)).render_manager_.renderer_state =
      RendererState.PENDING ∧
    (exampleTab.render_manager_.handleAll exampleCrossSiteEvents).renderer_state =
      RendererState.NORMAL :=
  ⟨by decide,
   (renderer_manager_invariant exampleProfile exampleEndpoint none exampleCrossSiteEvents
      exampleCrossSiteHistory (by decide)).2.2.1,
   by decide, by decide, by decide, by decide⟩

/-! ### Child windows that leave the list while it is walked -/

theorem take_erase_at {α : Type} [BEq α] [LawfulBEq α] (ws : List α) (n : Nat) (a : α)
    (h : ws.get? n = some a) :
    (ws.erase a).take n = (ws.take (n + 1)).erase a ∧ a ∈ ws.take (n + 1) ∧
      (ws.erase a).length + 1 = ws.length := by
  have hlt : n < ws.length := by
    rw [List.get?_eq_getElem?] at h
    exact (List.getElem?_eq_some_iff.mp h).1
  have hmem : a ∈ ws.take (n + 1) := by
    rw [List.take_succ, List.get?_eq_getElem?] at *
    simp [h]
  have hmem' : a ∈ ws := List.mem_of_mem_take hmem
  have hsplit : ws = ws.take (n + 1) ++ ws.drop (n + 1) := (List.take_append_drop _ _).symm
  have hlen : ((ws.take (n + 1)).erase a).length = n := by
    rw [List.length_erase_of_mem hmem, List.length_take]
    omega
  refine ⟨?_, hmem, ?_⟩
  · conv_lhs => rw [hsplit]
    rw [List.erase_append_left _ hmem]
    rw [List.take_left' hlen]
  · rw [List.length_erase_of_mem hmem']
    omega

theorem perm_cons_erase_lawful {α : Type} [BEq α] [LawfulBEq α] {a : α} {l : List α}
    (h : a ∈ l) : l.Perm (a :: l.erase a) := by
  induction l with
  | nil => simp at h
  | cons b l ih =>
    by_cases hb : b = a
    · subst hb
      simp
    · have hmem : a ∈ l := by
        rcases List.mem_cons.mp h with h1 | h1
        · exact absurd h1.symm hb
        · exact h1
      have hne : (b == a) = false := by simpa using hb
      rw [List.erase_cons_tail (by simp [hne])]
      exact (List.Perm.cons b (ih hmem)).trans (List.Perm.swap _ _ _)

theorem closeChildWindowsBelowReentrant_perm (removes : ConstrainedWindow → Bool) (n : Nat) :
    ∀ s : WebContents, n ≤ s.child_windows_.length →
      ∃ (t : WebContents) (closed : List ConstrainedWindow),
        s.closeChildWindowsBelowReentrant removes n = some t ∧
        t.effects = s.effects ++ closed.map Effect.CloseConstrainedWindow ∧
        closed.Perm ((s.child_windows_.take n).filterMap id) := by
  induction n with
  | zero =>
    intro s _
    exact ⟨s, [], rfl, by simp, by simp⟩
  | succ n ih =>
    intro s hn
    have hlt : n < s.child_windows_.length := hn
    obtain ⟨x, hx⟩ : ∃ x, s.child_windows_.get? n = some x :=
      ⟨s.child_windows_.get ⟨n, hlt⟩, List.get?_eq_get hlt⟩
    have htake : s.child_windows_.take (n + 1) = s.child_windows_.take n ++ [x] := by
      rw [List.take_succ, ← List.get?_eq_getElem?, hx]
      rfl
    unfold WebContents.closeChildWindowsBelowReentrant
    simp only [hx]
    cases x with
    | none =>
      obtain ⟨t, closed, h1, h2, h3⟩ := ih s (Nat.le_of_lt hlt)
      refine ⟨t, closed, h1, h2, ?_⟩
      rw [htake, List.filterMap_append]
      simpa using h3
    | some w =>
      cases hr : removes w
      · simp only [hr, Bool.false_eq_true, if_false]
        obtain ⟨t, closed, h1, h2, h3⟩ :=
          ih (s.emit (Effect.CloseConstrainedWindow w)) (Nat.le_of_lt hlt)
        refine ⟨t, w :: closed, h1, ?_, ?_⟩
        · rw [h2]
          simp [WebContents.emit]
        · rw [htake, List.filterMap_append]
          have h4 : (w :: closed).Perm
              (w :: (s.child_windows_.take n).filterMap id) := List.Perm.cons w h3
          exact h4.trans (List.perm_append_singleton w _).symm
      · simp only [hr, if_true]
        obtain ⟨e1, e2, e3⟩ := take_erase_at s.child_windows_ n (some w) hx
        obtain ⟨t, closed, h1, h2, h3⟩ :=
          ih ({ s.emit (Effect.CloseConstrainedWindow w) with
                child_windows_ :=
                  (s.emit (Effect.CloseConstrainedWindow w)).child_windows_.erase (some w) } :
              WebContents)
            (by
              show n ≤ (s.child_windows_.erase (some w)).length
              omega)
        refine ⟨t, w :: closed, h1, ?_, ?_⟩
        · rw [h2]
          simp [WebContents.emit]
        · have h5 : closed.Perm
              (((s.child_windows_.take (n + 1)).erase (some w)).filterMap id) := by
            rw [← e1]
            exact h3
          have h6 : ((s.child_windows_.take (n + 1)).filterMap id).Perm
              (w :: ((s.child_windows_.take (n + 1)).erase (some w)).filterMap id) := by
            have := (perm_cons_erase_lawful e2).filterMap id
            simpa using this
          exact (List.Perm.cons w h5).trans h6.symm

theorem closeChildWindowsBelowReentrant_order (removes : ConstrainedWindow → Bool) (n : Nat) :
    ∀ s : WebContents, n ≤ s.child_windows_.length →
      ((s.child_windows_.take n).filterMap id).Nodup →
      ∃ t : WebContents,
        s.closeChildWindowsBelowReentrant removes n = some t ∧
        t.effects = s.effects ++ closeRequests (s.child_windows_.take n) := by
  induction n with
  | zero =>
    intro s _ _
    exact ⟨s, rfl, by simp [closeRequests]⟩
  | succ n ih =>
    intro s hn hnd
    have hlt : n < s.child_windows_.length := hn
    obtain ⟨x, hx⟩ : ∃ x, s.child_windows_.get? n = some x :=
      ⟨s.child_windows_.get ⟨n, hlt⟩, List.get?_eq_get hlt⟩
    have htake : s.child_windows_.take (n + 1) = s.child_windows_.take n ++ [x] := by
      rw [List.take_succ, ← List.get?_eq_getElem?, hx]
      rfl
    have hnd' : ((s.child_windows_.take n).filterMap id).Nodup := by
      rw [htake, List.filterMap_append] at hnd
      exact (List.nodup_append.mp hnd).1
    unfold WebContents.closeChildWindowsBelowReentrant
    simp only [hx]
    rw [closeRequests_take_succ, hx]
    cases x with
    | none =>
      obtain ⟨t, h1, h2⟩ := ih s (Nat.le_of_lt hlt) hnd'
      exact ⟨t, h1, by simpa using h2⟩
    | some w =>
      cases hr : removes w
      · simp only [hr, Bool.false_eq_true, if_false]
        obtain ⟨t, h1, h2⟩ :=
          ih (s.emit (Effect.CloseConstrainedWindow w)) (Nat.le_of_lt hlt) hnd'
        refine ⟨t, h1, ?_⟩
        rw [h2]
        simp [WebContents.emit]
      · simp only [hr, if_true]
        obtain ⟨e1, e2, e3⟩ := take_erase_at s.child_windows_ n (some w) hx
        have hnot : some w ∉ s.child_windows_.take n := by
          intro hmem
          rw [htake, List.filterMap_append] at hnd
          have hdis := (List.nodup_append.mp hnd).2.2
          have h1 : w ∈ (s.child_windows_.take n).filterMap id := by
            rw [List.mem_filterMap]
            exact ⟨some w, hmem, rfl⟩
          exact hdis h1 (by simp)
        have hsame : (s.child_windows_.erase (some w)).take n = s.child_windows_.take n := by
          rw [e1, htake, List.erase_append_right _ hnot]
          simp
        obtain ⟨t, h1, h2⟩ :=
          ih ({ s.emit (Effect.CloseConstrainedWindow w) with
                child_windows_ :=
                  (s.emit (Effect.CloseConstrainedWindow w)).child_windows_.erase (some w) } :
              WebContents)
            (by
              show n ≤ (s.child_windows_.erase (some w)).length
              omega)
            (by
              show (((s.child_windows_.erase (some w)).take n).filterMap id).Nodup
              rw [hsame]
              exact hnd')
        refine ⟨t, h1, ?_⟩
        rw [h2]
        show s.effects ++ [Effect.CloseConstrainedWindow w] ++
            closeRequests ((s.child_windows_.erase (some w)).take n) = _
        rw [hsame]
        simp

theorem closeChildWindowsBelowReentrant_never (n : Nat) :
    ∀ s : WebContents, n ≤ s.child_windows_.length →
      s.closeChildWindowsBelowReentrant (fun _ => false) n =
        some (s.closeChildWindowsBelow n) := by
  induction n with
  | zero => intro s _; rfl
  | succ n ih =>
    intro s hn
    have hlt : n < s.child_windows_.length := hn
    obtain ⟨x, hx⟩ : ∃ x, s.child_windows_.get? n = some x :=
      ⟨s.child_windows_.get ⟨n, hlt⟩, List.get?_eq_get hlt⟩
    unfold WebContents.closeChildWindowsBelowReentrant WebContents.closeChildWindowsBelow
    simp only [hx]
    cases x with
    | none => exact ih s (Nat.le_of_lt hlt)
    | some w =>
      simp only [Bool.false_eq_true, if_false]
      exact ih (s.emit (Effect.CloseConstrainedWindow w)) (Nat.le_of_lt hlt)

/-- C25: whichever windows take themselves out of the list while they are being
closed (`removes`), the descending loop over the indices of `child_windows_`,
the one of `MaybeCloseChildWindows` and of the destructor, reads only indices
that are in bounds of the list as it is at that moment (the loop has a
result), and the close requests it makes are the windows that were in the list
at the start, each as often as it was there; when these are distinct, that is
each exactly once, in descending order of their index.  With no window
leaving the list it is the loop of the two methods. -/
theorem close_loop_reentrant (s : WebContents) (removes : ConstrainedWindow → Bool) :
    (∃ (t : WebContents) (closed : List ConstrainedWindow),
      s.closeChildWindowsBelowReentrant removes s.child_windows_.length = some t ∧
      emittedSince s t = closed.map Effect.CloseConstrainedWindow ∧
      closed.Perm (s.child_windows_.filterMap id)) ∧
    ((s.child_windows_.filterMap id).Nodup →
      ∃ t : WebContents,
        s.closeChildWindowsBelowReentrant removes s.child_windows_.length = some t ∧
        emittedSince s t = closeRequests s.child_windows_) ∧
    s.closeChildWindowsBelowReentrant (fun _ => false) s.child_windows_.length =
      some (s.closeChildWindowsBelow s.child_windows_.length) := by
  refine ⟨?_, ?_, closeChildWindowsBelowReentrant_never _ s (le_refl _)⟩
  · obtain ⟨t, closed, h1, h2, h3⟩ :=
      closeChildWindowsBelowReentrant_perm removes s.child_windows_.length s (le_refl _)
    rw [List.take_length] at h3
    exact ⟨t, closed, h1, emittedSince_of_append s t _ h2, h3⟩
  · intro hnd
    obtain ⟨t, h1, h2⟩ :=
      closeChildWindowsBelowReentrant_order removes s.child_windows_.length s (le_refl _)
        (by rw [List.take_length]; exact hnd)
    rw [List.take_length] at h2
    exact ⟨t, h1, emittedSince_of_append s t _ h2⟩

/-- C25 at a concrete input: with the windows 7 and 8 and an empty slot between
them, both leaving the list when closed, the loop asks 8 and then 7 to close
and ends with the empty slot alone. -/
theorem close_loop_reentrant_witness :
    (exampleChildWindowsTab.child_windows_.filterMap id).Nodup ∧
    (∃ t : WebContents,
      exampleChildWindowsTab.closeChildWindowsBelowReentrant (fun _ => true)
        exampleChildWindowsTab.child_windows_.length = some t ∧
      emittedSince exampleChildWindowsTab t =
        closeRequests exampleChildWindowsTab.child_windows_) ∧
    closeRequests exampleChildWindowsTab.child_windows_ =
      [Effect.CloseConstrainedWindow 8, Effect.CloseConstrainedWindow 7] ∧
    (exampleChildWindowsTab.closeChildWindowsBelowReentrant (fun _ => true) 3).map
      (fun t => t.child_windows_) = some [none] :=
  ⟨by decide,
   (close_loop_reentrant exampleChildWindowsTab (fun _ => true)).2.1 (by decide),
   by decide, by decide⟩

/-! ### Waiting only while loading -/

theorem waitingWhileLoading_apply (v : View) (op : ViewOp) (h : v.waitingWhileLoading) :
    (v.apply op).waitingWhileLoading := by
  unfold View.waitingWhileLoading at *
  cases op with
  | SetIsLoading x =>
    simp only [View.apply]
    by_cases hx : x = v.is_loading
    · simp only [hx, beq_self_eq_true, if_true]; exact h
    · cases x <;> simp_all
  | SetNotWaitingForResponse => simp [View.apply]
  | LoadStateChanged ls host =>
    simp only [View.apply]
    split
    · simp
    · exact h
  | NotifyDisconnected =>
    simp only [View.apply]
    split <;> exact h
  | DialogClosed now => exact h
  | NotifyConnected => exact h
  | NotifySwapped => exact h

theorem waitingWhileLoading_applyAll (ops : List ViewOp) :
    ∀ v : View, v.waitingWhileLoading → (v.applyAll ops).waitingWhileLoading := by
  induction ops with
  | nil => intro v h; exact h
  | cons op rest ih => intro v h; exact ih _ (waitingWhileLoading_apply v op h)

theorem waitingWhileLoading_run (history : List (Services × Op)) :
    ∀ s : WebContents, s.view.waitingWhileLoading → (s.run history).view.waitingWhileLoading := by
  induction history with
  | nil => intro s h; exact h
  | cons eo rest ih =>
    intro s h
    obtain ⟨env, op⟩ := eo
    apply ih
    rw [view_step]
    exact waitingWhileLoading_applyAll _ _ h

/-- C26: in every state reached from a fresh tab by any history of operations
(among them `SetIsLoading`, `DidStartLoading`, `DidStopLoading`,
`LoadStateChanged`, `UpdateTitle` and `RenderViewGone`), a tab that waits for
the response is loading. -/
theorem waiting_implies_loading (profile : Profile) (endpoint : Endpoint)
    (url_model : Option TemplateURLModel) (history : List (Services × Op))
    (hw : ((WebContents.fresh profile endpoint url_model).run history).waiting_for_response_ =
      true) :
    ((WebContents.fresh profile endpoint url_model).run history).is_loading_ = true := by
  have h0 : (WebContents.fresh profile endpoint url_model).view.waitingWhileLoading := by
    intro hc
    exact absurd hc (by simp [WebContents.view, WebContents.fresh])
  exact waitingWhileLoading_run history _ h0 hw

/-- C26 at a concrete history: after `DidStartLoading` the fresh tab waits for the
response and is loading; a title then ends the wait, and the tab still loads. -/
theorem waiting_implies_loading_witness :
    (exampleTab.run [(exampleServices, Op.DidStartLoading 1 0)]).waiting_for_response_ = true ∧
    (exampleTab.run [(exampleServices, Op.DidStartLoading 1 0)]).is_loading_ = true ∧
    (exampleTab.run [(exampleServices, Op.DidStartLoading 1 0),
      (exampleServices, Op.UpdateTitle 1 0 "t")]).waiting_for_response_ = false :=
  ⟨by decide,
   waiting_implies_loading exampleProfile exampleEndpoint none
     [(exampleServices, Op.DidStartLoading 1 0)] (by decide),
   by decide⟩

/-! ### A frame-navigate message that the controller rejects -/

theorem mime_DidNavigateMainFramePostCommit (s : WebContents) (env : Services)
    (details : LoadCommittedDetails) (params : FrameNavigateParams) :
    (s.DidNavigateMainFramePostCommit env details params).contents_mime_type_ =
      s.contents_mime_type_ := by
  have hstar : ∀ t : WebContents, (t.UpdateStarredStateForCurrentURL env).contents_mime_type_ =
      t.contents_mime_type_ := by
    intro t
    unfold WebContents.UpdateStarredStateForCurrentURL
    simp only
    split <;> simp [WebContents.emit]
  have hclose : ∀ (t : WebContents) (p c : GURL),
      (t.MaybeCloseChildWindows env p c).contents_mime_type_ = t.contents_mime_type_ := by
    intro t p c
    unfold WebContents.MaybeCloseChildWindows
    split
    · rfl
    · rw [closeChildWindowsBelow_spec]
  have hkey : ∀ t : WebContents,
      (t.GenerateKeywordIfNecessary env params).contents_mime_type_ =
        t.contents_mime_type_ := by
    intro t
    unfold WebContents.GenerateKeywordIfNecessary
    simp only
    repeat' split
    all_goals rfl
  have hshelf : ∀ t : WebContents, (t.SetDownloadShelfVisible env false).contents_mime_type_ =
      t.contents_mime_type_ := by
    intro t
    unfold WebContents.SetDownloadShelfVisible
    simp only
    repeat' split
    all_goals simp [WebContents.emit]
  have htarget : ∀ (t : WebContents) (p : Int) (u : GURL),
      (t.UpdateTargetURL p u).contents_mime_type_ = t.contents_mime_type_ := by
    intro t p u
    unfold WebContents.UpdateTargetURL
    split <;> rfl
  unfold WebContents.DidNavigateMainFramePostCommit
  simp only
  rw [hstar, hclose]
  simp only [WebContents.emit]
  rw [hkey]
  repeat' split
  all_goals simp [WebContents.emit, htarget, hshelf]

theorem mime_DidNavigateAnyFramePostCommit (s : WebContents) (env : Services)
    (rvh : RenderViewHost) (details : LoadCommittedDetails) (params : FrameNavigateParams) :
    (s.DidNavigateAnyFramePostCommit env rvh details params).contents_mime_type_ =
      s.contents_mime_type_ := by
  unfold WebContents.DidNavigateAnyFramePostCommit WebContents.UpdateHistoryForNavigation
  simp only
  repeat' split
  all_goals simp [WebContents.emit]

theorem mime_DidNavigate (s : WebContents) (env : Services) (rvh : RenderViewHost)
    (params : FrameNavigateParams) (hm : PageTransition.IsMainFrame params.transition = false) :
    (s.DidNavigate env rvh params).contents_mime_type_ = s.contents_mime_type_ := by
  unfold WebContents.DidNavigate
  simp only [hm, Bool.false_eq_true, if_false]
  have h2 : (if !s.GetSiteInstance.site.isSome then s.SetSite params.url
      else s).contents_mime_type_ = s.contents_mime_type_ := by
    split <;> rfl
  generalize (if !s.GetSiteInstance.site.isSome then s.SetSite params.url else s) = s2 at h2 ⊢
  cases hr : env.RendererDidNavigate s2.controller_ params with
  | none => exact h2
  | some cd =>
    obtain ⟨c, d⟩ := cd
    simp only
    rw [mime_DidNavigateAnyFramePostCommit]
    split
    · rw [mime_DidNavigateMainFramePostCommit]
      exact h2
    · exact h2

/-- What `DidNavigate` leaves when the controller rejects the message: the commit
hook of the manager, `SetSite` when the site instance has no site yet, and the
MIME type of a main-frame message; nothing after that. -/
theorem DidNavigate_rejected (s : WebContents) (env : Services) (rvh : RenderViewHost)
    (params : FrameNavigateParams)
    (h : env.RendererDidNavigate s.controller_ params = none) :
    (s.DidNavigate env rvh params).suppress_javascript_messages_ =
        s.suppress_javascript_messages_ ∧
    (s.DidNavigate env rvh params).received_page_title_ = s.received_page_title_ ∧
    (s.DidNavigate env rvh params).shelf_visible_ = s.shelf_visible_ ∧
    (s.DidNavigate env rvh params).is_starred_ = s.is_starred_ ∧
    (s.DidNavigate env rvh params).child_windows_ = s.child_windows_ ∧
    (s.DidNavigate env rvh params).template_url_model_ = s.template_url_model_ ∧
    (s.DidNavigate env rvh params).controller_ = s.controller_ ∧
    (emittedSince s (s.DidNavigate env rvh params) = [] ∨
      emittedSince s (s.DidNavigate env rvh params) =
        [Effect.Notify NotificationType.WEB_CONTENTS_SWAPPED NotificationDetails.NoDetails]) := by
  cases hm : PageTransition.IsMainFrame params.transition <;>
    cases hp : s.render_manager_.pending_host with
    | none =>
      cases hs : s.render_manager_.current_host.site_instance.site <;>
        simp [WebContents.DidNavigate, WebContents.render_manager_DidNavigateMainFrame,
          WebContents.GetSiteInstance, WebContents.SetSite, hm, hp, hs, h, emittedSince]
    | some p =>
      cases hq : (p.host == rvh) <;>
        cases hs : s.render_manager_.current_host.site_instance.site <;>
        cases hps : p.site_instance.site <;>
        simp [WebContents.DidNavigate, WebContents.render_manager_DidNavigateMainFrame,
          WebContents.GetSiteInstance, WebContents.SetSite, WebContents.NotifySwapped,
          WebContents.emit, hm, hp, hq, hs, hps, h, emittedSince]

/-- C27: when the controller rejects the frame-navigate message
(`RendererDidNavigate` fails), `DidNavigate` runs no post-commit task:
`suppress_javascript_messages_`, `received_page_title_`, the visibility of the
download shelf, the starred state, the list of child windows, the keyword model
and the controller are as they were, no call goes to the history service, and
the only call it can have made is the announcement of a swap by the commit
hook of the manager.  And whatever the controller says, a message whose
transition is not one of the main frame leaves `contents_mime_type_` as it
was. -/
theorem rejected_navigation_runs_no_post_commit (s : WebContents) (env : Services)
    (rvh : RenderViewHost) (params : FrameNavigateParams) :
    (env.RendererDidNavigate s.controller_ params = none →
      (s.DidNavigate env rvh params).suppress_javascript_messages_ =
          s.suppress_javascript_messages_ ∧
      (s.DidNavigate env rvh params).received_page_title_ = s.received_page_title_ ∧
      (s.DidNavigate env rvh params).shelf_visible_ = s.shelf_visible_ ∧
      (s.DidNavigate env rvh params).is_starred_ = s.is_starred_ ∧
      (s.DidNavigate env rvh params).child_windows_ = s.child_windows_ ∧
      (s.DidNavigate env rvh params).template_url_model_ = s.template_url_model_ ∧
      (s.DidNavigate env rvh params).controller_ = s.controller_ ∧
      (∀ e ∈ emittedSince s (s.DidNavigate env rvh params), isHistoryCall e = false) ∧
      (emittedSince s (s.DidNavigate env rvh params) = [] ∨
        emittedSince s (s.DidNavigate env rvh params) =
          [Effect.Notify NotificationType.WEB_CONTENTS_SWAPPED
            NotificationDetails.NoDetails])) ∧
    (PageTransition.IsMainFrame params.transition = false →
      (s.DidNavigate env rvh params).contents_mime_type_ = s.contents_mime_type_) := by
  refine ⟨?_, mime_DidNavigate s env rvh params⟩
  intro h
  obtain ⟨h1, h2, h3, h4, h5, h6, h7, h8⟩ := DidNavigate_rejected s env rvh params h
  refine ⟨h1, h2, h3, h4, h5, h6, h7, ?_, h8⟩
  intro e he
  rcases h8 with h8 | h8
  · rw [h8] at he
    exact absurd he (List.not_mem_nil e)
  · rw [h8] at he
    rw [List.mem_singleton.mp he]
    rfl

/-- C27 at concrete inputs: the suppressed tab keeps its suppression when the
controller rejects the message, and a committed subframe message leaves the
MIME type of the tab alone. -/
theorem rejected_navigation_runs_no_post_commit_witness :
    exampleServices.RendererDidNavigate exampleSuppressedTab.controller_ exampleParams = none ∧
    exampleSuppressedTab.suppress_javascript_messages_ = true ∧
    (exampleSuppressedTab.DidNavigate exampleServices 1 exampleParams).suppress_javascript_messages_ =
      exampleSuppressedTab.suppress_javascript_messages_ ∧
    PageTransition.IsMainFrame exampleSubframeParams.transition = false ∧
    (exampleTab.DidNavigate exampleCommitting 1 exampleSubframeParams).contents_mime_type_ =
      exampleTab.contents_mime_type_ :=
  ⟨rfl, by decide,
   ((rejected_navigation_runs_no_post_commit exampleSuppressedTab exampleServices 1
      exampleParams).1 rfl).1,
   by decide,
   (rejected_navigation_runs_no_post_commit exampleTab exampleCommitting 1
      exampleSubframeParams).2 (by decide)⟩

/-! ### Find replies -/

/-- C28: a find reply whose request id is not the current one leaves the tab as
it is, stored result included, and posts nothing.  Otherwise the stored result
becomes the values of the reply, with the stored number of matches kept when
the reply says -1 and the stored ordinal kept when the reply says -1, and
exactly one `FIND_RESULT_AVAILABLE` is posted, carrying the stored result. -/
theorem OnFindReply_spec (s : WebContents) (request_id number_of_matches : Int)
    (selection_rect : Rect) (active_match_ordinal : Int) (final_update : Bool) :
    s.OnFindReply request_id number_of_matches selection_rect active_match_ordinal
        final_update =
      (if request_id = s.current_find_request_id_ then
        ({ s with
            find_result_ :=
              { request_id := request_id
                number_of_matches :=
                  if number_of_matches = -1 then s.find_result_.number_of_matches
                  else number_of_matches
                selection_rect := selection_rect
                active_match_ordinal :=
                  if active_match_ordinal = -1 then s.find_result_.active_match_ordinal
                  else active_match_ordinal
                final_update := final_update } } : WebContents).emit
          (Effect.Notify NotificationType.FIND_RESULT_AVAILABLE
            (NotificationDetails.Find
              { request_id := request_id
                number_of_matches :=
                  if number_of_matches = -1 then s.find_result_.number_of_matches
                  else number_of_matches
                selection_rect := selection_rect
                active_match_ordinal :=
                  if active_match_ordinal = -1 then s.find_result_.active_match_ordinal
                  else active_match_ordinal
                final_update := final_update }))
       else s) ∧
    emittedSince s
        (s.OnFindReply request_id number_of_matches selection_rect active_match_ordinal
          final_update) =
      (if request_id = s.current_find_request_id_ then
        [Effect.Notify NotificationType.FIND_RESULT_AVAILABLE
          (NotificationDetails.Find
            (s.OnFindReply request_id number_of_matches selection_rect active_match_ordinal
              final_update).find_result_)]
       else []) := by
  unfold WebContents.OnFindReply
  by_cases h : request_id = s.current_find_request_id_
  · simp [h, WebContents.emit, emittedSince]
  · simp [h, emittedSince_self]

theorem OnFindReply_examples :
    (exampleFindTab.OnFindReply 4 (-1) { x := 1, y := 2, width := 3, height := 4 } 2
        true).find_result_ =
      { request_id := 4, number_of_matches := 3,
        selection_rect := { x := 1, y := 2, width := 3, height := 4 },
        active_match_ordinal := 2, final_update := true } ∧
    exampleFindTab.OnFindReply 3 9 { x := 1, y := 2, width := 3, height := 4 } 2 true =
      exampleFindTab := by
  decide

/-! ### History entries -/

theorem replaceLast_spec {α : Type} (l : List α) (d : α) (h : l ≠ []) :
    (l.dropLast ++ [d]).length = l.length ∧
    (∀ i, i + 1 < l.length → (l.dropLast ++ [d]).get? i = l.get? i) ∧
    (l.dropLast ++ [d]).getLast? = some d := by
  have hpos : 0 < l.length := List.length_pos.mpr h
  refine ⟨?_, ?_, ?_⟩
  · simp [List.length_dropLast]
    omega
  · intro i hi
    have hlt : i < l.dropLast.length := by
      simp [List.length_dropLast]
      omega
    rw [List.get?_eq_getElem?, List.get?_eq_getElem?, List.getElem?_append_left hlt,
      List.dropLast_eq_take, List.getElem?_take]
    simp
    intro hc
    omega
  · simp

/-- C29: in a profile that is not off the record and has a history service,
`UpdateHistoryForNavigation` adds exactly one page, with the page id, the
referrer and the transition of the message.  For a main-frame transition whose
display URL differs from the navigated URL the page is the display URL and the
redirect list is the message's with its last element replaced by the display
URL: the same length, equal at every position but the last, the display URL
last, and empty if the message's is empty.  Otherwise the page is the
navigated URL and the redirect list is the message's. -/
theorem UpdateHistoryForNavigation_spec (s : WebContents) (display_url : GURL)
    (params : FrameNavigateParams)
    (hrec : s.profile_.is_off_the_record = false)
    (hhs : s.profile_.has_history_service = true) :
    ∃ (url : GURL) (redirects : List GURL),
      emittedSince s (s.UpdateHistoryForNavigation display_url params) =
        [Effect.history_AddPage url params.page_id params.referrer params.transition
          redirects] ∧
      (PageTransition.IsMainFrame params.transition = true ∧ display_url ≠ params.url →
        url = display_url ∧
        redirects.length = params.redirects.length ∧
        (∀ i, i + 1 < params.redirects.length →
          redirects.get? i = params.redirects.get? i) ∧
        (params.redirects ≠ [] → redirects.getLast? = some display_url) ∧
        (params.redirects = [] → redirects = [])) ∧
      (¬ (PageTransition.IsMainFrame params.transition = true ∧ display_url ≠ params.url) →
        url = params.url ∧ redirects = params.redirects) := by
  unfold WebContents.UpdateHistoryForNavigation
  simp only [hrec, hhs, Bool.false_eq_true, if_false, if_true]
  by_cases hc : PageTransition.IsMainFrame params.transition = true ∧ display_url ≠ params.url
  · have hcond : (PageTransition.IsMainFrame params.transition &&
        display_url != params.url) = true := by
      simp [hc.1, hc.2]
    simp only [hcond, if_true]
    by_cases he : params.redirects = []
    · refine ⟨display_url, [], ?_, ?_, fun hn => absurd hc hn⟩
      · simp [he, WebContents.emit, emittedSince]
      · intro _
        exact ⟨rfl, by simp [he], by simp [he], fun hne => absurd he hne, fun _ => rfl⟩
    · obtain ⟨r1, r2, r3⟩ := replaceLast_spec params.redirects display_url he
      refine ⟨display_url, params.redirects.dropLast ++ [display_url], ?_, ?_,
        fun hn => absurd hc hn⟩
      · have : params.redirects.isEmpty = false := by
          cases hr : params.redirects with
          | nil => exact absurd hr he
          | cons a l => rfl
        simp [this, WebContents.emit, emittedSince]
      · intro _
        exact ⟨rfl, r1, r2, fun _ => r3, fun hn => absurd hn he⟩
  · have hcond : (PageTransition.IsMainFrame params.transition &&
        display_url != params.url) = false := by
      cases hm : PageTransition.IsMainFrame params.transition
      · simp
      · have : display_url = params.url := by
          by_contra hne
          exact hc ⟨hm, hne⟩
        simp [this]
    simp only [hcond, Bool.false_eq_true, if_false]
    exact ⟨params.url, params.redirects, by simp [WebContents.emit, emittedSince],
      fun h => absurd h hc, fun _ => ⟨rfl, rfl⟩⟩

/-- C29 at a concrete input: a main-frame message for `exampleOtherURL` with two
redirects, shown to the user as `exampleFileURL`, goes to history as the
display URL with its second redirect replaced by the display URL. -/
theorem UpdateHistoryForNavigation_spec_witness :
    exampleTab.profile_.is_off_the_record = false ∧
    exampleTab.profile_.has_history_service = true ∧
    (∃ (url : GURL) (redirects : List GURL),
      emittedSince exampleTab
          (exampleTab.UpdateHistoryForNavigation exampleFileURL exampleRedirectParams) =
        [Effect.history_AddPage url exampleRedirectParams.page_id
          exampleRedirectParams.referrer exampleRedirectParams.transition redirects] ∧
      (PageTransition.IsMainFrame exampleRedirectParams.transition = true ∧
          exampleFileURL ≠ exampleRedirectParams.url →
        url = exampleFileURL ∧
        redirects.length = exampleRedirectParams.redirects.length ∧
        (∀ i, i + 1 < exampleRedirectParams.redirects.length →
          redirects.get? i = exampleRedirectParams.redirects.get? i) ∧
        (exampleRedirectParams.redirects ≠ [] → redirects.getLast? = some exampleFileURL) ∧
        (exampleRedirectParams.redirects = [] → redirects = [])) ∧
      (¬ (PageTransition.IsMainFrame exampleRedirectParams.transition = true ∧
          exampleFileURL ≠ exampleRedirectParams.url) →
        url = exampleRedirectParams.url ∧ redirects = exampleRedirectParams.redirects)) ∧
    emittedSince exampleTab
        (exampleTab.UpdateHistoryForNavigation exampleFileURL exampleRedirectParams) =
      [Effect.history_AddPage exampleFileURL 2 GURL.EmptyGURL PageTransition.LINK
        [exampleURL, exampleFileURL]] :=
  ⟨rfl, rfl,
   UpdateHistoryForNavigation_spec exampleTab exampleFileURL exampleRedirectParams rfl rfl,
   by decide⟩

/-! ### Links opened from a privileged page -/

/-- C30: while a privileged page is committed, `RequestOpenURL` forwards the
empty referrer and the link transition type of that page, whatever referrer
the content process supplied: two requests that differ in the supplied
referrer alone make the same `OpenURL` call and leave the same tab.  With no
privileged page committed the supplied referrer is forwarded as it is, with
the transition `LINK`. -/
theorem RequestOpenURL_hides_referrer (s : WebContents) (url referrer referrer' : GURL)
    (disposition : WindowOpenDisposition) :
    (∀ dom_ui : DOMUI, s.render_manager_.dom_ui = some dom_ui →
      emittedSince s (s.RequestOpenURL url referrer disposition) =
        [Effect.OpenURL url GURL.EmptyGURL disposition dom_ui.link_transition_type] ∧
      GURL.EmptyGURL.is_empty = true ∧
      s.RequestOpenURL url referrer disposition = s.RequestOpenURL url referrer' disposition) ∧
    (s.render_manager_.dom_ui = none →
      emittedSince s (s.RequestOpenURL url referrer disposition) =
        [Effect.OpenURL url referrer disposition PageTransition.LINK]) := by
  refine ⟨?_, ?_⟩
  · intro dom_ui h
    unfold WebContents.RequestOpenURL
    rw [h]
    exact ⟨by simp [WebContents.emit, emittedSince], rfl, rfl⟩
  · intro h
    unfold WebContents.RequestOpenURL
    rw [h]
    simp [WebContents.emit, emittedSince]

/-- C30 at concrete inputs: on the tab with a privileged page committed, a link
with the referrer `exampleURL` and one with `exampleOtherURL` make the same
call, without referrer and as `AUTO_BOOKMARK`; on the plain tab the referrer
`exampleURL` is passed on with `LINK`. -/
theorem RequestOpenURL_hides_referrer_witness :
    emittedSince exampleDOMUITab (exampleDOMUITab.RequestOpenURL exampleSearchURL exampleURL 0) =
      [Effect.OpenURL exampleSearchURL GURL.EmptyGURL 0
        { core := PageTransitionCore.AUTO_BOOKMARK, qualifier := 0 }] ∧
    exampleDOMUITab.RequestOpenURL exampleSearchURL exampleURL 0 =
      exampleDOMUITab.RequestOpenURL exampleSearchURL exampleOtherURL 0 ∧
    emittedSince exampleTab (exampleTab.RequestOpenURL exampleSearchURL exampleURL 0) =
      [Effect.OpenURL exampleSearchURL exampleURL 0 PageTransition.LINK] :=
  ⟨((RequestOpenURL_hides_referrer exampleDOMUITab exampleSearchURL exampleURL exampleOtherURL
      0).1 { overridden_title := ""
             link_transition_type :=
              { core := PageTransitionCore.AUTO_BOOKMARK, qualifier := 0 } } rfl).1,
   ((RequestOpenURL_hides_referrer exampleDOMUITab exampleSearchURL exampleURL exampleOtherURL
      0).1 { overridden_title := ""
             link_transition_type :=
              { core := PageTransitionCore.AUTO_BOOKMARK, qualifier := 0 } } rfl).2.2,
   (RequestOpenURL_hides_referrer exampleTab exampleSearchURL exampleURL exampleOtherURL
      0).2 rfl⟩

end WebContentsModel
